import Mathlib

/-!
# Peer link management of the 802.11s mesh stack (ns3::dot11s::PeerLink)

A shallow embedding of `src/mesh/model/dot11s/peer-link.{h,cc}`.

* The object `PeerLink` is a record of its data members; every member function
  is a function from the record before the call to the record after it.
* Calls that leave the object (frames handed to the MAC plugin, the link status
  callback, the failure average pushed to the plugin) are appended, in program
  order, to the field `m_effects`.
* `NS_ASSERT` aborts the process in a debug build and compiles to nothing in an
  optimized build.  The embedding appends every violated assertion to the field
  `m_failedAsserts` and goes on; a run in which this list stays empty is a run of
  both builds, and a run of the debug build ends where the list first grows.
* Machine integers are natural numbers; an increment of a `uint16_t` is taken
  modulo `2 ^ 16`.
-/

set_option linter.dupNamespace false

namespace Dot11s

/-! ## Types declared outside the translated sources -/

/-- Modelled from the spec: a link-layer address (class Mac48Address of the host
library is not among the sources); the 48-bit value of the address. -/
abbrev Mac48Address := Nat

/-- Modelled from the spec: the broadcast address ff:ff:ff:ff:ff:ff, which the
constructor of PeerLink uses as the placeholder for a mesh-point address that is
not known yet. -/
def Mac48Address.GetBroadcast : Mac48Address := 0xffffffffffff

/-- Modelled from the spec: the configuration payload carried by peering frames
(class IeConfiguration belongs to the excluded information-element layer); the
state machine only stores it and hands it back, so it is a bare token. -/
abbrev IeConfiguration := Nat

/-- Modelled from the spec: a duration or instant of the host scheduler (class
Time is not among the sources), in nanoseconds. -/
abbrev Time := Int

/-- Modelled from the spec: Time of a number of microseconds. -/
def MicroSeconds (us : Int) : Time := us * 1000

/-- Modelled from the spec: whole microseconds of a Time (truncated). -/
def Time.GetMicroSeconds (t : Time) : Int := Int.tdiv t 1000

/-- Modelled from the spec: Time of a number of milliseconds. -/
def MilliSeconds (ms : Int) : Time := ms * 1000000

/-- Modelled from the spec: whole milliseconds of a Time (truncated). -/
def Time.GetMilliSeconds (t : Time) : Int := Int.tdiv t 1000000

/-- Modelled from the spec: a timer handle of the host scheduler (class EventId and
Simulator::Schedule are not among the sources).  Following section 5 of the spec,
a handle is either pending, `some delay` with the delay it was scheduled for, or
not pending, `none` (never armed, cancelled or already fired); arming a handle
that is pending replaces the earlier instance. -/
abbrev EventId := Option Time

/-- Modelled from the spec: EventId::Cancel; cancelling a handle that is not
pending is a no-op. -/
def EventId.Cancel (_e : EventId) : EventId := none

/-- Modelled from the spec: EventId::IsRunning. -/
def EventId.IsRunning (e : EventId) : Bool := e.isSome

/-- Modelled from the spec: Simulator::Schedule (delay, handler, this); the handler is
fixed by the data member the result is assigned to. -/
def Simulator.Schedule (delay : Time) : EventId := some delay

/-- Modelled from the spec: the reason codes of a peering close (enum PmpReasonCode
of the excluded peer-management element).  The five enumerators that peer-link.cc
names are constructors of their own; `other` stands for every remaining
enumerator. -/
inductive PmpReasonCode where
  | REASON11S_PEERING_CANCELLED
  | REASON11S_MESH_CLOSE_RCVD
  | REASON11S_MESH_MAX_RETRIES
  | REASON11S_MESH_CONFIRM_TIMEOUT
  | REASON11S_RESERVED
  | other (code : Nat)
  deriving DecidableEq

/-- Modelled from the spec: the peer-management element of an outgoing frame (class
IePeerManagement is not among the sources), as built by SetPeerOpen,
SetPeerConfirm and SetPeerClose: "send Open(localLinkId)",
"send Confirm(localLinkId, peerLinkId)",
"send Close(localLinkId, peerLinkId, reasonCode)". -/
inductive IePeerManagement where
  | PeerOpen (localLinkId : Nat)
  | PeerConfirm (localLinkId peerLinkId : Nat)
  | PeerClose (localLinkId peerLinkId : Nat) (reasonCode : PmpReasonCode)
  deriving DecidableEq

/-- Modelled from the spec: one entry of the beacon-timing element received from a
neighbour (class IeBeaconTimingUnit is not among the sources). -/
structure IeBeaconTimingUnit where
  aid : Nat
  lastBeacon : Nat
  beaconInterval : Nat
  deriving DecidableEq

/-- Modelled from the spec: the beacon-timing element, the list returned by
GetNeighboursTimingElementsList. -/
abbrev IeBeaconTiming := List IeBeaconTimingUnit

/-! ## peer-link.h -/

/-- Peer link state (enum PeerState). -/
inductive PeerState where
  | IDLE
  | OPN_SNT
  | CNF_RCVD
  | OPN_RCVD
  | ESTAB
  | HOLDING
  deriving DecidableEq

/-- Peer link events (enum PeerEvent). -/
inductive PeerEvent where
  | CNCL
  | ACTOPN
  | CLS_ACPT
  | OPN_ACPT
  | OPN_RJCT
  | REQ_RJCT
  | CNF_ACPT
  | CNF_RJCT
  | TOR1
  | TOR2
  | TOC
  | TOH
  deriving DecidableEq

/-- History of the last beacons on the link (struct BeaconHistory). -/
structure BeaconHistory where
  fwdBeacons : Nat
  revBeacons : Nat
  missedBeacons : Nat
  lastRemBeaconUpdateTu : Nat
  deriving DecidableEq

/-- The default constructor of BeaconHistory. -/
def BeaconHistory.BeaconHistory : BeaconHistory :=
  { fwdBeacons := 0xffffffff, revBeacons := 0xffffffff, missedBeacons := 0,
    lastRemBeaconUpdateTu := 0 }

/-- A call that leaves the PeerLink object: a management frame handed to the MAC
plugin, a failure average pushed to the MAC plugin, or an invocation of the link
status callback (interface, peer address, peer mesh-point address, old state, new
state). -/
inductive Effect where
  | SendPeerLinkManagementFrame (peerAddress peerMpAddress : Mac48Address) (aid : Nat)
      (peerElement : IePeerManagement) (meshConfig : IeConfiguration)
  | UpdateFailAvg (peerAddress : Mac48Address) (failAvg : ℚ)
  | linkStatusCallback (interface : Nat) (peerAddress peerMeshPointAddress : Mac48Address)
      (ostate nstate : PeerState)
  deriving DecidableEq

/-- The assertions (NS_ASSERT) of peer-link.cc, named after what they require. -/
inductive NsAssert where
  | beaconLossDelayNonZero
  | peerMeshPointAddressMatches
  | peerMeshPointAddressKnown
  | holdingTimeoutNonZero
  | retryTimeoutNonZero
  | confirmTimeoutNonZero
  deriving DecidableEq

/-- The data members of class PeerLink.  The collaborators `m_macPlugin` and
`m_linkStatusCallback` are represented by the calls made on them, `m_effects`
(oldest first); `m_failedAsserts` lists the assertions violated so far. -/
structure PeerLink where
  m_beaconsOnLink : BeaconHistory
  m_interface : Nat
  m_peerAddress : Mac48Address
  m_peerMeshPointAddress : Mac48Address
  m_localLinkId : Nat
  m_peerLinkId : Nat
  m_assocId : Nat
  m_peerAssocId : Nat
  m_lastBeacon : Time
  m_beaconInterval : Time
  m_packetFail : Nat
  m_beaconWinSize : Nat
  m_beaconIntervalTol : Nat
  m_prevBeaconTiming : Nat
  m_state : PeerState
  m_configuration : IeConfiguration
  m_beaconTiming : IeBeaconTiming
  m_dot11MeshMaxRetries : Nat
  m_dot11MeshRetryTimeout : Time
  m_dot11MeshHoldingTimeout : Time
  m_dot11MeshConfirmTimeout : Time
  m_retryTimer : EventId
  m_holdingTimer : EventId
  m_confirmTimer : EventId
  m_retryCounter : Nat
  m_beaconLossTimer : EventId
  m_beaconMissedTimer : EventId
  m_maxBeaconLoss : Nat
  m_maxPacketFail : Nat
  m_newLink : Bool
  m_effects : List Effect
  m_failedAsserts : List NsAssert
  deriving DecidableEq

/-! ## peer-link.cc -/

/-- The constructor PeerLink::PeerLink followed by the attribute defaults of
GetTypeId (RetryTimeout, HoldingTimeout, ConfirmTimeout 40 * 1024 microseconds,
MaxRetries 4, MaxBeaconLoss 2, MaxPacketFailure 2, BeaconWinSize 20), as an
object created through the object factory is set up.  The two members that the
constructor leaves without a value, m_interface and m_prevBeaconTiming, are
arguments. -/
def PeerLink.PeerLink (m_interface m_prevBeaconTiming : Nat) : PeerLink :=
  { m_beaconsOnLink := BeaconHistory.BeaconHistory
    m_interface := m_interface
    m_peerAddress := Mac48Address.GetBroadcast
    m_peerMeshPointAddress := Mac48Address.GetBroadcast
    m_localLinkId := 0
    m_peerLinkId := 0
    m_assocId := 0
    m_peerAssocId := 0
    m_lastBeacon := 0
    m_beaconInterval := 0
    m_packetFail := 0
    m_beaconWinSize := 20
    m_beaconIntervalTol := 35
    m_prevBeaconTiming := m_prevBeaconTiming
    m_state := PeerState.IDLE
    m_configuration := 0
    m_beaconTiming := []
    m_dot11MeshMaxRetries := 4
    m_dot11MeshRetryTimeout := MicroSeconds (40 * 1024)
    m_dot11MeshHoldingTimeout := MicroSeconds (40 * 1024)
    m_dot11MeshConfirmTimeout := MicroSeconds (40 * 1024)
    m_retryTimer := none
    m_holdingTimer := none
    m_confirmTimer := none
    m_retryCounter := 0
    m_beaconLossTimer := none
    m_beaconMissedTimer := none
    m_maxBeaconLoss := 2
    m_maxPacketFail := 2
    m_newLink := true
    m_effects := []
    m_failedAsserts := [] }

/-- PeerLink::SetPeerAddress. -/
def SetPeerAddress (macaddr : Mac48Address) (l : PeerLink) : PeerLink :=
  { l with m_peerAddress := macaddr }

/-- PeerLink::SetPeerMeshPointAddress. -/
def SetPeerMeshPointAddress (macaddr : Mac48Address) (l : PeerLink) : PeerLink :=
  { l with m_peerMeshPointAddress := macaddr }

/-- PeerLink::SetInterface. -/
def SetInterface (interface : Nat) (l : PeerLink) : PeerLink :=
  { l with m_interface := interface }

/-- PeerLink::SetLocalLinkId. -/
def SetLocalLinkId (id : Nat) (l : PeerLink) : PeerLink :=
  { l with m_localLinkId := id }

/-- PeerLink::SetLocalAid. -/
def SetLocalAid (aid : Nat) (l : PeerLink) : PeerLink :=
  { l with m_assocId := aid }

/-- NS_ASSERT (cond): a violated assertion is recorded, a valid one leaves no
trace. -/
def NS_ASSERT (cond : Bool) (a : NsAssert) (l : PeerLink) : PeerLink :=
  { l with m_failedAsserts := l.m_failedAsserts ++ (if cond then [] else [a]) }

/-- The call m_linkStatusCallback (m_interface, m_peerAddress,
m_peerMeshPointAddress, ostate, nstate). -/
def m_linkStatusCallback (ostate nstate : PeerState) (l : PeerLink) : PeerLink :=
  { l with m_effects := l.m_effects ++
      [Effect.linkStatusCallback l.m_interface l.m_peerAddress l.m_peerMeshPointAddress
        ostate nstate] }

/-- PeerLink::ClearRetryTimer. -/
def ClearRetryTimer (l : PeerLink) : PeerLink :=
  { l with m_retryTimer := EventId.Cancel l.m_retryTimer }

/-- PeerLink::ClearConfirmTimer. -/
def ClearConfirmTimer (l : PeerLink) : PeerLink :=
  { l with m_confirmTimer := EventId.Cancel l.m_confirmTimer }

/-- PeerLink::ClearHoldingTimer. -/
def ClearHoldingTimer (l : PeerLink) : PeerLink :=
  { l with m_holdingTimer := EventId.Cancel l.m_holdingTimer }

/-- PeerLink::SendPeerLinkClose. -/
def SendPeerLinkClose (reasoncode : PmpReasonCode) (l : PeerLink) : PeerLink :=
  let peerElement := IePeerManagement.PeerClose l.m_localLinkId l.m_peerLinkId reasoncode
  { l with m_effects := l.m_effects ++
      [Effect.SendPeerLinkManagementFrame l.m_peerAddress l.m_peerMeshPointAddress l.m_assocId
        peerElement l.m_configuration] }

/-- PeerLink::SendPeerLinkOpen.  The plugin is represented by the calls made on
it, so the assertion that the plugin pointer is set has nothing to check. -/
def SendPeerLinkOpen (l : PeerLink) : PeerLink :=
  let peerElement := IePeerManagement.PeerOpen l.m_localLinkId
  { l with m_effects := l.m_effects ++
      [Effect.SendPeerLinkManagementFrame l.m_peerAddress l.m_peerMeshPointAddress l.m_assocId
        peerElement l.m_configuration] }

/-- PeerLink::SendPeerLinkConfirm. -/
def SendPeerLinkConfirm (l : PeerLink) : PeerLink :=
  let peerElement := IePeerManagement.PeerConfirm l.m_localLinkId l.m_peerLinkId
  { l with m_effects := l.m_effects ++
      [Effect.SendPeerLinkManagementFrame l.m_peerAddress l.m_peerMeshPointAddress l.m_assocId
        peerElement l.m_configuration] }

/-- PeerLink::SetHoldingTimer. -/
def SetHoldingTimer (l : PeerLink) : PeerLink :=
  let l := NS_ASSERT (decide (Time.GetMicroSeconds l.m_dot11MeshHoldingTimeout ≠ 0))
    NsAssert.holdingTimeoutNonZero l
  { l with m_holdingTimer := Simulator.Schedule l.m_dot11MeshHoldingTimeout }

/-- PeerLink::SetRetryTimer. -/
def SetRetryTimer (l : PeerLink) : PeerLink :=
  let l := NS_ASSERT (decide (Time.GetMicroSeconds l.m_dot11MeshRetryTimeout ≠ 0))
    NsAssert.retryTimeoutNonZero l
  { l with m_retryTimer := Simulator.Schedule l.m_dot11MeshRetryTimeout }

/-- PeerLink::SetConfirmTimer. -/
def SetConfirmTimer (l : PeerLink) : PeerLink :=
  let l := NS_ASSERT (decide (Time.GetMicroSeconds l.m_dot11MeshConfirmTimeout ≠ 0))
    NsAssert.confirmTimeoutNonZero l
  { l with m_confirmTimer := Simulator.Schedule l.m_dot11MeshConfirmTimeout }

/-- PeerLink::StateMachine (event, reasoncode): the state transition of the peer
link.  The outer match is the switch on m_state, the inner ones the switches on
the event; `| _ => l` is the `default: break;` of the switch. -/
def StateMachine (event : PeerEvent) (reasoncode : PmpReasonCode) (l : PeerLink) : PeerLink :=
  match l.m_state with
  | PeerState.IDLE =>
    match event with
    | PeerEvent.CNCL | PeerEvent.CLS_ACPT =>
      let l := { l with m_state := PeerState.IDLE }
      m_linkStatusCallback PeerState.IDLE PeerState.IDLE l
    | PeerEvent.REQ_RJCT =>
      SendPeerLinkClose reasoncode l
    | PeerEvent.ACTOPN =>
      let l := { l with m_state := PeerState.OPN_SNT }
      let l := m_linkStatusCallback PeerState.IDLE PeerState.OPN_SNT l
      let l := SendPeerLinkOpen l
      SetRetryTimer l
    | PeerEvent.OPN_ACPT =>
      let l := { l with m_state := PeerState.OPN_RCVD }
      let l := m_linkStatusCallback PeerState.IDLE PeerState.OPN_RCVD l
      let l := SendPeerLinkConfirm l
      let l := SendPeerLinkOpen l
      SetRetryTimer l
    | _ => l
  | PeerState.OPN_SNT =>
    match event with
    | PeerEvent.TOR1 =>
      let l := SendPeerLinkOpen l
      let l := { l with m_retryCounter := (l.m_retryCounter + 1) % 65536 }
      SetRetryTimer l
    | PeerEvent.CNF_ACPT =>
      let l := { l with m_state := PeerState.CNF_RCVD }
      let l := m_linkStatusCallback PeerState.OPN_SNT PeerState.CNF_RCVD l
      let l := ClearRetryTimer l
      SetConfirmTimer l
    | PeerEvent.OPN_ACPT =>
      let l := { l with m_state := PeerState.OPN_RCVD }
      let l := m_linkStatusCallback PeerState.OPN_SNT PeerState.OPN_RCVD l
      SendPeerLinkConfirm l
    | PeerEvent.CLS_ACPT =>
      let l := { l with m_state := PeerState.HOLDING }
      let l := m_linkStatusCallback PeerState.OPN_SNT PeerState.HOLDING l
      let l := ClearRetryTimer l
      let l := SendPeerLinkClose PmpReasonCode.REASON11S_MESH_CLOSE_RCVD l
      SetHoldingTimer l
    | PeerEvent.OPN_RJCT | PeerEvent.CNF_RJCT =>
      let l := { l with m_state := PeerState.HOLDING }
      let l := m_linkStatusCallback PeerState.OPN_SNT PeerState.HOLDING l
      let l := ClearRetryTimer l
      let l := SendPeerLinkClose reasoncode l
      SetHoldingTimer l
    | PeerEvent.TOR2 =>
      let l := { l with m_state := PeerState.HOLDING }
      let l := m_linkStatusCallback PeerState.OPN_SNT PeerState.HOLDING l
      let l := ClearRetryTimer l
      let l := SendPeerLinkClose PmpReasonCode.REASON11S_MESH_MAX_RETRIES l
      SetHoldingTimer l
    | PeerEvent.CNCL =>
      let l := { l with m_state := PeerState.HOLDING }
      let l := m_linkStatusCallback PeerState.OPN_SNT PeerState.HOLDING l
      let l := ClearRetryTimer l
      let l := SendPeerLinkClose PmpReasonCode.REASON11S_PEERING_CANCELLED l
      SetHoldingTimer l
    | _ => l
  | PeerState.CNF_RCVD =>
    match event with
    | PeerEvent.CNF_ACPT => l
    | PeerEvent.OPN_ACPT =>
      let l := { l with m_state := PeerState.ESTAB }
      let l := m_linkStatusCallback PeerState.CNF_RCVD PeerState.ESTAB l
      let l := ClearConfirmTimer l
      let l := SendPeerLinkConfirm l
      NS_ASSERT (decide (l.m_peerMeshPointAddress ≠ Mac48Address.GetBroadcast))
        NsAssert.peerMeshPointAddressKnown l
    | PeerEvent.CLS_ACPT =>
      let l := { l with m_state := PeerState.HOLDING }
      let l := m_linkStatusCallback PeerState.CNF_RCVD PeerState.HOLDING l
      let l := ClearConfirmTimer l
      let l := SendPeerLinkClose PmpReasonCode.REASON11S_MESH_CLOSE_RCVD l
      SetHoldingTimer l
    | PeerEvent.CNF_RJCT | PeerEvent.OPN_RJCT =>
      let l := { l with m_state := PeerState.HOLDING }
      let l := m_linkStatusCallback PeerState.CNF_RCVD PeerState.HOLDING l
      let l := ClearConfirmTimer l
      let l := SendPeerLinkClose reasoncode l
      SetHoldingTimer l
    | PeerEvent.CNCL =>
      let l := { l with m_state := PeerState.HOLDING }
      let l := m_linkStatusCallback PeerState.CNF_RCVD PeerState.HOLDING l
      let l := ClearConfirmTimer l
      let l := SendPeerLinkClose PmpReasonCode.REASON11S_PEERING_CANCELLED l
      SetHoldingTimer l
    | PeerEvent.TOC =>
      let l := { l with m_state := PeerState.HOLDING }
      let l := m_linkStatusCallback PeerState.CNF_RCVD PeerState.HOLDING l
      let l := SendPeerLinkClose PmpReasonCode.REASON11S_MESH_CONFIRM_TIMEOUT l
      SetHoldingTimer l
    | _ => l
  | PeerState.OPN_RCVD =>
    match event with
    | PeerEvent.TOR1 =>
      let l := SendPeerLinkOpen l
      let l := { l with m_retryCounter := (l.m_retryCounter + 1) % 65536 }
      SetRetryTimer l
    | PeerEvent.CNF_ACPT =>
      let l := { l with m_state := PeerState.ESTAB }
      let l := m_linkStatusCallback PeerState.OPN_RCVD PeerState.ESTAB l
      let l := ClearRetryTimer l
      NS_ASSERT (decide (l.m_peerMeshPointAddress ≠ Mac48Address.GetBroadcast))
        NsAssert.peerMeshPointAddressKnown l
    | PeerEvent.CLS_ACPT =>
      let l := { l with m_state := PeerState.HOLDING }
      let l := m_linkStatusCallback PeerState.OPN_RCVD PeerState.HOLDING l
      let l := ClearRetryTimer l
      let l := SendPeerLinkClose PmpReasonCode.REASON11S_MESH_CLOSE_RCVD l
      SetHoldingTimer l
    | PeerEvent.OPN_RJCT | PeerEvent.CNF_RJCT =>
      let l := { l with m_state := PeerState.HOLDING }
      let l := m_linkStatusCallback PeerState.OPN_RCVD PeerState.HOLDING l
      let l := ClearRetryTimer l
      let l := SendPeerLinkClose reasoncode l
      SetHoldingTimer l
    | PeerEvent.TOR2 =>
      let l := { l with m_state := PeerState.HOLDING }
      let l := m_linkStatusCallback PeerState.OPN_RCVD PeerState.HOLDING l
      let l := ClearRetryTimer l
      let l := SendPeerLinkClose PmpReasonCode.REASON11S_MESH_MAX_RETRIES l
      SetHoldingTimer l
    | PeerEvent.CNCL =>
      let l := { l with m_state := PeerState.HOLDING }
      let l := m_linkStatusCallback PeerState.OPN_RCVD PeerState.HOLDING l
      let l := ClearRetryTimer l
      let l := SendPeerLinkClose PmpReasonCode.REASON11S_PEERING_CANCELLED l
      SetHoldingTimer l
    | _ => l
  | PeerState.ESTAB =>
    match event with
    | PeerEvent.OPN_ACPT =>
      SendPeerLinkConfirm l
    | PeerEvent.CLS_ACPT =>
      let l := { l with m_state := PeerState.HOLDING }
      let l := m_linkStatusCallback PeerState.ESTAB PeerState.HOLDING l
      let l := SendPeerLinkClose PmpReasonCode.REASON11S_MESH_CLOSE_RCVD l
      SetHoldingTimer l
    | PeerEvent.OPN_RJCT | PeerEvent.CNF_RJCT =>
      let l := { l with m_state := PeerState.HOLDING }
      let l := m_linkStatusCallback PeerState.ESTAB PeerState.HOLDING l
      let l := ClearRetryTimer l
      let l := SendPeerLinkClose reasoncode l
      SetHoldingTimer l
    | PeerEvent.CNCL =>
      let l := { l with m_state := PeerState.HOLDING }
      let l := m_linkStatusCallback PeerState.ESTAB PeerState.HOLDING l
      let l := SendPeerLinkClose PmpReasonCode.REASON11S_PEERING_CANCELLED l
      SetHoldingTimer l
    | _ => l
  | PeerState.HOLDING =>
    match event with
    | PeerEvent.CLS_ACPT =>
      let l := ClearHoldingTimer l
      -- fall through to the case TOH
      let l := { l with m_state := PeerState.IDLE }
      m_linkStatusCallback PeerState.HOLDING PeerState.IDLE l
    | PeerEvent.TOH =>
      let l := { l with m_state := PeerState.IDLE }
      m_linkStatusCallback PeerState.HOLDING PeerState.IDLE l
    | PeerEvent.OPN_ACPT | PeerEvent.CNF_ACPT =>
      let l := { l with m_state := PeerState.HOLDING }
      let l := m_linkStatusCallback PeerState.HOLDING PeerState.HOLDING l
      SendPeerLinkClose PmpReasonCode.REASON11S_PEERING_CANCELLED l
    | PeerEvent.OPN_RJCT | PeerEvent.CNF_RJCT =>
      let l := { l with m_state := PeerState.HOLDING }
      let l := m_linkStatusCallback PeerState.HOLDING PeerState.HOLDING l
      SendPeerLinkClose reasoncode l
    | _ => l

/-- PeerLink::HoldingTimeout.  The reason code is the default argument of
StateMachine, REASON11S_RESERVED. -/
def HoldingTimeout (l : PeerLink) : PeerLink :=
  StateMachine PeerEvent.TOH PmpReasonCode.REASON11S_RESERVED l

/-- PeerLink::RetryTimeout. -/
def RetryTimeout (l : PeerLink) : PeerLink :=
  if l.m_retryCounter < l.m_dot11MeshMaxRetries then
    StateMachine PeerEvent.TOR1 PmpReasonCode.REASON11S_RESERVED l
  else
    StateMachine PeerEvent.TOR2 PmpReasonCode.REASON11S_RESERVED l

/-- PeerLink::ConfirmTimeout. -/
def ConfirmTimeout (l : PeerLink) : PeerLink :=
  StateMachine PeerEvent.TOC PmpReasonCode.REASON11S_RESERVED l

/-- PeerLink::BeaconLoss. -/
def BeaconLoss (l : PeerLink) : PeerLink :=
  StateMachine PeerEvent.CNCL PmpReasonCode.REASON11S_RESERVED l

/-- PeerLink::MLMECancelPeerLink. -/
def MLMECancelPeerLink (reason : PmpReasonCode) (l : PeerLink) : PeerLink :=
  StateMachine PeerEvent.CNCL reason l

/-- PeerLink::MLMEActivePeerLinkOpen. -/
def MLMEActivePeerLinkOpen (l : PeerLink) : PeerLink :=
  StateMachine PeerEvent.ACTOPN PmpReasonCode.REASON11S_RESERVED l

/-- PeerLink::MLMEPeeringRequestReject. -/
def MLMEPeeringRequestReject (l : PeerLink) : PeerLink :=
  StateMachine PeerEvent.REQ_RJCT PmpReasonCode.REASON11S_PEERING_CANCELLED l

/-- PeerLink::TransmissionSuccess. -/
def TransmissionSuccess (l : PeerLink) : PeerLink :=
  { l with m_packetFail := 0 }

/-- PeerLink::TransmissionFailure; m_packetFail is a uint16_t. -/
def TransmissionFailure (l : PeerLink) : PeerLink :=
  let l := { l with m_packetFail := (l.m_packetFail + 1) % 65536 }
  if l.m_packetFail = l.m_maxPacketFail then
    let l := StateMachine PeerEvent.CNCL PmpReasonCode.REASON11S_RESERVED l
    { l with m_packetFail := 0 }
  else
    l

/-- PeerLink::SetBeaconTimingElement. -/
def SetBeaconTimingElement (beaconTiming : IeBeaconTiming) (l : PeerLink) : PeerLink :=
  { l with m_beaconTiming := beaconTiming }

/-- PeerLink::Close.  The two `return` statements give back the link as it is. -/
def Close (localLinkId peerLinkId : Nat) (reason : PmpReasonCode) (l : PeerLink) : PeerLink :=
  if peerLinkId ≠ 0 ∧ l.m_localLinkId ≠ peerLinkId then
    l
  else if l.m_peerLinkId = 0 then
    let l := { l with m_peerLinkId := localLinkId }
    StateMachine PeerEvent.CLS_ACPT reason l
  else if l.m_peerLinkId ≠ localLinkId then
    l
  else
    StateMachine PeerEvent.CLS_ACPT reason l

/-- PeerLink::OpenAccept. -/
def OpenAccept (localLinkId : Nat) (conf : IeConfiguration) (peerMp : Mac48Address)
    (l : PeerLink) : PeerLink :=
  let l := { l with m_peerLinkId := localLinkId }
  let l := { l with m_configuration := conf }
  let l :=
    if l.m_peerMeshPointAddress ≠ Mac48Address.GetBroadcast then
      NS_ASSERT (decide (l.m_peerMeshPointAddress = peerMp)) NsAssert.peerMeshPointAddressMatches l
    else
      { l with m_peerMeshPointAddress := peerMp }
  StateMachine PeerEvent.OPN_ACPT PmpReasonCode.REASON11S_RESERVED l

/-- PeerLink::OpenReject. -/
def OpenReject (localLinkId : Nat) (conf : IeConfiguration) (peerMp : Mac48Address)
    (reason : PmpReasonCode) (l : PeerLink) : PeerLink :=
  let l := if l.m_peerLinkId = 0 then { l with m_peerLinkId := localLinkId } else l
  let l := { l with m_configuration := conf }
  let l :=
    if l.m_peerMeshPointAddress ≠ Mac48Address.GetBroadcast then
      NS_ASSERT (decide (l.m_peerMeshPointAddress = peerMp)) NsAssert.peerMeshPointAddressMatches l
    else
      { l with m_peerMeshPointAddress := peerMp }
  StateMachine PeerEvent.OPN_RJCT reason l

/-- PeerLink::ConfirmAccept.  `rest` is the code after the reconciliation of the
peer link identifier; the two `return` statements give back the link as it is. -/
def ConfirmAccept (localLinkId peerLinkId peerAid : Nat) (conf : IeConfiguration)
    (peerMp : Mac48Address) (l : PeerLink) : PeerLink :=
  let rest := fun (l : PeerLink) =>
    let l := { l with m_configuration := conf }
    let l := { l with m_peerAssocId := peerAid }
    let l :=
      if l.m_peerMeshPointAddress ≠ Mac48Address.GetBroadcast then
        NS_ASSERT (decide (l.m_peerMeshPointAddress = peerMp))
          NsAssert.peerMeshPointAddressMatches l
      else
        { l with m_peerMeshPointAddress := peerMp }
    StateMachine PeerEvent.CNF_ACPT PmpReasonCode.REASON11S_RESERVED l
  if l.m_localLinkId ≠ peerLinkId then
    l
  else if l.m_peerLinkId = 0 then
    rest { l with m_peerLinkId := localLinkId }
  else if l.m_peerLinkId ≠ localLinkId then
    l
  else
    rest l

/-- PeerLink::ConfirmReject.  `rest` is the code after the reconciliation of the
peer link identifier; unlike the other handlers it writes the presented mesh-point
address whether or not one is bound. -/
def ConfirmReject (localLinkId peerLinkId : Nat) (conf : IeConfiguration)
    (peerMp : Mac48Address) (reason : PmpReasonCode) (l : PeerLink) : PeerLink :=
  let rest := fun (l : PeerLink) =>
    let l := { l with m_configuration := conf }
    let l :=
      if l.m_peerMeshPointAddress ≠ Mac48Address.GetBroadcast then
        NS_ASSERT (decide (l.m_peerMeshPointAddress = peerMp))
          NsAssert.peerMeshPointAddressMatches l
      else
        l
    let l := { l with m_peerMeshPointAddress := peerMp }
    StateMachine PeerEvent.CNF_RJCT reason l
  if l.m_localLinkId ≠ peerLinkId then
    l
  else if l.m_peerLinkId = 0 then
    rest { l with m_peerLinkId := localLinkId }
  else if l.m_peerLinkId ≠ localLinkId then
    l
  else
    rest l

/-- PeerLink::CalculateTuDifference; the arguments and the result are uint16_t. -/
def CalculateTuDifference (t1 t2 : Nat) : Nat :=
  if t1 ≥ t2 then
    (t1 - t2) % 65536
  else
    (65536 + t1 - t2) % 65536

/-- PeerLink::AddBeaconReceptionToSequence; the sequence is a uint32_t. -/
def AddBeaconReceptionToSequence (beaconSequence : Nat) : Nat :=
  let retval := (beaconSequence <<< 1) % 4294967296
  retval ||| 0x01

/-- PeerLink::AddBeaconMissToSequence; the sequence is a uint32_t. -/
def AddBeaconMissToSequence (beaconSequence : Nat) : Nat :=
  let retval := (beaconSequence <<< 1) % 4294967296
  retval &&& 0xfffffffe

/-- PeerLink::CalculateFailAvg, with the quotient taken in the rationals instead of
the doubles.  The two counters are uint8_t.  The loop runs over i = 0, ...,
m_beaconWinSize - 1; a shift by 32 or more, which C++ leaves undefined, gives 0
here, and the product of the window sizes is taken without overflow. -/
def CalculateFailAvg (l : PeerLink) : ℚ :=
  let counters := (List.range l.m_beaconWinSize).foldl
    (fun (c : Nat × Nat) (i : Nat) =>
      ((c.1 + (if (l.m_beaconsOnLink.fwdBeacons >>> i) &&& 0x00000001 ≠ 0 then 1 else 0)) % 256,
       (c.2 + (if (l.m_beaconsOnLink.revBeacons >>> i) &&& 0x00000001 ≠ 0 then 1 else 0)) % 256))
    (0, 0)
  let fwdCounter := counters.1
  let revCounter := counters.2
  1 - ((fwdCounter * revCounter : Nat) : ℚ) / ((l.m_beaconWinSize * l.m_beaconWinSize : Nat) : ℚ)

/-- The call m_macPlugin->UpdateFailAvg (m_peerAddress, CalculateFailAvg ()). -/
def UpdateFailAvg (l : PeerLink) : PeerLink :=
  { l with m_effects := l.m_effects ++ [Effect.UpdateFailAvg l.m_peerAddress (CalculateFailAvg l)] }

/-- PeerLink::SetBeaconInformation.  The delay is the beacon interval times
m_maxBeaconLoss, computed by the source through seconds as a double and taken
exactly here. -/
def SetBeaconInformation (lastBeacon beaconInterval : Time) (l : PeerLink) : PeerLink :=
  let l := { l with m_lastBeacon := lastBeacon }
  let l := { l with m_beaconInterval := beaconInterval }
  let l := { l with m_beaconLossTimer := EventId.Cancel l.m_beaconLossTimer }
  let delay : Time := beaconInterval * (l.m_maxBeaconLoss : Int)
  let l := NS_ASSERT (decide (Time.GetMicroSeconds delay ≠ 0)) NsAssert.beaconLossDelayNonZero l
  { l with m_beaconLossTimer := Simulator.Schedule delay }

/-- PeerLink::BeaconMissed; the counter of missed beacons is a uint8_t. -/
def BeaconMissed (l : PeerLink) : PeerLink :=
  let l :=
    if l.m_beaconsOnLink.missedBeacons < 255 then
      { l with m_beaconsOnLink :=
          { l.m_beaconsOnLink with missedBeacons := l.m_beaconsOnLink.missedBeacons + 1 } }
    else
      l
  let l := { l with m_beaconMissedTimer := Simulator.Schedule l.m_beaconInterval }
  let l := { l with m_beaconsOnLink :=
      { l.m_beaconsOnLink with
        fwdBeacons := AddBeaconMissToSequence l.m_beaconsOnLink.fwdBeacons } }
  UpdateFailAvg l

/-- Integer division as C++ performs it (truncated); dividing by zero does not
return. -/
def intDiv (a b : Int) : Option Int :=
  if b = 0 then none else some (Int.tdiv a b)

/-- The two counts that the loop of UpdateBeaconReceived computes for the entry `u`
of the neighbour's timing record that stands for this station: the local variables
(remoteReceivedBeacons, remoteMissedBeacons), both `int`.  The result is `none`
when a division by zero is reached. -/
def UpdateBeaconReceived.counts (beaconIntervalTolTu : Nat) (u : IeBeaconTimingUnit)
    (l : PeerLink) : Option (Int × Int) :=
  let remoteBeaconIntervalTu : Nat := (4 * u.beaconInterval) % 65536
  if l.m_newLink then
    some (1, 0)
  else
    (if l.m_beaconsOnLink.missedBeacons = 0 then
      if l.m_prevBeaconTiming ≠ u.lastBeacon then
        intDiv ((CalculateTuDifference u.lastBeacon l.m_beaconsOnLink.lastRemBeaconUpdateTu : Int)
          + beaconIntervalTolTu) remoteBeaconIntervalTu
      else
        some 0
    else
      some (if l.m_prevBeaconTiming ≠ u.lastBeacon then 1 else 0)).bind
    fun remoteReceivedBeacons =>
    (if l.m_prevBeaconTiming ≠ u.lastBeacon then
      intDiv ((CalculateTuDifference (Int.toNat ((Time.GetMicroSeconds l.m_lastBeacon >>> 8)
          % 65536)) u.lastBeacon : Int) - beaconIntervalTolTu) remoteBeaconIntervalTu
    else
      intDiv ((CalculateTuDifference (Int.toNat ((Time.GetMicroSeconds l.m_lastBeacon >>> 8)
          % 65536)) l.m_beaconsOnLink.lastRemBeaconUpdateTu : Int) - beaconIntervalTolTu)
        remoteBeaconIntervalTu).bind
    fun remoteMissedBeacons =>
    let remoteMissedBeacons := if remoteMissedBeacons < 0 then 0 else remoteMissedBeacons
    let remoteMissedBeacons :=
      if remoteMissedBeacons > l.m_beaconWinSize then (l.m_beaconWinSize : Int)
      else remoteMissedBeacons
    some (remoteReceivedBeacons, remoteMissedBeacons)

/-- The body of the loop of UpdateBeaconReceived for the entry `u` of the
neighbour's timing record that stands for this station (the body ends in `break`,
so it runs for the first such entry only).  `beaconIntervalTolTu` is the local
variable of that name.  The result is `none` when a division by zero is
reached. -/
def UpdateBeaconReceived.entry (beaconIntervalTolTu : Nat) (u : IeBeaconTimingUnit)
    (l : PeerLink) : Option PeerLink :=
  let remoteBeaconIntervalTu : Nat := (4 * u.beaconInterval) % 65536
  (UpdateBeaconReceived.counts beaconIntervalTolTu u l).bind fun counts =>
    let remoteReceivedBeacons := counts.1
    let remoteMissedBeacons := counts.2
    let rev := AddBeaconReceptionToSequence^[Int.toNat remoteReceivedBeacons]
      l.m_beaconsOnLink.revBeacons
    let rev := AddBeaconMissToSequence^[Int.toNat remoteMissedBeacons] rev
    let lastRemBeaconUpdateTu :=
      (u.lastBeacon + remoteBeaconIntervalTu * Int.toNat remoteMissedBeacons) % 65536
    some { l with
      m_beaconsOnLink :=
        { l.m_beaconsOnLink with revBeacons := rev, lastRemBeaconUpdateTu := lastRemBeaconUpdateTu }
      m_prevBeaconTiming := u.lastBeacon
      m_newLink := false }

/-- The first lines of UpdateBeaconReceived, up to the update of the forward
history: the beacon-missed timer is re-armed for the beacon interval plus the
tolerance and a received beacon is appended to the forward history. -/
def UpdateBeaconReceived.start (l : PeerLink) : PeerLink :=
  let l := { l with m_beaconMissedTimer := EventId.Cancel l.m_beaconMissedTimer }
  let delay : Time := MilliSeconds (Time.GetMilliSeconds l.m_beaconInterval + l.m_beaconIntervalTol)
  let l := { l with m_beaconMissedTimer := Simulator.Schedule delay }
  { l with m_beaconsOnLink :=
      { l.m_beaconsOnLink with
        fwdBeacons := AddBeaconReceptionToSequence l.m_beaconsOnLink.fwdBeacons } }

/-- The loop of UpdateBeaconReceived over the neighbour's timing record and the
`if` that follows it.  `indeterminate` is the value of the local variable
remoteBeaconIntervalTu when the loop has found no entry for this station: the
source reads it without having given it a value. -/
def UpdateBeaconReceived.reverse (beaconIntervalTolTu indeterminate : Nat) (l : PeerLink) :
    Option PeerLink :=
  let neighbors := l.m_beaconTiming
  match neighbors.find? (fun u => decide (u.aid ≠ 0 ∧ l.m_peerAssocId = u.aid)) with
  | some u => UpdateBeaconReceived.entry beaconIntervalTolTu u l
  | none =>
    if ¬ l.m_newLink then
      let rev := AddBeaconMissToSequence^[l.m_beaconsOnLink.missedBeacons + 1]
        l.m_beaconsOnLink.revBeacons
      some { l with m_beaconsOnLink :=
        { l.m_beaconsOnLink with
          revBeacons := rev
          lastRemBeaconUpdateTu := (l.m_beaconsOnLink.lastRemBeaconUpdateTu
            + indeterminate * (l.m_beaconsOnLink.missedBeacons + 1)) % 65536 } }
    else
      some l

/-- The last two lines of UpdateBeaconReceived: the counter of missed beacons is
reset and the failure average is pushed to the plugin. -/
def UpdateBeaconReceived.finish (l : PeerLink) : PeerLink :=
  let l := { l with m_beaconsOnLink := { l.m_beaconsOnLink with missedBeacons := 0 } }
  UpdateFailAvg l

/-- PeerLink::UpdateBeaconReceived, its lines in order: `start`, the loop with the
`if` after it (`reverse`), `finish`.  The result is `none` when the call reaches a
division by zero. -/
def UpdateBeaconReceived (indeterminate : Nat) (l : PeerLink) : Option PeerLink :=
  let beaconIntervalTolTu : Nat := ((l.m_beaconIntervalTol * 1000) >>> 8) &&& 0xffff
  let l := UpdateBeaconReceived.start l
  (UpdateBeaconReceived.reverse beaconIntervalTolTu indeterminate l).bind fun l =>
    some (UpdateBeaconReceived.finish l)

/-! ## The scheduler firing a timer -/

/-- Modelled from the spec: the host scheduler firing the retry timer.  Only a
pending timer fires; when it does its handle is no longer pending and the handler
RetryTimeout runs. -/
def RetryTimerExpires (l : PeerLink) : Option PeerLink :=
  match l.m_retryTimer with
  | none => none
  | some _ => some (RetryTimeout { l with m_retryTimer := none })

/-- Modelled from the spec: the host scheduler firing the confirm timer. -/
def ConfirmTimerExpires (l : PeerLink) : Option PeerLink :=
  match l.m_confirmTimer with
  | none => none
  | some _ => some (ConfirmTimeout { l with m_confirmTimer := none })

/-- Modelled from the spec: the host scheduler firing the holding timer. -/
def HoldingTimerExpires (l : PeerLink) : Option PeerLink :=
  match l.m_holdingTimer with
  | none => none
  | some _ => some (HoldingTimeout { l with m_holdingTimer := none })

/-- Modelled from the spec: the host scheduler firing the beacon-loss timer. -/
def BeaconLossTimerExpires (l : PeerLink) : Option PeerLink :=
  match l.m_beaconLossTimer with
  | none => none
  | some _ => some (BeaconLoss { l with m_beaconLossTimer := none })

/-- Modelled from the spec: the host scheduler firing the beacon-missed timer. -/
def BeaconMissedTimerExpires (l : PeerLink) : Option PeerLink :=
  match l.m_beaconMissedTimer with
  | none => none
  | some _ => some (BeaconMissed { l with m_beaconMissedTimer := none })

/-- The retry timer firing `n` times in a row, with no other event in between. -/
def RetryTimerExpiresTimes : Nat → PeerLink → Option PeerLink
  | 0, l => some l
  | n + 1, l => (RetryTimerExpiresTimes n l).bind RetryTimerExpires

/-! ## Runs of a link -/

/-- What can happen to a link after its construction: a call of one of its member
functions by its owner (setters, attribute changes, the MLME requests, the
transmission reports, the handlers of received frames and beacons) or the firing
of one of its five timers.  DoDispose, which ends the life of the object, is not
among them. -/
inductive Call where
  | SetPeerAddress (macaddr : Mac48Address)
  | SetPeerMeshPointAddress (macaddr : Mac48Address)
  | SetInterface (interface : Nat)
  | SetLocalLinkId (id : Nat)
  | SetLocalAid (aid : Nat)
  | SetRetryTimeout (t : Time)
  | SetHoldingTimeout (t : Time)
  | SetConfirmTimeout (t : Time)
  | SetMaxRetries (n : Nat)
  | SetMaxBeaconLoss (n : Nat)
  | SetMaxPacketFailure (n : Nat)
  | SetBeaconWinSize (n : Nat)
  | SetBeaconInformation (lastBeacon beaconInterval : Time)
  | SetBeaconTimingElement (beaconTiming : IeBeaconTiming)
  | UpdateBeaconReceived (indeterminate : Nat)
  | MLMECancelPeerLink (reason : PmpReasonCode)
  | MLMEActivePeerLinkOpen
  | MLMEPeeringRequestReject
  | TransmissionSuccess
  | TransmissionFailure
  | Close (localLinkId peerLinkId : Nat) (reason : PmpReasonCode)
  | OpenAccept (localLinkId : Nat) (conf : IeConfiguration) (peerMp : Mac48Address)
  | OpenReject (localLinkId : Nat) (conf : IeConfiguration) (peerMp : Mac48Address)
      (reason : PmpReasonCode)
  | ConfirmAccept (localLinkId peerLinkId peerAid : Nat) (conf : IeConfiguration)
      (peerMp : Mac48Address)
  | ConfirmReject (localLinkId peerLinkId : Nat) (conf : IeConfiguration)
      (peerMp : Mac48Address) (reason : PmpReasonCode)
  | RetryTimerExpires
  | ConfirmTimerExpires
  | HoldingTimerExpires
  | BeaconLossTimerExpires
  | BeaconMissedTimerExpires

/-- The link after a call, or `none` when there is none: a timer that is not
pending does not fire, an attribute value outside the range of its checker in
GetTypeId is refused, and UpdateBeaconReceived may fail to return. -/
def runCall (c : Call) (l : PeerLink) : Option PeerLink :=
  match c with
  | Call.SetPeerAddress macaddr => some (SetPeerAddress macaddr l)
  | Call.SetPeerMeshPointAddress macaddr => some (SetPeerMeshPointAddress macaddr l)
  | Call.SetInterface interface => some (SetInterface interface l)
  | Call.SetLocalLinkId id => some (SetLocalLinkId id l)
  | Call.SetLocalAid aid => some (SetLocalAid aid l)
  | Call.SetRetryTimeout t => some { l with m_dot11MeshRetryTimeout := t }
  | Call.SetHoldingTimeout t => some { l with m_dot11MeshHoldingTimeout := t }
  | Call.SetConfirmTimeout t => some { l with m_dot11MeshConfirmTimeout := t }
  | Call.SetMaxRetries n =>
    if n < 65536 then some { l with m_dot11MeshMaxRetries := n } else none
  | Call.SetMaxBeaconLoss n =>
    if 1 ≤ n ∧ n < 65536 then some { l with m_maxBeaconLoss := n } else none
  | Call.SetMaxPacketFailure n =>
    if 1 ≤ n ∧ n < 65536 then some { l with m_maxPacketFail := n } else none
  | Call.SetBeaconWinSize n =>
    if 1 ≤ n ∧ n < 65536 then some { l with m_beaconWinSize := n } else none
  | Call.SetBeaconInformation lastBeacon beaconInterval =>
    some (SetBeaconInformation lastBeacon beaconInterval l)
  | Call.SetBeaconTimingElement beaconTiming => some (SetBeaconTimingElement beaconTiming l)
  | Call.UpdateBeaconReceived indeterminate => UpdateBeaconReceived indeterminate l
  | Call.MLMECancelPeerLink reason => some (MLMECancelPeerLink reason l)
  | Call.MLMEActivePeerLinkOpen => some (MLMEActivePeerLinkOpen l)
  | Call.MLMEPeeringRequestReject => some (MLMEPeeringRequestReject l)
  | Call.TransmissionSuccess => some (TransmissionSuccess l)
  | Call.TransmissionFailure => some (TransmissionFailure l)
  | Call.Close localLinkId peerLinkId reason => some (Close localLinkId peerLinkId reason l)
  | Call.OpenAccept localLinkId conf peerMp => some (OpenAccept localLinkId conf peerMp l)
  | Call.OpenReject localLinkId conf peerMp reason =>
    some (OpenReject localLinkId conf peerMp reason l)
  | Call.ConfirmAccept localLinkId peerLinkId peerAid conf peerMp =>
    some (ConfirmAccept localLinkId peerLinkId peerAid conf peerMp l)
  | Call.ConfirmReject localLinkId peerLinkId conf peerMp reason =>
    some (ConfirmReject localLinkId peerLinkId conf peerMp reason l)
  | Call.RetryTimerExpires => RetryTimerExpires l
  | Call.ConfirmTimerExpires => ConfirmTimerExpires l
  | Call.HoldingTimerExpires => HoldingTimerExpires l
  | Call.BeaconLossTimerExpires => BeaconLossTimerExpires l
  | Call.BeaconMissedTimerExpires => BeaconMissedTimerExpires l

/-- The link after a sequence of calls, in order; `none` when one of them has no
result. -/
def runCalls : List Call → PeerLink → Option PeerLink
  | [], l => some l
  | c :: cs, l => (runCall c l).bind (runCalls cs)

/-- The links reachable from a freshly constructed link. -/
def Reachable (l : PeerLink) : Prop :=
  ∃ (m_interface m_prevBeaconTiming : Nat) (calls : List Call),
    runCalls calls (PeerLink.PeerLink m_interface m_prevBeaconTiming) = some l

/-! ## hwmp-neighbor-etx.h -/

/-- The struct NeighborEtx::Etx: m_lppMyCnt10bMap is a uint16_t, m_lppReverse a
uint8_t. -/
structure NeighborEtx.Etx where
  m_lppMyCnt10bMap : Nat
  m_lppReverse : Nat
  deriving DecidableEq

/-- The default constructor of Etx. -/
def NeighborEtx.Etx.Etx : NeighborEtx.Etx :=
  { m_lppMyCnt10bMap := 0, m_lppReverse := 0 }

/-- The data members of class NeighborEtx.  The std::map m_neighborEtx is
represented by its lookup: the entry stored under an address, or `none` where
`find` returns `end ()`.  m_lppTimeStamp is a uint8_t. -/
structure NeighborEtx where
  m_neighborEtx : Mac48Address → Option NeighborEtx.Etx
  m_lppTimeStamp : Nat

/-! ## hwmp-neighbor-etx.cc -/

/-- The macro ETX_MAX. -/
def ETX_MAX : Nat := 200000

/-- The constructor NeighborEtx::NeighborEtx: no neighbour, time stamp 0. -/
def NeighborEtx.NeighborEtx : NeighborEtx :=
  { m_neighborEtx := fun _ => none, m_lppTimeStamp := 0 }

/-- NeighborEtx::GetLppTimeStamp. -/
def GetLppTimeStamp (e : NeighborEtx) : Nat := e.m_lppTimeStamp

/-- NeighborEtx::CalculateNextLppTimeStamp; the argument and the result are
uint8_t. -/
def CalculateNextLppTimeStamp (currTimeStamp : Nat) : Nat :=
  let nextTimeStamp := (currTimeStamp + 1) % 256
  if nextTimeStamp > 11 then 0 else nextTimeStamp

/-- NeighborEtx::GotoNextLppTimeStamp. -/
def GotoNextLppTimeStamp (e : NeighborEtx) : NeighborEtx :=
  { e with m_lppTimeStamp := CalculateNextLppTimeStamp e.m_lppTimeStamp }

/-- NeighborEtx::Lpp10bMapToCnt; the counter `lpp` is a uint8_t, the loop runs over
j = 0, ..., 11. -/
def Lpp10bMapToCnt (lpp10bMap : Nat) (e : NeighborEtx) : Nat :=
  (List.range 12).foldl
    (fun (lpp : Nat) (j : Nat) =>
      if j ≠ e.m_lppTimeStamp ∧ j ≠ CalculateNextLppTimeStamp e.m_lppTimeStamp then
        (lpp + (if lpp10bMap &&& (0x0001 <<< j) ≠ 0 then 1 else 0)) % 256
      else
        lpp)
    0

/-- NeighborEtx::GotoNextTimeStampAndClearOldest.  The loop over the map rewrites
every stored entry in the same way.  The complement `~` is taken on the 32 bits of
an `int`; the mask 0x0FFF keeps its 12 lowest bits. -/
def GotoNextTimeStampAndClearOldest (e : NeighborEtx) : NeighborEtx :=
  let e := GotoNextLppTimeStamp e
  let OldestLppTimeSlot := CalculateNextLppTimeStamp e.m_lppTimeStamp
  { e with m_neighborEtx := fun addr =>
      (e.m_neighborEtx addr).map fun etx =>
        let lppMyCnt10bMap := etx.m_lppMyCnt10bMap
        let lppMyCnt10bMap := lppMyCnt10bMap &&&
          ((((0x0001 <<< OldestLppTimeSlot) ^^^ 0xffffffff) &&& 0x0FFF) % 65536)
        { etx with m_lppMyCnt10bMap := lppMyCnt10bMap } }

/-- NeighborEtx::UpdateNeighborEtx: the value returned and the tracker afterwards.
Inserting under an address that `find` has not found succeeds, so `result.second`
is true.  The shifted bit is stored in a uint16_t. -/
def UpdateNeighborEtx (addr : Mac48Address) (lppTimeStamp lppReverse : Nat) (e : NeighborEtx) :
    Bool × NeighborEtx :=
  match e.m_neighborEtx addr with
  | none =>
    let etx := NeighborEtx.Etx.Etx
    let etx := { etx with m_lppReverse := lppReverse }
    let etx := { etx with m_lppMyCnt10bMap := (0x0001 <<< lppTimeStamp) % 65536 }
    (true, { e with m_neighborEtx := fun a => if a = addr then some etx else e.m_neighborEtx a })
  | some i =>
    let i := { i with m_lppReverse := lppReverse }
    let i := { i with m_lppMyCnt10bMap := (i.m_lppMyCnt10bMap ||| (0x0001 <<< lppTimeStamp)) % 65536 }
    (true, { e with m_neighborEtx := fun a => if a = addr then some i else e.m_neighborEtx a })

/-- The function `round` of math.h on an exact value: the nearest integer, a half
going away from zero. -/
def math_round (x : ℚ) : Int :=
  if 0 ≤ x then ⌊x + 1 / 2⌋ else ⌈x - 1 / 2⌉

/-- NeighborEtx::CalculateBinaryShiftedEtx, with the quotient taken in the rationals
instead of the doubles; the result is a uint32_t. -/
def CalculateBinaryShiftedEtx (etxStruct : NeighborEtx.Etx) (e : NeighborEtx) : Nat :=
  let etx := ETX_MAX
  if Lpp10bMapToCnt etxStruct.m_lppMyCnt10bMap e ≠ 0 ∧ etxStruct.m_lppReverse ≠ 0 then
    (math_round (100000 /
      ((Lpp10bMapToCnt etxStruct.m_lppMyCnt10bMap e * etxStruct.m_lppReverse : Nat) : ℚ))).toNat
      % 4294967296
  else
    etx

/-- NeighborEtx::GetEtxForNeighbor. -/
def GetEtxForNeighbor (addr : Mac48Address) (e : NeighborEtx) : Nat :=
  match e.m_neighborEtx addr with
  | none => ETX_MAX
  | some i => CalculateBinaryShiftedEtx i e

/-! ## airtime-metric.cc -/

/-- Modelled from the spec: Mac48Address::IsGroup of the host library, the test of
the group bit, the lowest bit of the first octet; the first octet is the highest
of the 48-bit value. -/
def Mac48Address.IsGroup (a : Mac48Address) : Bool :=
  decide ((a >>> 40) &&& 0x01 = 1)

/-- Modelled from the spec: a transmission mode of the PHY (class WifiMode is not
among the sources); CalculateMetric only passes it on, so it is a bare token. -/
abbrev WifiMode := Nat

/-- Modelled from the spec: what CalculateMetric asks of the interface `mac`
(class MeshWifiInterfaceMac, its station manager and its PHY are not among the
sources), section 6 of the spec: the beacon-based failure average and the receive
power of a peer, the frame error rate and the data mode that the station manager
reports for a peer, a test header and a test frame, the energy-detection threshold,
the frequency and the transmit duration of the PHY, and the three channel-access
intervals.  The doubles are exact rationals. -/
structure MeshWifiInterfaceMac where
  GetFailAvg : Mac48Address → ℚ
  GetPeerRxPower : Mac48Address → ℚ
  GetFrameErrorRate : Mac48Address → ℚ
  GetDataTxVectorMode : Mac48Address → Nat → Nat → WifiMode
  GetEdThreshold : ℚ
  GetFrequency : Nat
  CalculateTxDuration : Nat → WifiMode → Nat → Time
  GetPifs : Time
  GetSlot : Time
  GetEifsNoDifs : Time

/-- The data members of class AirtimeLinkMetricCalculator that CalculateMetric
reads.  The test header is represented by its QoS TID and the test frame by its
size in bytes; m_metricRxPowerCoef is a uint16_t. -/
structure AirtimeLinkMetricCalculator where
  m_testHeader : Nat
  m_testFrame : Nat
  m_useBeacon : Bool
  m_useRootSquare : Bool
  m_metricRxPowerCoef : Nat

/-- AirtimeLinkMetricCalculator::SetHeaderTid. -/
def SetHeaderTid (tid : Nat) (c : AirtimeLinkMetricCalculator) : AirtimeLinkMetricCalculator :=
  { c with m_testHeader := tid }

/-- AirtimeLinkMetricCalculator::SetTestLength: the test frame has the test length
plus 6 bytes of mesh header and 36 bytes of 802.11 header. -/
def SetTestLength (testLength : Nat) (c : AirtimeLinkMetricCalculator) :
    AirtimeLinkMetricCalculator :=
  { c with m_testFrame := testLength + 6 + 36 }

/-- The constructor AirtimeLinkMetricCalculator::AirtimeLinkMetricCalculator
followed by the attribute defaults of GetTypeId: TestLength 1024, Dot11MetricTid 0,
FerFromBeacon false, SquareRootTime false, MetricRxPowerCoef 0. -/
def AirtimeLinkMetricCalculator.AirtimeLinkMetricCalculator : AirtimeLinkMetricCalculator :=
  SetHeaderTid 0 (SetTestLength 1024
    { m_testHeader := 0, m_testFrame := 0, m_useBeacon := false, m_useRootSquare := false,
      m_metricRxPowerCoef := 0 })

/-- The assertions (NS_ASSERT) of CalculateMetric, named after what they require. -/
inductive MetricAssert where
  | peerAddressNotGroup
  | failAvgBelowOne
  deriving DecidableEq

/-- What a call of CalculateMetric yields: the value returned and the assertions
violated on the way. -/
structure MetricResult where
  retval : Nat
  failedAsserts : List MetricAssert
  deriving DecidableEq

/-- The conversion `(uint32_t)` of a double: the fraction is dropped.  C++ leaves
the conversion of a value outside 0 .. 2 ^ 32 - 1 undefined; it is reduced modulo
2 ^ 32 here, a negative value giving 0. -/
def toUint32 (x : ℚ) : Nat :=
  (Int.toNat ⌊x⌋) % 4294967296

/-- AirtimeLinkMetricCalculator::CalculateMetric, with exact rationals for the
doubles.  `pow10 x` stands for std::pow (10, x) and `sqrt x` for std::sqrt (x),
which have no exact rational value. -/
def CalculateMetric (pow10 sqrt : ℚ → ℚ) (peerAddress : Mac48Address)
    (mac : MeshWifiInterfaceMac) (c : AirtimeLinkMetricCalculator) : MetricResult :=
  let failed : List MetricAssert :=
    if ! Mac48Address.IsGroup peerAddress then [] else [MetricAssert.peerAddressNotGroup]
  let mode : WifiMode := mac.GetDataTxVectorMode peerAddress c.m_testHeader c.m_testFrame
  let failAvg : ℚ :=
    if c.m_useBeacon then mac.GetFailAvg peerAddress else mac.GetFrameErrorRate peerAddress
  if failAvg = 1 then
    { retval := 0xffffffff, failedAsserts := failed }
  else
    let failed := failed ++ (if failAvg < 1 then [] else [MetricAssert.failAvgBelowOne])
    let powerBudget : ℚ := mac.GetPeerRxPower peerAddress - mac.GetEdThreshold
    let powerCompensation : ℚ :=
      if powerBudget < 3 then c.m_metricRxPowerCoef * (pow10 ((3 - powerBudget) / 10) - 1) else 0
    let powerFactor : ℚ := 1
    let metric : Nat :=
      if c.m_useRootSquare then
        toUint32
          (((((Time.GetMicroSeconds (mac.GetPifs + mac.GetSlot + mac.GetEifsNoDifs) : Int) : ℚ)
              + 20 * sqrt ((Time.GetMicroSeconds
                  (mac.CalculateTxDuration c.m_testFrame mode mac.GetFrequency) : Int) : ℚ))
            / (1024 / 100) + powerCompensation) * powerFactor / (1 - failAvg))
      else
        toUint32
          (((((Time.GetMicroSeconds (mac.GetPifs + mac.GetSlot + mac.GetEifsNoDifs
                + mac.CalculateTxDuration c.m_testFrame mode mac.GetFrequency) : Int) : ℚ))
            / (1024 / 100) + powerCompensation) * powerFactor / (1 - failAvg))
    { retval := metric, failedAsserts := failed }

/-! ## ie-lpp.h and ie-lpp.cc -/

/-- The assertion (NS_ASSERT) of IeLpp::AddToNeighborsList, named after what it
requires. -/
inductive IeLppAssert where
  | numberNeighborsBelow255
  deriving DecidableEq

/-- The data members of class IeLpp: m_lppId is a uint8_t, m_originSeqno a
uint32_t.  The std::map m_neighborsLppCnt is the list of its entries in the order
of their keys, each a neighbour address with a uint8_t count.  `m_failedAsserts`
lists the assertions violated so far. -/
structure IeLpp where
  m_lppId : Nat
  m_originAddr : Mac48Address
  m_originSeqno : Nat
  m_neighborsLppCnt : List (Mac48Address × Nat)
  m_failedAsserts : List IeLppAssert
  deriving DecidableEq

/-- The constructor IeLpp::IeLpp: the neighbour map is empty and the origin address
is the default address 0.  The two members that the constructor leaves without a
value, m_lppId and m_originSeqno, are arguments. -/
def IeLpp.IeLpp (m_lppId m_originSeqno : Nat) : IeLpp :=
  { m_lppId := m_lppId, m_originAddr := 0, m_originSeqno := m_originSeqno,
    m_neighborsLppCnt := [], m_failedAsserts := [] }

/-- IeLpp::SetLppId. -/
def SetLppId (count : Nat) (ie : IeLpp) : IeLpp := { ie with m_lppId := count }

/-- IeLpp::SetOriginAddress. -/
def SetOriginAddress (addr : Mac48Address) (ie : IeLpp) : IeLpp := { ie with m_originAddr := addr }

/-- IeLpp::SetOriginSeqno. -/
def SetOriginSeqno (seqno : Nat) (ie : IeLpp) : IeLpp := { ie with m_originSeqno := seqno }

/-- IeLpp::GetNumberNeighbors: the size of the map, cast to uint8_t. -/
def GetNumberNeighbors (ie : IeLpp) : Nat :=
  ie.m_neighborsLppCnt.length % 256

/-- Modelled from the spec: Buffer::Iterator::WriteU8 of the host library, the byte
written. -/
def WriteU8 (data : Nat) : List Nat := [data % 256]

/-- Modelled from the spec: WriteTo (Buffer::Iterator, Mac48Address) of the host
library, the six octets of the address, first octet first. -/
def WriteTo (ad : Mac48Address) : List Nat :=
  [(ad >>> 40) % 256, (ad >>> 32) % 256, (ad >>> 24) % 256, (ad >>> 16) % 256,
   (ad >>> 8) % 256, ad % 256]

/-- Modelled from the spec: Buffer::Iterator::WriteHtolsbU32 of the host library,
the four bytes of the value, least significant first. -/
def WriteHtolsbU32 (data : Nat) : List Nat :=
  [data % 256, (data >>> 8) % 256, (data >>> 16) % 256, (data >>> 24) % 256]

/-- IeLpp::SerializeInformationField: the bytes written through the iterator, in
order. -/
def SerializeInformationField (ie : IeLpp) : List Nat :=
  let i := WriteU8 ie.m_lppId
  let i := i ++ WriteTo ie.m_originAddr
  let i := i ++ WriteHtolsbU32 ie.m_originSeqno
  let i := i ++ WriteU8 (GetNumberNeighbors ie)
  ie.m_neighborsLppCnt.foldl (fun i j => i ++ WriteTo j.1 ++ WriteU8 j.2) i

/-- IeLpp::GetInformationFieldSize; `retval` and the value returned are uint8_t,
the sum in the return statement is an `int`. -/
def GetInformationFieldSize (ie : IeLpp) : Nat :=
  let retval := (1 + 6 + 4 + 1) % 256
  (retval + 7 * GetNumberNeighbors ie) % 256

/-- IeLpp::AddToNeighborsList: the value returned and the element afterwards.  A
neighbour that is in the map already is left as it is; a new one is inserted at
the place of its key. -/
def AddToNeighborsList (neighbor : Mac48Address) (lppCnt : Nat) (ie : IeLpp) : Bool × IeLpp :=
  if (ie.m_neighborsLppCnt.find? (fun j => j.1 == neighbor)).isSome then
    (true, ie)
  else
    let ie := { ie with m_failedAsserts := ie.m_failedAsserts ++
      (if GetNumberNeighbors ie < 255 then [] else [IeLppAssert.numberNeighborsBelow255]) }
    let ie := { ie with m_neighborsLppCnt :=
      List.orderedInsert (fun a b => a.1 ≤ b.1) (neighbor, lppCnt) ie.m_neighborsLppCnt }
    (true, ie)

/-- IeLpp::ClearNeighborsList. -/
def ClearNeighborsList (ie : IeLpp) : IeLpp := { ie with m_neighborsLppCnt := [] }

/-! ## Observations used to state the properties -/

/-- The management frames among the effects, oldest first. -/
def sentFrames (l : PeerLink) : List IePeerManagement :=
  l.m_effects.filterMap fun e =>
    match e with
    | Effect.SendPeerLinkManagementFrame _ _ _ peerElement _ => some peerElement
    | _ => none

/-- The (old state, new state) pairs of the status notifications among the
effects, oldest first. -/
def statusNotifications (l : PeerLink) : List (PeerState × PeerState) :=
  l.m_effects.filterMap fun e =>
    match e with
    | Effect.linkStatusCallback _ _ _ ostate nstate => some (ostate, nstate)
    | _ => none

/-- The transition table of section 4.1 of the spec, read as a set of (state,
event) pairs: the pairs the table lists.  Written from the words of the spec,
to be compared with StateMachine. -/
def specTableLists : PeerState → PeerEvent → Bool
  | PeerState.IDLE, PeerEvent.CNCL => true
  | PeerState.IDLE, PeerEvent.CLS_ACPT => true
  | PeerState.IDLE, PeerEvent.REQ_RJCT => true
  | PeerState.IDLE, PeerEvent.ACTOPN => true
  | PeerState.IDLE, PeerEvent.OPN_ACPT => true
  | PeerState.OPN_SNT, PeerEvent.TOR1 => true
  | PeerState.OPN_SNT, PeerEvent.CNF_ACPT => true
  | PeerState.OPN_SNT, PeerEvent.OPN_ACPT => true
  | PeerState.OPN_SNT, PeerEvent.CLS_ACPT => true
  | PeerState.OPN_SNT, PeerEvent.OPN_RJCT => true
  | PeerState.OPN_SNT, PeerEvent.CNF_RJCT => true
  | PeerState.OPN_SNT, PeerEvent.TOR2 => true
  | PeerState.OPN_SNT, PeerEvent.CNCL => true
  | PeerState.CNF_RCVD, PeerEvent.CNF_ACPT => true
  | PeerState.CNF_RCVD, PeerEvent.OPN_ACPT => true
  | PeerState.CNF_RCVD, PeerEvent.CLS_ACPT => true
  | PeerState.CNF_RCVD, PeerEvent.CNF_RJCT => true
  | PeerState.CNF_RCVD, PeerEvent.OPN_RJCT => true
  | PeerState.CNF_RCVD, PeerEvent.CNCL => true
  | PeerState.CNF_RCVD, PeerEvent.TOC => true
  | PeerState.OPN_RCVD, PeerEvent.TOR1 => true
  | PeerState.OPN_RCVD, PeerEvent.CNF_ACPT => true
  | PeerState.OPN_RCVD, PeerEvent.CLS_ACPT => true
  | PeerState.OPN_RCVD, PeerEvent.OPN_RJCT => true
  | PeerState.OPN_RCVD, PeerEvent.CNF_RJCT => true
  | PeerState.OPN_RCVD, PeerEvent.TOR2 => true
  | PeerState.OPN_RCVD, PeerEvent.CNCL => true
  | PeerState.ESTAB, PeerEvent.OPN_ACPT => true
  | PeerState.ESTAB, PeerEvent.CLS_ACPT => true
  | PeerState.ESTAB, PeerEvent.OPN_RJCT => true
  | PeerState.ESTAB, PeerEvent.CNF_RJCT => true
  | PeerState.ESTAB, PeerEvent.CNCL => true
  | PeerState.HOLDING, PeerEvent.CLS_ACPT => true
  | PeerState.HOLDING, PeerEvent.TOH => true
  | PeerState.HOLDING, PeerEvent.OPN_ACPT => true
  | PeerState.HOLDING, PeerEvent.CNF_ACPT => true
  | PeerState.HOLDING, PeerEvent.OPN_RJCT => true
  | PeerState.HOLDING, PeerEvent.CNF_RJCT => true
  | _, _ => false

/-- The value of m_state after StateMachine as a function of the state before and
the event: the assignments to m_state in the body of StateMachine, and the state
before where a case assigns none. -/
def nextState : PeerState → PeerEvent → PeerState
  | PeerState.IDLE, PeerEvent.ACTOPN => PeerState.OPN_SNT
  | PeerState.IDLE, PeerEvent.OPN_ACPT => PeerState.OPN_RCVD
  | PeerState.OPN_SNT, PeerEvent.CNF_ACPT => PeerState.CNF_RCVD
  | PeerState.OPN_SNT, PeerEvent.OPN_ACPT => PeerState.OPN_RCVD
  | PeerState.OPN_SNT, PeerEvent.CLS_ACPT => PeerState.HOLDING
  | PeerState.OPN_SNT, PeerEvent.OPN_RJCT => PeerState.HOLDING
  | PeerState.OPN_SNT, PeerEvent.CNF_RJCT => PeerState.HOLDING
  | PeerState.OPN_SNT, PeerEvent.TOR2 => PeerState.HOLDING
  | PeerState.OPN_SNT, PeerEvent.CNCL => PeerState.HOLDING
  | PeerState.CNF_RCVD, PeerEvent.OPN_ACPT => PeerState.ESTAB
  | PeerState.CNF_RCVD, PeerEvent.CLS_ACPT => PeerState.HOLDING
  | PeerState.CNF_RCVD, PeerEvent.CNF_RJCT => PeerState.HOLDING
  | PeerState.CNF_RCVD, PeerEvent.OPN_RJCT => PeerState.HOLDING
  | PeerState.CNF_RCVD, PeerEvent.CNCL => PeerState.HOLDING
  | PeerState.CNF_RCVD, PeerEvent.TOC => PeerState.HOLDING
  | PeerState.OPN_RCVD, PeerEvent.CNF_ACPT => PeerState.ESTAB
  | PeerState.OPN_RCVD, PeerEvent.CLS_ACPT => PeerState.HOLDING
  | PeerState.OPN_RCVD, PeerEvent.OPN_RJCT => PeerState.HOLDING
  | PeerState.OPN_RCVD, PeerEvent.CNF_RJCT => PeerState.HOLDING
  | PeerState.OPN_RCVD, PeerEvent.TOR2 => PeerState.HOLDING
  | PeerState.OPN_RCVD, PeerEvent.CNCL => PeerState.HOLDING
  | PeerState.ESTAB, PeerEvent.CLS_ACPT => PeerState.HOLDING
  | PeerState.ESTAB, PeerEvent.OPN_RJCT => PeerState.HOLDING
  | PeerState.ESTAB, PeerEvent.CNF_RJCT => PeerState.HOLDING
  | PeerState.ESTAB, PeerEvent.CNCL => PeerState.HOLDING
  | PeerState.HOLDING, PeerEvent.CLS_ACPT => PeerState.IDLE
  | PeerState.HOLDING, PeerEvent.TOH => PeerState.IDLE
  | s, _ => s

/-- The status notification the link `l` emits for a change from `ostate` to
`nstate`: the arguments of m_linkStatusCallback. -/
def statusSignal (l : PeerLink) (ostate nstate : PeerState) : Effect :=
  Effect.linkStatusCallback l.m_interface l.m_peerAddress l.m_peerMeshPointAddress ostate nstate

/-- The frame the link `l` hands to its MAC plugin for the element `peerElement`:
the arguments of SendPeerLinkManagementFrame. -/
def managementFrame (l : PeerLink) (peerElement : IePeerManagement) : Effect :=
  Effect.SendPeerLinkManagementFrame l.m_peerAddress l.m_peerMeshPointAddress l.m_assocId
    peerElement l.m_configuration

/-- The Open frame of the link `l`. -/
def openFrame (l : PeerLink) : Effect :=
  managementFrame l (IePeerManagement.PeerOpen l.m_localLinkId)

/-- The Confirm frame of the link `l`. -/
def confirmFrame (l : PeerLink) : Effect :=
  managementFrame l (IePeerManagement.PeerConfirm l.m_localLinkId l.m_peerLinkId)

/-- The Close frame of the link `l` with the reason `reason`. -/
def closeFrame (l : PeerLink) (reason : PmpReasonCode) : Effect :=
  managementFrame l (IePeerManagement.PeerClose l.m_localLinkId l.m_peerLinkId reason)

/-- The assertion of SetRetryTimer on the link `l`. -/
def retryTimeoutOk (l : PeerLink) : Bool :=
  decide (Time.GetMicroSeconds l.m_dot11MeshRetryTimeout ≠ 0)

/-- The assertion of SetConfirmTimer on the link `l`. -/
def confirmTimeoutOk (l : PeerLink) : Bool :=
  decide (Time.GetMicroSeconds l.m_dot11MeshConfirmTimeout ≠ 0)

/-- The assertion of SetHoldingTimer on the link `l`. -/
def holdingTimeoutOk (l : PeerLink) : Bool :=
  decide (Time.GetMicroSeconds l.m_dot11MeshHoldingTimeout ≠ 0)

/-- The assertion made on entering ESTAB: the peer mesh-point address is known. -/
def peerMeshPointKnown (l : PeerLink) : Bool :=
  decide (l.m_peerMeshPointAddress ≠ Mac48Address.GetBroadcast)

/-! ## Links used as concrete inputs -/

/-- A link as its owner sets it up before the first event: interface 1, peer address
2, peer mesh-point address 2, local link identifier 7, local association
identifier 3. -/
def exampleLink : PeerLink :=
  SetLocalAid 3 (SetLocalLinkId 7 (SetPeerMeshPointAddress 2 (SetPeerAddress 2
    (SetInterface 1 (PeerLink.PeerLink 0 0)))))

/-- The example link after ActiveOpen: in OPN_SNT. -/
def exampleOpnSnt : PeerLink := MLMEActivePeerLinkOpen exampleLink

/-- The example link after ActiveOpen and ConfirmAccept: in CNF_RCVD. -/
def exampleCnfRcvd : PeerLink :=
  StateMachine PeerEvent.CNF_ACPT PmpReasonCode.REASON11S_RESERVED exampleOpnSnt

/-- The example link after OpenAccept: in OPN_RCVD. -/
def exampleOpnRcvd : PeerLink :=
  StateMachine PeerEvent.OPN_ACPT PmpReasonCode.REASON11S_RESERVED exampleLink

/-- The example link after ActiveOpen, ConfirmAccept and OpenAccept: in ESTAB. -/
def exampleEstab : PeerLink :=
  StateMachine PeerEvent.OPN_ACPT PmpReasonCode.REASON11S_RESERVED exampleCnfRcvd

/-- The example link after ActiveOpen, ConfirmAccept, OpenAccept and Cancel: in
HOLDING. -/
def exampleHolding : PeerLink :=
  MLMECancelPeerLink PmpReasonCode.REASON11S_PEERING_CANCELLED exampleEstab

/-- The link `l'` has the same members as `l` apart from the retry counter, the
retry timer, the effects and the recorded assertion violations. -/
def sameButRetry (l l' : PeerLink) : Prop :=
  { l' with
    m_retryCounter := l.m_retryCounter
    m_retryTimer := l.m_retryTimer
    m_effects := l.m_effects
    m_failedAsserts := l.m_failedAsserts } = l

/-- The link `l'` has the same members as `l` apart from those StateMachine writes:
the state, the retry counter, the retry, confirm and holding timers, the effects
and the recorded assertion violations. -/
def sameButMachine (l l' : PeerLink) : Prop :=
  { l' with
    m_state := l.m_state
    m_retryCounter := l.m_retryCounter
    m_retryTimer := l.m_retryTimer
    m_confirmTimer := l.m_confirmTimer
    m_holdingTimer := l.m_holdingTimer
    m_effects := l.m_effects
    m_failedAsserts := l.m_failedAsserts } = l

/-- The mesh-point address of the link once a handler has dealt with the address
`peerMp` presented by a frame: the presented one if none was bound, the bound one
otherwise. -/
def boundMeshPoint (peerMp : Mac48Address) (l : PeerLink) : Mac48Address :=
  if l.m_peerMeshPointAddress ≠ Mac48Address.GetBroadcast then l.m_peerMeshPointAddress
  else peerMp

/-- The link on which a handler of a received frame runs the state machine, in
terms of the link `l` it was called on: `id` is the peer link identifier, `conf`
the configuration, `aid` the peer association identifier and `mp` the peer
mesh-point address that the handler has written, and the assertion that a bound
mesh-point address equals the presented one `peerMp` has been made. -/
def frameBound (id : Nat) (conf : IeConfiguration) (aid : Nat) (mp peerMp : Mac48Address)
    (l : PeerLink) : PeerLink :=
  { l with
    m_peerLinkId := id
    m_configuration := conf
    m_peerAssocId := aid
    m_peerMeshPointAddress := mp
    m_failedAsserts :=
      if l.m_peerMeshPointAddress ≠ Mac48Address.GetBroadcast then
        l.m_failedAsserts ++
          (if decide (l.m_peerMeshPointAddress = peerMp) then []
            else [NsAssert.peerMeshPointAddressMatches])
      else l.m_failedAsserts }

/-- The example link after ActiveOpen, a Confirm frame presenting the link
identifier 5 and an Open frame presenting the same: in ESTAB, with the peer link
identifier 5 and the peer mesh-point address 2 bound. -/
def exampleEstabKnown : PeerLink :=
  OpenAccept 5 0 2 (ConfirmAccept 5 7 1 0 2 (MLMEActivePeerLinkOpen exampleLink))

/-- The number of set bits among the `W` least-significant bits of `x`, as the spec
counts them. -/
def setBits (W x : Nat) : Nat :=
  (List.range W).countP (fun i => x.testBit i)

/-- Calls that set up a link, establish the peering with the peer association
identifier 1, and handle a first beacon whose timing record has an entry for this
station. -/
def exampleBeaconCalls : List Call :=
  [Call.SetInterface 1, Call.SetPeerAddress 2, Call.SetPeerMeshPointAddress 2,
   Call.SetLocalLinkId 7, Call.SetLocalAid 3, Call.MLMEActivePeerLinkOpen,
   Call.ConfirmAccept 5 7 1 0 2, Call.OpenAccept 5 0 2,
   Call.SetBeaconInformation (MilliSeconds 500) (MilliSeconds 500),
   Call.SetBeaconTimingElement [{ aid := 1, lastBeacon := 100, beaconInterval := 488 }],
   Call.UpdateBeaconReceived 0]

/-- The timer invariant as a test: the retry timer is pending exactly in OPN_SNT and
OPN_RCVD, the confirm timer exactly in CNF_RCVD, the holding timer exactly in
HOLDING. -/
def timersMatchState (l : PeerLink) : Bool :=
  (l.m_retryTimer.isSome == (l.m_state == PeerState.OPN_SNT || l.m_state == PeerState.OPN_RCVD))
  && (l.m_confirmTimer.isSome == (l.m_state == PeerState.CNF_RCVD))
  && (l.m_holdingTimer.isSome == (l.m_state == PeerState.HOLDING))

/-- The link `l'` has the same members as `l` apart from those the beacon functions
write: the beacon history, the last beacon and the beacon interval, the two beacon
timers, the previous beacon timing, the new-link flag, the effects and the recorded
assertion violations. -/
def sameButBeacon (l l' : PeerLink) : Prop :=
  { l' with
    m_beaconsOnLink := l.m_beaconsOnLink
    m_lastBeacon := l.m_lastBeacon
    m_beaconInterval := l.m_beaconInterval
    m_beaconLossTimer := l.m_beaconLossTimer
    m_beaconMissedTimer := l.m_beaconMissedTimer
    m_prevBeaconTiming := l.m_prevBeaconTiming
    m_newLink := l.m_newLink
    m_effects := l.m_effects
    m_failedAsserts := l.m_failedAsserts } = l

/-- The call presents no link identifier 0: the identifier a frame handler is given
as the peer's (`localLinkId`) and the one SetLocalLinkId is given are not 0. -/
def presentsBoundIds : Call → Prop
  | Call.SetLocalLinkId id => id ≠ 0
  | Call.Close localLinkId _ _ => localLinkId ≠ 0
  | Call.OpenAccept localLinkId _ _ => localLinkId ≠ 0
  | Call.OpenReject localLinkId _ _ _ => localLinkId ≠ 0
  | Call.ConfirmAccept localLinkId _ _ _ _ => localLinkId ≠ 0
  | Call.ConfirmReject localLinkId _ _ _ _ => localLinkId ≠ 0
  | _ => True

/-- The local link identifier is not 0, and in ESTAB the peer link identifier is not
0 either. -/
def idsBound (l : PeerLink) : Prop :=
  l.m_localLinkId ≠ 0 ∧ (l.m_state = PeerState.ESTAB → l.m_peerLinkId ≠ 0)

/-- A sequence of events, each with its reason code, applied to a link in order. -/
def StateMachineRun (events : List (PeerEvent × PmpReasonCode)) (l : PeerLink) : PeerLink :=
  events.foldl (fun l e => StateMachine e.1 e.2 l) l

/-- The mask with which GotoNextTimeStampAndClearOldest clears the slot `s`. -/
def clearMask (s : Nat) : Nat :=
  (((0x0001 <<< s) ^^^ 0xffffffff) &&& 0x0FFF) % 65536

/-- The slots that the forward count of a tracker with current slot `t` reads. -/
def countedSlot (t j : Nat) : Bool :=
  decide (j ≠ t ∧ j ≠ (t + 1) % 12)

/-- A tracker at time stamp 0 that has recorded, for the neighbour 5, a probe in each
of the slots 2, ..., 11, the last with the reverse count 10. -/
def exampleTracker : NeighborEtx :=
  (List.range' 2 10).foldl (fun e slot => (UpdateNeighborEtx 5 slot 10 e).2)
    NeighborEtx.NeighborEtx

/-- A tracker at time stamp 0 that has recorded, for the neighbour 5, a probe in each
of the twelve slots, the last with the reverse count 10. -/
def exampleTrackerFull : NeighborEtx :=
  (List.range 12).foldl (fun e slot => (UpdateNeighborEtx 5 slot 10 e).2)
    NeighborEtx.NeighborEtx

/-- The failure rate that CalculateMetric obtains for a peer: the beacon-based
average of the interface when FerFromBeacon is set, the frame error rate of the
station manager otherwise. -/
def obtainedFailAvg (peerAddress : Mac48Address) (mac : MeshWifiInterfaceMac)
    (c : AirtimeLinkMetricCalculator) : ℚ :=
  if c.m_useBeacon then mac.GetFailAvg peerAddress else mac.GetFrameErrorRate peerAddress

/-- An interface whose answers are fixed numbers: failure average `f`, frame error
rate `g`, receive power `p`, threshold -96, mode 0, frequency 5180, a transmit
duration of 1500 microseconds, PIFS 25, slot 9 and EIFS-without-DIFS 60
microseconds. -/
def exampleMac (f g p : ℚ) : MeshWifiInterfaceMac :=
  { GetFailAvg := fun _ => f
    GetPeerRxPower := fun _ => p
    GetFrameErrorRate := fun _ => g
    GetDataTxVectorMode := fun _ _ _ => 0
    GetEdThreshold := -96
    GetFrequency := 5180
    CalculateTxDuration := fun _ _ _ => 1500000
    GetPifs := 25000
    GetSlot := 9000
    GetEifsNoDifs := 60000 }

/-- Both beacon histories fit the 32 bits of a uint32_t. -/
def historyFits (l : PeerLink) : Prop :=
  l.m_beaconsOnLink.fwdBeacons < 2 ^ 32 ∧ l.m_beaconsOnLink.revBeacons < 2 ^ 32

/-- The calls of exampleBeaconCalls, then 20 expirations of the beacon-missed timer
with no beacon in between, then a beacon whose timing record has no entry at
all. -/
def exampleMissedCalls : List Call :=
  exampleBeaconCalls ++ List.replicate 20 Call.BeaconMissedTimerExpires ++
    [Call.SetBeaconTimingElement []]

/-- The receive-power compensation term of CalculateMetric (the local variable
powerCompensation): the coefficient times 10 ^ ((3 - powerBudget) / 10) - 1 when the
power budget, receive power minus energy-detection threshold, is below 3, and 0
otherwise. -/
def powerCompensation (pow10 : ℚ → ℚ) (peerAddress : Mac48Address) (mac : MeshWifiInterfaceMac)
    (c : AirtimeLinkMetricCalculator) : ℚ :=
  if mac.GetPeerRxPower peerAddress - mac.GetEdThreshold < 3 then
    c.m_metricRxPowerCoef *
      (pow10 ((3 - (mac.GetPeerRxPower peerAddress - mac.GetEdThreshold)) / 10) - 1)
  else 0

/-- The channel-access overhead PIFS + slot + EIFS-without-DIFS, in whole
microseconds. -/
def overheadMicroSeconds (mac : MeshWifiInterfaceMac) : Int :=
  Time.GetMicroSeconds (mac.GetPifs + mac.GetSlot + mac.GetEifsNoDifs)

/-- The transmit duration of the test frame in the mode that the station manager
reports for the peer. -/
def testFrameTxDuration (peerAddress : Mac48Address) (mac : MeshWifiInterfaceMac)
    (c : AirtimeLinkMetricCalculator) : Time :=
  mac.CalculateTxDuration c.m_testFrame
    (mac.GetDataTxVectorMode peerAddress c.m_testHeader c.m_testFrame) mac.GetFrequency

/-- The overhead and the transmit duration of the test frame, added as durations
and then taken in whole microseconds, as the plain variant does. -/
def airtimeMicroSeconds (peerAddress : Mac48Address) (mac : MeshWifiInterfaceMac)
    (c : AirtimeLinkMetricCalculator) : Int :=
  Time.GetMicroSeconds (mac.GetPifs + mac.GetSlot + mac.GetEifsNoDifs
    + testFrameTxDuration peerAddress mac c)

/-- A stand-in for std::pow (10, x) that has its value at every integer x. -/
def pow10AtIntegers (x : ℚ) : ℚ := (10 : ℚ) ^ ⌊x⌋

/-- A stand-in for std::sqrt (x) that has its value at every perfect square x. -/
def sqrtAtSquares (x : ℚ) : ℚ := (Nat.sqrt ⌊x⌋.toNat : ℚ)

/-- The default calculator with the receive-power coefficient 1. -/
def exampleCalculator : AirtimeLinkMetricCalculator :=
  { AirtimeLinkMetricCalculator.AirtimeLinkMetricCalculator with m_metricRxPowerCoef := 1 }

/-- A tracker at time stamp 0 that has recorded, for the neighbour 5, a probe in each
of the slots 2, ..., 11, the last with the reverse count 255. -/
def exampleTrackerBest : NeighborEtx :=
  (List.range' 2 10).foldl (fun e slot => (UpdateNeighborEtx 5 slot 255 e).2)
    NeighborEtx.NeighborEtx

/-- The call presents a peer mesh-point address that is known: the address that
OpenAccept or ConfirmAccept is given is not the broadcast placeholder. -/
def presentsKnownMeshPoint : Call → Prop
  | Call.OpenAccept _ _ peerMp => peerMp ≠ Mac48Address.GetBroadcast
  | Call.ConfirmAccept _ _ _ _ peerMp => peerMp ≠ Mac48Address.GetBroadcast
  | _ => True

/-- The assertion that the peer mesh-point address is known has not been violated
so far. -/
def knownAssertHolds (l : PeerLink) : Prop :=
  NsAssert.peerMeshPointAddressKnown ∉ l.m_failedAsserts

/-- A link-probe element with the neighbours 1, ..., n, each with the count 10,
added one after the other to a fresh element. -/
def exampleLpp (n : Nat) : IeLpp :=
  (List.range n).foldl (fun ie k => (AddToNeighborsList (k + 1) 10 ie).2) (IeLpp.IeLpp 0 0)

/-! ## Theorems -/

open PeerState PeerEvent PmpReasonCode IePeerManagement

/-! ### Auxiliary lemmas -/

/-- The state after StateMachine is the one `nextState` gives. -/
theorem StateMachine_m_state (e : PeerEvent) (r : PmpReasonCode) (l : PeerLink) :
    (StateMachine e r l).m_state = nextState l.m_state e := by
  cases hs : l.m_state <;> cases e <;> (cases l; simp only at hs; subst hs; rfl)

/-- StateMachine on TOR1 while the link is being opened. -/
theorem StateMachine_TOR1 (r : PmpReasonCode) (l : PeerLink)
    (h : l.m_state = OPN_SNT ∨ l.m_state = OPN_RCVD) :
    StateMachine TOR1 r l =
      NS_ASSERT (retryTimeoutOk l) NsAssert.retryTimeoutNonZero
        { l with
          m_effects := l.m_effects ++ [openFrame l]
          m_retryCounter := (l.m_retryCounter + 1) % 65536
          m_retryTimer := some l.m_dot11MeshRetryTimeout } := by
  cases l
  simp only at h
  rcases h with h | h <;> subst h <;> rfl

/-- StateMachine on TOR2 while the link is being opened. -/
theorem StateMachine_TOR2 (r : PmpReasonCode) (l : PeerLink)
    (h : l.m_state = OPN_SNT ∨ l.m_state = OPN_RCVD) :
    StateMachine TOR2 r l =
      NS_ASSERT (holdingTimeoutOk l) NsAssert.holdingTimeoutNonZero
        { l with
          m_state := HOLDING
          m_effects := l.m_effects ++ [statusSignal l l.m_state HOLDING]
            ++ [closeFrame l REASON11S_MESH_MAX_RETRIES]
          m_retryTimer := none
          m_holdingTimer := some l.m_dot11MeshHoldingTimeout } := by
  cases l
  simp only at h
  rcases h with h | h <;> subst h <;> rfl

/-- Every link agrees with itself. -/
theorem sameButRetry_refl (l : PeerLink) : sameButRetry l l := by
  cases l
  rfl

/-- What two links that differ at most in the retry members have in common. -/
theorem sameButRetry_fields (l l' : PeerLink) (h : sameButRetry l l') :
    l'.m_state = l.m_state ∧ l'.m_dot11MeshMaxRetries = l.m_dot11MeshMaxRetries ∧
    l'.m_dot11MeshRetryTimeout = l.m_dot11MeshRetryTimeout ∧
    l'.m_dot11MeshHoldingTimeout = l.m_dot11MeshHoldingTimeout ∧
    l'.m_holdingTimer = l.m_holdingTimer ∧
    openFrame l' = openFrame l ∧ closeFrame l' = closeFrame l ∧
    statusSignal l' = statusSignal l := by
  cases l
  cases l'
  cases h
  exact ⟨rfl, rfl, rfl, rfl, rfl, rfl, rfl, rfl⟩

/-- The firing of a pending retry timer runs RetryTimeout on the link whose retry
timer is no longer pending. -/
theorem RetryTimerExpires_of_pending (l : PeerLink) (h : l.m_retryTimer ≠ none) :
    RetryTimerExpires l = some (RetryTimeout { l with m_retryTimer := none }) := by
  unfold RetryTimerExpires
  cases hd : l.m_retryTimer with
  | none => exact absurd hd h
  | some d => rfl

/-- One firing of the retry timer below the maximum number of retries: dispatched
as TOR1, and what it changes. -/
theorem retry_step (l lk : PeerLink) (hs : l.m_state = OPN_SNT ∨ l.m_state = OPN_RCVD)
    (hf : sameButRetry l lk) (ht : lk.m_retryTimer ≠ none)
    (hlt : lk.m_retryCounter < l.m_dot11MeshMaxRetries)
    (hm : l.m_dot11MeshMaxRetries < 65536) :
    ∃ lk', RetryTimerExpires lk = some lk' ∧
      lk' = StateMachine TOR1 REASON11S_RESERVED { lk with m_retryTimer := none } ∧
      sameButRetry l lk' ∧ lk'.m_retryCounter = lk.m_retryCounter + 1 ∧
      lk'.m_retryTimer = some l.m_dot11MeshRetryTimeout ∧
      lk'.m_effects = lk.m_effects ++ [openFrame l] ∧
      (retryTimeoutOk l = true → lk'.m_failedAsserts = lk.m_failedAsserts) := by
  obtain ⟨f1, f2, f3, -, -, f6, -, -⟩ := sameButRetry_fields l lk hf
  have hs' : ({ lk with m_retryTimer := none } : PeerLink).m_state = OPN_SNT ∨
      ({ lk with m_retryTimer := none } : PeerLink).m_state = OPN_RCVD := by
    show lk.m_state = OPN_SNT ∨ lk.m_state = OPN_RCVD
    rw [f1]
    exact hs
  have hlt' : ({ lk with m_retryTimer := none } : PeerLink).m_retryCounter <
      ({ lk with m_retryTimer := none } : PeerLink).m_dot11MeshMaxRetries := by
    show lk.m_retryCounter < lk.m_dot11MeshMaxRetries
    rw [f2]
    exact hlt
  have hdisp : RetryTimeout { lk with m_retryTimer := none } =
      StateMachine TOR1 REASON11S_RESERVED { lk with m_retryTimer := none } := by
    unfold RetryTimeout
    rw [if_pos hlt']
  have hmod : (lk.m_retryCounter + 1) % 65536 = lk.m_retryCounter + 1 :=
    Nat.mod_eq_of_lt (by omega)
  refine ⟨_, (RetryTimerExpires_of_pending lk ht).trans (congrArg some hdisp), rfl, ?_⟩
  rw [StateMachine_TOR1 REASON11S_RESERVED _ hs']
  refine ⟨?_, ?_, ?_, ?_, ?_⟩
  · exact hf
  · exact hmod
  · show some lk.m_dot11MeshRetryTimeout = some l.m_dot11MeshRetryTimeout
    rw [f3]
  · show lk.m_effects ++ [openFrame lk] = lk.m_effects ++ [openFrame l]
    rw [f6]
  · intro hok
    have hok' : retryTimeoutOk lk = true := by
      unfold retryTimeoutOk
      rw [f3]
      exact hok
    show lk.m_failedAsserts ++ (if retryTimeoutOk lk = true then [] else _) = lk.m_failedAsserts
    rw [if_pos hok', List.append_nil]

/-- The link after `k` firings of the retry timer, for `k` up to the maximum number
of retries, when the counter started at 0: the firings all happen, and what they
leave behind. -/
theorem retry_run (l : PeerLink) (hs : l.m_state = OPN_SNT ∨ l.m_state = OPN_RCVD)
    (hc : l.m_retryCounter = 0) (ht : l.m_retryTimer ≠ none)
    (hm : l.m_dot11MeshMaxRetries < 65536) (k : Nat) (hk : k ≤ l.m_dot11MeshMaxRetries) :
    ∃ lk, RetryTimerExpiresTimes k l = some lk ∧ sameButRetry l lk ∧
      lk.m_retryCounter = k ∧ lk.m_retryTimer ≠ none ∧
      lk.m_effects = l.m_effects ++ List.replicate k (openFrame l) ∧
      (retryTimeoutOk l = true → lk.m_failedAsserts = l.m_failedAsserts) := by
  induction k with
  | zero =>
    refine ⟨l, rfl, sameButRetry_refl l, hc, ht, ?_, fun _ => rfl⟩
    rw [List.replicate_zero, List.append_nil]
  | succ k ih =>
    obtain ⟨lk, h1, h2, h3, h4, h5, h6⟩ := ih (by omega)
    obtain ⟨lk', g1, -, g3, g4, g5, g6, g7⟩ := retry_step l lk hs h2 h4 (by omega) hm
    refine ⟨lk', ?_, g3, ?_, ?_, ?_, ?_⟩
    · show (RetryTimerExpiresTimes k l).bind RetryTimerExpires = some lk'
      rw [h1]
      exact g1
    · rw [g4, h3]
    · rw [g5]
      exact Option.some_ne_none _
    · rw [g6, h5, List.replicate_succ', List.append_assoc]
    · intro hok
      rw [g7 hok, h6 hok]

/-- StateMachine writes no member other than the state, the retry counter, the
three timers, the effects and the recorded assertion violations. -/
theorem StateMachine_frame (e : PeerEvent) (r : PmpReasonCode) (l : PeerLink) :
    sameButMachine l (StateMachine e r l) := by
  cases hs : l.m_state <;> cases e <;> (cases l; simp only at hs; subst hs; rfl)

/-- Members that two links have in common when they differ at most in what
StateMachine writes. -/
theorem sameButMachine_fields (l l' : PeerLink) (h : sameButMachine l l') :
    l'.m_peerLinkId = l.m_peerLinkId ∧ l'.m_localLinkId = l.m_localLinkId ∧
    l'.m_peerMeshPointAddress = l.m_peerMeshPointAddress ∧
    l'.m_packetFail = l.m_packetFail ∧ l'.m_maxPacketFail = l.m_maxPacketFail ∧
    l'.m_beaconsOnLink = l.m_beaconsOnLink ∧ l'.m_newLink = l.m_newLink ∧
    l'.m_configuration = l.m_configuration ∧ l'.m_peerAssocId = l.m_peerAssocId := by
  cases l
  cases l'
  cases h
  exact ⟨rfl, rfl, rfl, rfl, rfl, rfl, rfl, rfl, rfl⟩

/-- StateMachine leaves the peer link identifier as it is. -/
theorem StateMachine_m_peerLinkId (e : PeerEvent) (r : PmpReasonCode) (l : PeerLink) :
    (StateMachine e r l).m_peerLinkId = l.m_peerLinkId :=
  (sameButMachine_fields l _ (StateMachine_frame e r l)).1

/-- OpenAccept: the state machine always runs, on the link with the presented
identifier written. -/
theorem OpenAccept_eq (localLinkId : Nat) (conf : IeConfiguration) (peerMp : Mac48Address)
    (l : PeerLink) :
    OpenAccept localLinkId conf peerMp l = StateMachine OPN_ACPT REASON11S_RESERVED
      (frameBound localLinkId conf l.m_peerAssocId (boundMeshPoint peerMp l) peerMp l) := by
  unfold OpenAccept frameBound boundMeshPoint NS_ASSERT
  by_cases h : l.m_peerMeshPointAddress ≠ Mac48Address.GetBroadcast
  · simp only [if_pos h]
  · simp only [if_neg h]

/-- OpenReject: the state machine always runs; the presented identifier is written
only when none is known. -/
theorem OpenReject_eq (localLinkId : Nat) (conf : IeConfiguration) (peerMp : Mac48Address)
    (reason : PmpReasonCode) (l : PeerLink) :
    OpenReject localLinkId conf peerMp reason l = StateMachine OPN_RJCT reason
      (frameBound (if l.m_peerLinkId = 0 then localLinkId else l.m_peerLinkId) conf
        l.m_peerAssocId (boundMeshPoint peerMp l) peerMp l) := by
  unfold OpenReject frameBound boundMeshPoint NS_ASSERT
  by_cases h : l.m_peerMeshPointAddress ≠ Mac48Address.GetBroadcast <;>
    by_cases h0 : l.m_peerLinkId = 0
  · simp only [if_pos h, if_pos h0]
  · simp only [if_pos h, if_neg h0]
  · simp only [if_neg h, if_pos h0]
  · simp only [if_neg h, if_neg h0]

/-- ConfirmAccept: dropped when the frame does not name this link or presents an
identifier other than the known one; otherwise the state machine runs on the link
with the presented identifier. -/
theorem ConfirmAccept_eq (localLinkId peerLinkId peerAid : Nat) (conf : IeConfiguration)
    (peerMp : Mac48Address) (l : PeerLink) :
    ConfirmAccept localLinkId peerLinkId peerAid conf peerMp l =
      if l.m_localLinkId ≠ peerLinkId then l
      else if l.m_peerLinkId ≠ 0 ∧ l.m_peerLinkId ≠ localLinkId then l
      else StateMachine CNF_ACPT REASON11S_RESERVED
        (frameBound localLinkId conf peerAid (boundMeshPoint peerMp l) peerMp l) := by
  unfold ConfirmAccept frameBound boundMeshPoint NS_ASSERT
  by_cases h1 : l.m_localLinkId ≠ peerLinkId
  · simp only [if_pos h1]
  · by_cases h0 : l.m_peerLinkId = 0
    · have h2 : ¬ (l.m_peerLinkId ≠ 0 ∧ l.m_peerLinkId ≠ localLinkId) := fun hc => hc.1 h0
      by_cases h : l.m_peerMeshPointAddress ≠ Mac48Address.GetBroadcast
      · simp only [if_neg h1, if_pos h0, if_neg h2, if_pos h]
      · simp only [if_neg h1, if_pos h0, if_neg h2, if_neg h]
    · by_cases h3 : l.m_peerLinkId ≠ localLinkId
      · simp only [if_neg h1, if_neg h0, if_pos h3, if_pos (And.intro h0 h3)]
      · have h2 : ¬ (l.m_peerLinkId ≠ 0 ∧ l.m_peerLinkId ≠ localLinkId) := fun hc => h3 hc.2
        have h4 : l.m_peerLinkId = localLinkId := Classical.not_not.mp h3
        subst h4
        by_cases h : l.m_peerMeshPointAddress ≠ Mac48Address.GetBroadcast
        · simp only [if_neg h1, if_neg h0, if_neg h3, if_neg h2, if_pos h]
        · simp only [if_neg h1, if_neg h0, if_neg h3, if_neg h2, if_neg h]

/-- ConfirmReject: dropped like ConfirmAccept; otherwise the state machine runs on
the link with the presented identifier and the presented mesh-point address. -/
theorem ConfirmReject_eq (localLinkId peerLinkId : Nat) (conf : IeConfiguration)
    (peerMp : Mac48Address) (reason : PmpReasonCode) (l : PeerLink) :
    ConfirmReject localLinkId peerLinkId conf peerMp reason l =
      if l.m_localLinkId ≠ peerLinkId then l
      else if l.m_peerLinkId ≠ 0 ∧ l.m_peerLinkId ≠ localLinkId then l
      else StateMachine CNF_RJCT reason
        (frameBound localLinkId conf l.m_peerAssocId peerMp peerMp l) := by
  unfold ConfirmReject frameBound NS_ASSERT
  by_cases h1 : l.m_localLinkId ≠ peerLinkId
  · simp only [if_pos h1]
  · by_cases h0 : l.m_peerLinkId = 0
    · have h2 : ¬ (l.m_peerLinkId ≠ 0 ∧ l.m_peerLinkId ≠ localLinkId) := fun hc => hc.1 h0
      by_cases h : l.m_peerMeshPointAddress ≠ Mac48Address.GetBroadcast
      · simp only [if_neg h1, if_pos h0, if_neg h2, if_pos h]
      · simp only [if_neg h1, if_pos h0, if_neg h2, if_neg h]
    · by_cases h3 : l.m_peerLinkId ≠ localLinkId
      · simp only [if_neg h1, if_neg h0, if_pos h3, if_pos (And.intro h0 h3)]
      · have h2 : ¬ (l.m_peerLinkId ≠ 0 ∧ l.m_peerLinkId ≠ localLinkId) := fun hc => h3 hc.2
        have h4 : l.m_peerLinkId = localLinkId := Classical.not_not.mp h3
        subst h4
        by_cases h : l.m_peerMeshPointAddress ≠ Mac48Address.GetBroadcast
        · simp only [if_neg h1, if_neg h0, if_neg h3, if_neg h2, if_pos h]
        · simp only [if_neg h1, if_neg h0, if_neg h3, if_neg h2, if_neg h]

/-- Close: dropped when the frame names another link or presents an identifier
other than the known one; otherwise the state machine runs on the link with the
presented identifier. -/
theorem Close_eq (localLinkId peerLinkId : Nat) (reason : PmpReasonCode) (l : PeerLink) :
    Close localLinkId peerLinkId reason l =
      if peerLinkId ≠ 0 ∧ l.m_localLinkId ≠ peerLinkId then l
      else if l.m_peerLinkId ≠ 0 ∧ l.m_peerLinkId ≠ localLinkId then l
      else StateMachine CLS_ACPT reason { l with m_peerLinkId := localLinkId } := by
  unfold Close
  by_cases h1 : peerLinkId ≠ 0 ∧ l.m_localLinkId ≠ peerLinkId
  · simp only [if_pos h1]
  · by_cases h0 : l.m_peerLinkId = 0
    · have h2 : ¬ (l.m_peerLinkId ≠ 0 ∧ l.m_peerLinkId ≠ localLinkId) := fun hc => hc.1 h0
      simp only [if_neg h1, if_pos h0, if_neg h2]
    · by_cases h3 : l.m_peerLinkId ≠ localLinkId
      · simp only [if_neg h1, if_neg h0, if_pos h3, if_pos (And.intro h0 h3)]
      · have h2 : ¬ (l.m_peerLinkId ≠ 0 ∧ l.m_peerLinkId ≠ localLinkId) := fun hc => h3 hc.2
        have h4 : l.m_peerLinkId = localLinkId := Classical.not_not.mp h3
        subst h4
        simp only [if_neg h1, if_neg h0, if_neg h3, if_neg h2]

/-- StateMachine only adds to the recorded assertion violations. -/
theorem StateMachine_failedAsserts (e : PeerEvent) (r : PmpReasonCode) (l : PeerLink) :
    ∃ extra, (StateMachine e r l).m_failedAsserts = l.m_failedAsserts ++ extra := by
  cases hs : l.m_state <;> cases e <;>
    (cases l; simp only at hs; subst hs
     first
     | exact ⟨_, rfl⟩
     | exact ⟨[], (List.append_nil _).symm⟩)

/-! ### Beacon histories -/

/-- The test that CalculateFailAvg makes on bit `i` is the test of that bit. -/
theorem shift_and_one_ne_zero (x i : Nat) : ((x >>> i) &&& 0x00000001 ≠ 0) ↔ x.testBit i = true := by
  unfold Nat.testBit
  rw [Nat.and_comm, bne_iff_ne]

/-- The loop of CalculateFailAvg over a list of bit positions counts the set bits
at these positions, modulo 256. -/
theorem CalculateFailAvg_loop (f r : Nat) (L : List Nat) (a b : Nat) :
    L.foldl
      (fun (c : Nat × Nat) (i : Nat) =>
        ((c.1 + (if (f >>> i) &&& 0x00000001 ≠ 0 then 1 else 0)) % 256,
         (c.2 + (if (r >>> i) &&& 0x00000001 ≠ 0 then 1 else 0)) % 256))
      (a % 256, b % 256)
    = ((a + L.countP (fun i => f.testBit i)) % 256, (b + L.countP (fun i => r.testBit i)) % 256) := by
  induction L generalizing a b with
  | nil => simp
  | cons x L ih =>
    rw [List.foldl_cons]
    have hf : (if (f >>> x) &&& 0x00000001 ≠ 0 then 1 else 0) = (if f.testBit x = true then 1 else 0) :=
      if_congr (shift_and_one_ne_zero f x) rfl rfl
    have hr : (if (r >>> x) &&& 0x00000001 ≠ 0 then 1 else 0) = (if r.testBit x = true then 1 else 0) :=
      if_congr (shift_and_one_ne_zero r x) rfl rfl
    simp only [hf, hr, Nat.mod_add_mod]
    rw [ih, List.countP_cons, List.countP_cons]
    congr 2 <;> omega

/-- The number of set bits among the `W` lowest is at most `W`. -/
theorem setBits_le (W x : Nat) : setBits W x ≤ W := by
  unfold setBits
  exact (List.countP_le_length _).trans (by rw [List.length_range])

/-- The number of set bits among the `W` lowest depends on these bits only. -/
theorem setBits_mod (W x : Nat) : setBits W (x % 2 ^ W) = setBits W x := by
  unfold setBits
  apply List.countP_congr
  intro i hi
  rw [Nat.testBit_mod_two_pow]
  have : i < W := List.mem_range.mp hi
  simp [this]

/-- CalculateFailAvg in terms of the numbers of set bits, for a window of at most
255 beacons (the counters are uint8_t). -/
theorem CalculateFailAvg_eq (l : PeerLink) (hW : l.m_beaconWinSize ≤ 255) :
    CalculateFailAvg l =
      1 - ((setBits l.m_beaconWinSize l.m_beaconsOnLink.fwdBeacons
              * setBits l.m_beaconWinSize l.m_beaconsOnLink.revBeacons : Nat) : ℚ)
          / ((l.m_beaconWinSize * l.m_beaconWinSize : Nat) : ℚ) := by
  unfold CalculateFailAvg
  have h := CalculateFailAvg_loop l.m_beaconsOnLink.fwdBeacons l.m_beaconsOnLink.revBeacons
    (List.range l.m_beaconWinSize) 0 0
  simp only [Nat.zero_mod, Nat.zero_add] at h
  have hf := setBits_le l.m_beaconWinSize l.m_beaconsOnLink.fwdBeacons
  have hr := setBits_le l.m_beaconWinSize l.m_beaconsOnLink.revBeacons
  unfold setBits at hf hr
  rw [Nat.mod_eq_of_lt (by omega), Nat.mod_eq_of_lt (by omega)] at h
  simp only [h]
  rfl

/-- CalculateFailAvg depends on the window size and the two histories only. -/
theorem CalculateFailAvg_congr (l l' : PeerLink) (hW : l'.m_beaconWinSize = l.m_beaconWinSize)
    (hf : l'.m_beaconsOnLink.fwdBeacons = l.m_beaconsOnLink.fwdBeacons)
    (hr : l'.m_beaconsOnLink.revBeacons = l.m_beaconsOnLink.revBeacons) :
    CalculateFailAvg l' = CalculateFailAvg l := by
  unfold CalculateFailAvg
  rw [hW, hf, hr]

/-- Clearing bit 0 of an even 32-bit number changes nothing. -/
theorem and_fffffffe_of_even (y : Nat) (hlt : y < 4294967296) (hev : y % 2 = 0) :
    y &&& 0xfffffffe = y := by
  apply Nat.eq_of_testBit_eq
  intro i
  rw [Nat.testBit_and]
  have hfe : (0xfffffffe : Nat) = (2 ^ 31 - 1) <<< 1 := by decide
  rw [hfe, Nat.testBit_shiftLeft, Nat.testBit_two_pow_sub_one]
  cases i with
  | zero =>
    have : y.testBit 0 = false := by
      rw [Nat.testBit_zero]
      simp [hev]
    rw [this]
    rfl
  | succ i =>
    by_cases hi : i + 1 < 32
    · have h2 : i < 31 := by omega
      simp [h2]
    · have : y.testBit (i + 1) = false := by
        apply Nat.testBit_lt_two_pow
        calc y < 2 ^ 32 := by norm_num; exact hlt
          _ ≤ 2 ^ (i + 1) := Nat.pow_le_pow_right (by norm_num) (by omega)
      rw [this]
      rfl

/-- A missed beacon doubles the sequence modulo 2 ^ 32. -/
theorem AddBeaconMissToSequence_eq (x : Nat) :
    AddBeaconMissToSequence x = (2 * x) % 4294967296 := by
  unfold AddBeaconMissToSequence
  rw [Nat.shiftLeft_eq, Nat.pow_one, Nat.mul_comm x 2]
  exact and_fffffffe_of_even _ (Nat.mod_lt _ (by norm_num)) (by omega)

/-- A received beacon doubles the sequence modulo 2 ^ 32 and adds one. -/
theorem AddBeaconReceptionToSequence_eq (x : Nat) :
    AddBeaconReceptionToSequence x = (2 * x) % 4294967296 + 1 := by
  unfold AddBeaconReceptionToSequence
  rw [Nat.shiftLeft_eq, Nat.pow_one, Nat.mul_comm x 2]
  have hlt : (2 * x) % 4294967296 < 4294967296 := Nat.mod_lt _ (by norm_num)
  have hev : (2 * x) % 4294967296 % 2 = 0 := by omega
  generalize (2 * x) % 4294967296 = y at hev
  apply Nat.eq_of_testBit_eq
  intro i
  rw [Nat.testBit_or]
  cases i with
  | zero =>
    rw [Nat.testBit_zero, Nat.testBit_zero, Nat.testBit_zero]
    have : (y + 1) % 2 = 1 := by omega
    simp [this]
  | succ i =>
    rw [Nat.testBit_succ, Nat.testBit_succ, Nat.testBit_succ]
    have h1 : (0x01 : Nat) / 2 = 0 := by norm_num
    have h2 : (y + 1) / 2 = y / 2 := by omega
    rw [h1, h2]
    simp

/-- After `k + 1` missed beacons the sequence is the old one times 2 ^ (k + 1),
modulo 2 ^ 32. -/
theorem AddBeaconMissToSequence_iterate (k x : Nat) :
    AddBeaconMissToSequence^[k + 1] x = (x * 2 ^ (k + 1)) % 4294967296 := by
  induction k generalizing x with
  | zero =>
    rw [Function.iterate_succ_apply, Function.iterate_zero_apply, AddBeaconMissToSequence_eq]
    congr 1
    ring
  | succ k ih =>
    rw [Function.iterate_succ_apply, ih, AddBeaconMissToSequence_eq, Nat.mod_mul_mod,
      Nat.pow_succ 2 (k + 1)]
    congr 1
    ring

/-- After `W` missed beacons, `W` at least 1, none of the `W` lowest bits of the
sequence is set. -/
theorem setBits_after_misses (W x : Nat) (hW : 1 ≤ W) :
    setBits W (AddBeaconMissToSequence^[W] x) = 0 := by
  obtain ⟨k, rfl⟩ : ∃ k, W = k + 1 := ⟨W - 1, by omega⟩
  rw [AddBeaconMissToSequence_iterate]
  unfold setBits
  rw [List.countP_eq_zero]
  intro i hi
  have hlt : i < k + 1 := List.mem_range.mp hi
  have h32 : (4294967296 : Nat) = 2 ^ 32 := by norm_num
  rw [h32, Nat.testBit_mod_two_pow, ← Nat.shiftLeft_eq, Nat.testBit_shiftLeft]
  have : ¬ i ≥ k + 1 := by omega
  simp [this]

/-- BeaconMissed, written as the link before the call with the changed members. -/
theorem BeaconMissed_eq (l : PeerLink) :
    BeaconMissed l =
      { l with
        m_beaconsOnLink :=
          { l.m_beaconsOnLink with
            fwdBeacons := AddBeaconMissToSequence l.m_beaconsOnLink.fwdBeacons
            missedBeacons :=
              if l.m_beaconsOnLink.missedBeacons < 255 then l.m_beaconsOnLink.missedBeacons + 1
              else l.m_beaconsOnLink.missedBeacons }
        m_beaconMissedTimer := some l.m_beaconInterval
        m_effects := l.m_effects ++
          [Effect.UpdateFailAvg l.m_peerAddress
            (CalculateFailAvg
              { l with m_beaconsOnLink :=
                  { l.m_beaconsOnLink with
                    fwdBeacons := AddBeaconMissToSequence l.m_beaconsOnLink.fwdBeacons } })] } := by
  unfold BeaconMissed UpdateFailAvg
  by_cases h : l.m_beaconsOnLink.missedBeacons < 255
  · simp only [if_pos h]
    rfl
  · simp only [if_neg h]
    rfl

/-- What a run of BeaconMissed calls leaves of the window size and the two
histories. -/
theorem BeaconMissed_iterate (k : Nat) (l : PeerLink) :
    (BeaconMissed^[k] l).m_beaconWinSize = l.m_beaconWinSize ∧
    (BeaconMissed^[k] l).m_beaconsOnLink.fwdBeacons
      = AddBeaconMissToSequence^[k] l.m_beaconsOnLink.fwdBeacons ∧
    (BeaconMissed^[k] l).m_beaconsOnLink.revBeacons = l.m_beaconsOnLink.revBeacons := by
  induction k generalizing l with
  | zero => exact ⟨rfl, rfl, rfl⟩
  | succ k ih =>
    rw [Function.iterate_succ_apply, Function.iterate_succ_apply]
    obtain ⟨h1, h2, h3⟩ := ih (BeaconMissed l)
    rw [h1, h2, h3, BeaconMissed_eq]
    exact ⟨rfl, rfl, rfl⟩

/-- On a new link the two counts are 1 received and 0 missed, whatever the entry
holds. -/
theorem UpdateBeaconReceived.counts_new (tol : Nat) (u : IeBeaconTimingUnit) (l : PeerLink)
    (h : l.m_newLink = true) : UpdateBeaconReceived.counts tol u l = some (1, 0) := by
  unfold UpdateBeaconReceived.counts
  simp only [h, if_true]

/-- The body of the loop on a new link. -/
theorem UpdateBeaconReceived.entry_new (tol : Nat) (u : IeBeaconTimingUnit) (l : PeerLink)
    (h : l.m_newLink = true) :
    UpdateBeaconReceived.entry tol u l = some
      { l with
        m_beaconsOnLink :=
          { l.m_beaconsOnLink with
            revBeacons := AddBeaconReceptionToSequence l.m_beaconsOnLink.revBeacons
            lastRemBeaconUpdateTu := u.lastBeacon % 65536 }
        m_prevBeaconTiming := u.lastBeacon
        m_newLink := false } := by
  unfold UpdateBeaconReceived.entry
  rw [UpdateBeaconReceived.counts_new tol u l h]
  rfl

/-- The body of the loop, when it returns, leaves the forward history and the counter
of missed beacons as they are. -/
theorem UpdateBeaconReceived.entry_forward (tol : Nat) (u : IeBeaconTimingUnit)
    (l l' : PeerLink) (h : UpdateBeaconReceived.entry tol u l = some l') :
    l'.m_beaconsOnLink.fwdBeacons = l.m_beaconsOnLink.fwdBeacons ∧
    l'.m_beaconsOnLink.missedBeacons = l.m_beaconsOnLink.missedBeacons := by
  unfold UpdateBeaconReceived.entry at h
  cases hc : UpdateBeaconReceived.counts tol u l with
  | none =>
    rw [hc] at h
    exact absurd h (by simp)
  | some c =>
    rw [hc] at h
    injection h with h
    subst h
    exact ⟨rfl, rfl⟩

/-- The loop and the `if` after it, when they return, leave the forward history and
the counter of missed beacons as they are. -/
theorem UpdateBeaconReceived.reverse_forward (tol ind : Nat) (l l' : PeerLink)
    (h : UpdateBeaconReceived.reverse tol ind l = some l') :
    l'.m_beaconsOnLink.fwdBeacons = l.m_beaconsOnLink.fwdBeacons ∧
    l'.m_beaconsOnLink.missedBeacons = l.m_beaconsOnLink.missedBeacons := by
  unfold UpdateBeaconReceived.reverse at h
  cases hf : l.m_beaconTiming.find? (fun u => decide (u.aid ≠ 0 ∧ l.m_peerAssocId = u.aid)) with
  | some u =>
    simp only [hf] at h
    exact UpdateBeaconReceived.entry_forward tol u l l' h
  | none =>
    simp only [hf] at h
    by_cases hn : ¬ l.m_newLink = true
    · rw [if_pos hn] at h
      injection h with h
      subst h
      exact ⟨rfl, rfl⟩
    · rw [if_neg hn] at h
      injection h with h
      subst h
      exact ⟨rfl, rfl⟩

/-- A call of UpdateBeaconReceived that returns has appended one received beacon to
the forward history and has left the counter of missed beacons at 0. -/
theorem UpdateBeaconReceived_forward (ind : Nat) (l l' : PeerLink)
    (h : UpdateBeaconReceived ind l = some l') :
    l'.m_beaconsOnLink.fwdBeacons = AddBeaconReceptionToSequence l.m_beaconsOnLink.fwdBeacons ∧
    l'.m_beaconsOnLink.missedBeacons = 0 := by
  unfold UpdateBeaconReceived at h
  simp only [Option.bind_eq_some] at h
  obtain ⟨l₁, h₁, h₂⟩ := h
  injection h₂ with h₂
  subst h₂
  obtain ⟨hf, -⟩ := UpdateBeaconReceived.reverse_forward _ _ _ _ h₁
  exact ⟨hf, rfl⟩

/-- Integer division by zero does not return. -/
theorem intDiv_zero (a : Int) : intDiv a ((0 : Nat) : Int) = none := by
  unfold intDiv
  simp

/-- On a link that is not new, the counts for an entry whose beacon interval is a
multiple of 16384, so that four times it is 0 as a uint16_t, are not computed: the
division by zero is reached. -/
theorem UpdateBeaconReceived.counts_none (tol : Nat) (u : IeBeaconTimingUnit) (l : PeerLink)
    (hnew : l.m_newLink = false) (hz : (4 * u.beaconInterval) % 65536 = 0) :
    UpdateBeaconReceived.counts tol u l = none := by
  unfold UpdateBeaconReceived.counts
  simp only [hnew, hz, intDiv_zero, ite_self, Option.bind_none]
  rw [if_neg (by simp)]
  exact Option.bind_eq_none.mpr (fun _ _ => by simp)

/-- On a link that is not new, UpdateBeaconReceived does not return when the entry of
the timing record for this station has a beacon interval that is a multiple of
16384. -/
theorem UpdateBeaconReceived_none (ind : Nat) (l : PeerLink) (u : IeBeaconTimingUnit)
    (hnew : l.m_newLink = false)
    (hfind : l.m_beaconTiming.find? (fun u => decide (u.aid ≠ 0 ∧ l.m_peerAssocId = u.aid))
      = some u)
    (hz : (4 * u.beaconInterval) % 65536 = 0) :
    UpdateBeaconReceived ind l = none := by
  unfold UpdateBeaconReceived
  have hr : ∀ tol, UpdateBeaconReceived.reverse tol ind (UpdateBeaconReceived.start l) = none := by
    intro tol
    unfold UpdateBeaconReceived.reverse
    have hf : (UpdateBeaconReceived.start l).m_beaconTiming.find?
        (fun u => decide (u.aid ≠ 0 ∧ (UpdateBeaconReceived.start l).m_peerAssocId = u.aid))
        = some u := hfind
    simp only [hf]
    unfold UpdateBeaconReceived.entry
    rw [UpdateBeaconReceived.counts_none tol u (UpdateBeaconReceived.start l) hnew hz]
    rfl
  simp only [hr]
  rfl

/-! ### Invariants of the runs -/

/-- An event that is not a timeout keeps the timers matched with the state. -/
theorem StateMachine_timers (e : PeerEvent) (r : PmpReasonCode) (l : PeerLink)
    (he : e ≠ TOR1 ∧ e ≠ TOR2 ∧ e ≠ TOC ∧ e ≠ TOH) (h : timersMatchState l = true) :
    timersMatchState (StateMachine e r l) = true := by
  rcases l with ⟨_, _, _, _, _, _, _, _, _, _, _, _, _, _, s, _, _, _, _, _, _, rt, ht, ct,
    _, _, _, _, _, _, _, _⟩
  cases s <;> cases e <;> cases rt <;> cases ht <;> cases ct <;>
    first
    | rfl
    | exact absurd h Bool.false_ne_true
    | exact absurd rfl he.1
    | exact absurd rfl he.2.1
    | exact absurd rfl he.2.2.1
    | exact absurd rfl he.2.2.2

/-- A timeout delivered by the firing of its timer, which is then no longer
pending, keeps the timers matched with the state. -/
theorem StateMachine_timers_timeout (r : PmpReasonCode) (l : PeerLink)
    (h : timersMatchState l = true) :
    (l.m_retryTimer.isSome = true →
      timersMatchState (StateMachine TOR1 r { l with m_retryTimer := none }) = true ∧
      timersMatchState (StateMachine TOR2 r { l with m_retryTimer := none }) = true) ∧
    (l.m_confirmTimer.isSome = true →
      timersMatchState (StateMachine TOC r { l with m_confirmTimer := none }) = true) ∧
    (l.m_holdingTimer.isSome = true →
      timersMatchState (StateMachine TOH r { l with m_holdingTimer := none }) = true) := by
  rcases l with ⟨_, _, _, _, _, _, _, _, _, _, _, _, _, _, s, _, _, _, _, _, _, rt, ht, ct,
    _, _, _, _, _, _, _, _⟩
  cases s <;> cases rt <;> cases ht <;> cases ct <;>
    first
    | exact absurd h Bool.false_ne_true
    | exact ⟨fun _ => ⟨rfl, rfl⟩, fun hc => absurd hc Bool.false_ne_true,
        fun hc => absurd hc Bool.false_ne_true⟩
    | exact ⟨fun hc => absurd hc Bool.false_ne_true, fun _ => rfl,
        fun hc => absurd hc Bool.false_ne_true⟩
    | exact ⟨fun hc => absurd hc Bool.false_ne_true, fun hc => absurd hc Bool.false_ne_true,
        fun _ => rfl⟩

/-- Members that two links have in common when they differ at most in what the
beacon functions write. -/
theorem sameButBeacon_fields (l l' : PeerLink) (h : sameButBeacon l l') :
    l'.m_state = l.m_state ∧ l'.m_retryTimer = l.m_retryTimer ∧
    l'.m_confirmTimer = l.m_confirmTimer ∧ l'.m_holdingTimer = l.m_holdingTimer ∧
    l'.m_localLinkId = l.m_localLinkId ∧ l'.m_peerLinkId = l.m_peerLinkId ∧
    l'.m_retryCounter = l.m_retryCounter ∧
    l'.m_peerMeshPointAddress = l.m_peerMeshPointAddress := by
  cases l
  cases l'
  cases h
  exact ⟨rfl, rfl, rfl, rfl, rfl, rfl, rfl, rfl⟩

/-- UpdateBeaconReceived, when it returns, has written beacon members only. -/
theorem UpdateBeaconReceived_frame (ind : Nat) (l l' : PeerLink)
    (h : UpdateBeaconReceived ind l = some l') : sameButBeacon l l' := by
  unfold UpdateBeaconReceived at h
  simp only [Option.bind_eq_some] at h
  obtain ⟨l₁, h₁, h₂⟩ := h
  injection h₂ with h₂
  subst h₂
  unfold UpdateBeaconReceived.reverse at h₁
  cases hf : (UpdateBeaconReceived.start l).m_beaconTiming.find?
      (fun u => decide (u.aid ≠ 0 ∧ (UpdateBeaconReceived.start l).m_peerAssocId = u.aid)) with
  | some u =>
    simp only [hf] at h₁
    unfold UpdateBeaconReceived.entry at h₁
    cases hc : UpdateBeaconReceived.counts
        (((UpdateBeaconReceived.start l).m_beaconIntervalTol * 1000) >>> 8 &&& 0xffff) u
        (UpdateBeaconReceived.start l) with
    | none =>
      have hc' : UpdateBeaconReceived.counts ((l.m_beaconIntervalTol * 1000) >>> 8 &&& 0xffff) u
          (UpdateBeaconReceived.start l) = none := hc
      rw [hc'] at h₁
      exact absurd h₁ (by simp)
    | some c =>
      have hc' : UpdateBeaconReceived.counts ((l.m_beaconIntervalTol * 1000) >>> 8 &&& 0xffff) u
          (UpdateBeaconReceived.start l) = some c := hc
      rw [hc'] at h₁
      injection h₁ with h₁
      subst h₁
      cases l
      rfl
  | none =>
    simp only [hf] at h₁
    by_cases hn : ¬ (UpdateBeaconReceived.start l).m_newLink = true
    · rw [if_pos hn] at h₁
      injection h₁ with h₁
      subst h₁
      cases l
      rfl
    · rw [if_neg hn] at h₁
      injection h₁ with h₁
      subst h₁
      cases l
      rfl

/-- BeaconMissed writes beacon members only. -/
theorem BeaconMissed_frame (l : PeerLink) : sameButBeacon l (BeaconMissed l) := by
  rw [BeaconMissed_eq]
  cases l
  rfl

/-- SetBeaconInformation writes beacon members only. -/
theorem SetBeaconInformation_frame (lastBeacon beaconInterval : Time) (l : PeerLink) :
    sameButBeacon l (SetBeaconInformation lastBeacon beaconInterval l) := by
  cases l
  rfl

/-- Two links that differ at most in beacon members match their timers alike. -/
theorem sameButBeacon_timers (l l' : PeerLink) (h : sameButBeacon l l') :
    timersMatchState l' = timersMatchState l := by
  obtain ⟨h1, h2, h3, h4, -⟩ := sameButBeacon_fields l l' h
  unfold timersMatchState
  rw [h1, h2, h3, h4]

/-- TransmissionFailure, written with its two outcomes. -/
theorem TransmissionFailure_eq (l : PeerLink) :
    TransmissionFailure l =
      if (l.m_packetFail + 1) % 65536 = l.m_maxPacketFail then
        { StateMachine CNCL REASON11S_RESERVED
            { l with m_packetFail := (l.m_packetFail + 1) % 65536 } with m_packetFail := 0 }
      else
        { l with m_packetFail := (l.m_packetFail + 1) % 65536 } :=
  rfl

/-- Every call keeps the timers matched with the state. -/
theorem runCall_timers (c : Call) (l l' : PeerLink) (h : runCall c l = some l')
    (hi : timersMatchState l = true) : timersMatchState l' = true := by
  cases c <;> simp only [runCall, Option.some.injEq] at h
  case SetPeerAddress a => subst h; exact hi
  case SetPeerMeshPointAddress a => subst h; exact hi
  case SetInterface a => subst h; exact hi
  case SetLocalLinkId a => subst h; exact hi
  case SetLocalAid a => subst h; exact hi
  case SetRetryTimeout a => subst h; exact hi
  case SetHoldingTimeout a => subst h; exact hi
  case SetConfirmTimeout a => subst h; exact hi
  case SetMaxRetries n =>
    split at h
    · injection h with h; subst h; exact hi
    · exact absurd h (by simp)
  case SetMaxBeaconLoss n =>
    split at h
    · injection h with h; subst h; exact hi
    · exact absurd h (by simp)
  case SetMaxPacketFailure n =>
    split at h
    · injection h with h; subst h; exact hi
    · exact absurd h (by simp)
  case SetBeaconWinSize n =>
    split at h
    · injection h with h; subst h; exact hi
    · exact absurd h (by simp)
  case SetBeaconInformation a b =>
    subst h
    rw [sameButBeacon_timers _ _ (SetBeaconInformation_frame a b l)]
    exact hi
  case SetBeaconTimingElement a => subst h; exact hi
  case UpdateBeaconReceived ind =>
    rw [sameButBeacon_timers _ _ (UpdateBeaconReceived_frame ind l l' h)]
    exact hi
  case MLMECancelPeerLink r =>
    subst h
    exact StateMachine_timers CNCL r l (by decide) hi
  case MLMEActivePeerLinkOpen =>
    subst h
    exact StateMachine_timers ACTOPN _ l (by decide) hi
  case MLMEPeeringRequestReject =>
    subst h
    exact StateMachine_timers REQ_RJCT _ l (by decide) hi
  case TransmissionSuccess => subst h; exact hi
  case TransmissionFailure =>
    subst h
    rw [TransmissionFailure_eq]
    split
    · exact StateMachine_timers CNCL _ _ (by decide) hi
    · exact hi
  case Close a b r =>
    subst h
    rw [Close_eq]
    split
    · exact hi
    · split
      · exact hi
      · exact StateMachine_timers CLS_ACPT _ _ (by decide) hi
  case OpenAccept a conf mp =>
    subst h
    rw [OpenAccept_eq]
    exact StateMachine_timers OPN_ACPT _ _ (by decide) hi
  case OpenReject a conf mp r =>
    subst h
    rw [OpenReject_eq]
    exact StateMachine_timers OPN_RJCT _ _ (by decide) hi
  case ConfirmAccept a b aid conf mp =>
    subst h
    rw [ConfirmAccept_eq]
    split
    · exact hi
    · split
      · exact hi
      · exact StateMachine_timers CNF_ACPT _ _ (by decide) hi
  case ConfirmReject a b conf mp r =>
    subst h
    rw [ConfirmReject_eq]
    split
    · exact hi
    · split
      · exact hi
      · exact StateMachine_timers CNF_RJCT _ _ (by decide) hi
  case RetryTimerExpires =>
    unfold RetryTimerExpires at h
    cases hd : l.m_retryTimer with
    | none => rw [hd] at h; exact absurd h (by simp)
    | some d =>
      rw [hd] at h
      injection h with h
      subst h
      have hp : l.m_retryTimer.isSome = true := by rw [hd]; rfl
      have := (StateMachine_timers_timeout REASON11S_RESERVED l hi).1 hp
      unfold RetryTimeout
      split
      · exact this.1
      · exact this.2
  case ConfirmTimerExpires =>
    unfold ConfirmTimerExpires at h
    cases hd : l.m_confirmTimer with
    | none => rw [hd] at h; exact absurd h (by simp)
    | some d =>
      rw [hd] at h
      injection h with h
      subst h
      have hp : l.m_confirmTimer.isSome = true := by rw [hd]; rfl
      exact (StateMachine_timers_timeout REASON11S_RESERVED l hi).2.1 hp
  case HoldingTimerExpires =>
    unfold HoldingTimerExpires at h
    cases hd : l.m_holdingTimer with
    | none => rw [hd] at h; exact absurd h (by simp)
    | some d =>
      rw [hd] at h
      injection h with h
      subst h
      have hp : l.m_holdingTimer.isSome = true := by rw [hd]; rfl
      exact (StateMachine_timers_timeout REASON11S_RESERVED l hi).2.2 hp
  case BeaconLossTimerExpires =>
    unfold BeaconLossTimerExpires at h
    cases hd : l.m_beaconLossTimer with
    | none => rw [hd] at h; exact absurd h (by simp)
    | some d =>
      rw [hd] at h
      injection h with h
      subst h
      exact StateMachine_timers CNCL _ _ (by decide) hi
  case BeaconMissedTimerExpires =>
    unfold BeaconMissedTimerExpires at h
    cases hd : l.m_beaconMissedTimer with
    | none => rw [hd] at h; exact absurd h (by simp)
    | some d =>
      rw [hd] at h
      injection h with h
      subst h
      rw [sameButBeacon_timers _ _ (BeaconMissed_frame _)]
      exact hi

/-- A run of calls keeps the timers matched with the state. -/
theorem runCalls_timers (calls : List Call) (l l' : PeerLink) (h : runCalls calls l = some l')
    (hi : timersMatchState l = true) : timersMatchState l' = true := by
  induction calls generalizing l with
  | nil =>
    injection h with h
    subst h
    exact hi
  | cons c cs ih =>
    cases hc : runCall c l with
    | none =>
      have : runCalls (c :: cs) l = none := by
        show (runCall c l).bind (runCalls cs) = none
        rw [hc]
        rfl
      rw [this] at h
      exact absurd h (by simp)
    | some l₁ =>
      have : runCalls (c :: cs) l = runCalls cs l₁ := by
        show (runCall c l).bind (runCalls cs) = _
        rw [hc]
        rfl
      rw [this] at h
      exact ih l₁ h (runCall_timers c l l₁ hc hi)

/-- Only OpenAccept and ConfirmAccept lead into ESTAB. -/
theorem nextState_estab (s : PeerState) (e : PeerEvent) (h1 : e ≠ OPN_ACPT) (h2 : e ≠ CNF_ACPT)
    (h : nextState s e = ESTAB) : s = ESTAB := by
  cases s <;> cases e <;> first | rfl | exact absurd rfl h1 | exact absurd rfl h2 | exact absurd h (by decide)

/-- The state machine keeps the identifiers bound, when it runs on a link whose peer
link identifier is not 0 or on an event that does not lead into ESTAB. -/
theorem StateMachine_idsBound (e : PeerEvent) (r : PmpReasonCode) (l : PeerLink)
    (hl : l.m_localLinkId ≠ 0)
    (hp : l.m_peerLinkId ≠ 0 ∨
      ((l.m_state = ESTAB → l.m_peerLinkId ≠ 0) ∧ e ≠ OPN_ACPT ∧ e ≠ CNF_ACPT)) :
    idsBound (StateMachine e r l) := by
  obtain ⟨f1, f2, -⟩ := sameButMachine_fields l _ (StateMachine_frame e r l)
  unfold idsBound
  rw [f1, f2, StateMachine_m_state]
  refine ⟨hl, fun hs => ?_⟩
  rcases hp with hp | ⟨hp, h1, h2⟩
  · exact hp
  · exact hp (nextState_estab _ _ h1 h2 hs)

/-- Every call that presents no identifier 0 keeps the identifiers bound. -/
theorem runCall_idsBound (c : Call) (l l' : PeerLink) (h : runCall c l = some l')
    (hc : presentsBoundIds c) (hi : idsBound l) : idsBound l' := by
  have hb : ∀ l₁ : PeerLink, sameButBeacon l l₁ → idsBound l₁ := by
    intro l₁ hs
    obtain ⟨f1, -, -, -, f5, f6, -⟩ := sameButBeacon_fields l l₁ hs
    unfold idsBound
    rw [f1, f5, f6]
    exact hi
  cases c <;> simp only [runCall, Option.some.injEq] at h
  case SetPeerAddress a => subst h; exact hi
  case SetPeerMeshPointAddress a => subst h; exact hi
  case SetInterface a => subst h; exact hi
  case SetLocalLinkId a => subst h; exact ⟨hc, hi.2⟩
  case SetLocalAid a => subst h; exact hi
  case SetRetryTimeout a => subst h; exact hi
  case SetHoldingTimeout a => subst h; exact hi
  case SetConfirmTimeout a => subst h; exact hi
  case SetMaxRetries n =>
    split at h
    · injection h with h; subst h; exact hi
    · exact absurd h (by simp)
  case SetMaxBeaconLoss n =>
    split at h
    · injection h with h; subst h; exact hi
    · exact absurd h (by simp)
  case SetMaxPacketFailure n =>
    split at h
    · injection h with h; subst h; exact hi
    · exact absurd h (by simp)
  case SetBeaconWinSize n =>
    split at h
    · injection h with h; subst h; exact hi
    · exact absurd h (by simp)
  case SetBeaconInformation a b =>
    subst h
    exact hb _ (SetBeaconInformation_frame a b l)
  case SetBeaconTimingElement a => subst h; exact hi
  case UpdateBeaconReceived ind => exact hb _ (UpdateBeaconReceived_frame ind l l' h)
  case MLMECancelPeerLink r =>
    subst h
    exact StateMachine_idsBound CNCL r l hi.1 (Or.inr ⟨hi.2, by decide, by decide⟩)
  case MLMEActivePeerLinkOpen =>
    subst h
    exact StateMachine_idsBound ACTOPN _ l hi.1 (Or.inr ⟨hi.2, by decide, by decide⟩)
  case MLMEPeeringRequestReject =>
    subst h
    exact StateMachine_idsBound REQ_RJCT _ l hi.1 (Or.inr ⟨hi.2, by decide, by decide⟩)
  case TransmissionSuccess => subst h; exact hi
  case TransmissionFailure =>
    subst h
    rw [TransmissionFailure_eq]
    split
    · exact StateMachine_idsBound CNCL _ _ hi.1 (Or.inr ⟨hi.2, by decide, by decide⟩)
    · exact hi
  case Close a b r =>
    subst h
    rw [Close_eq]
    split
    · exact hi
    · split
      · exact hi
      · exact StateMachine_idsBound CLS_ACPT _ _ hi.1 (Or.inl hc)
  case OpenAccept a conf mp =>
    subst h
    rw [OpenAccept_eq]
    exact StateMachine_idsBound OPN_ACPT _ _ hi.1 (Or.inl hc)
  case OpenReject a conf mp r =>
    subst h
    rw [OpenReject_eq]
    refine StateMachine_idsBound OPN_RJCT _ _ hi.1 (Or.inl ?_)
    show (if l.m_peerLinkId = 0 then a else l.m_peerLinkId) ≠ 0
    split
    · exact hc
    · assumption
  case ConfirmAccept a b aid conf mp =>
    subst h
    rw [ConfirmAccept_eq]
    split
    · exact hi
    · split
      · exact hi
      · exact StateMachine_idsBound CNF_ACPT _ _ hi.1 (Or.inl hc)
  case ConfirmReject a b conf mp r =>
    subst h
    rw [ConfirmReject_eq]
    split
    · exact hi
    · split
      · exact hi
      · exact StateMachine_idsBound CNF_RJCT _ _ hi.1 (Or.inl hc)
  case RetryTimerExpires =>
    unfold RetryTimerExpires at h
    cases hd : l.m_retryTimer with
    | none => rw [hd] at h; exact absurd h (by simp)
    | some d =>
      rw [hd] at h
      injection h with h
      subst h
      unfold RetryTimeout
      split
      · exact StateMachine_idsBound TOR1 _ _ hi.1 (Or.inr ⟨hi.2, by decide, by decide⟩)
      · exact StateMachine_idsBound TOR2 _ _ hi.1 (Or.inr ⟨hi.2, by decide, by decide⟩)
  case ConfirmTimerExpires =>
    unfold ConfirmTimerExpires at h
    cases hd : l.m_confirmTimer with
    | none => rw [hd] at h; exact absurd h (by simp)
    | some d =>
      rw [hd] at h
      injection h with h
      subst h
      exact StateMachine_idsBound TOC _ _ hi.1 (Or.inr ⟨hi.2, by decide, by decide⟩)
  case HoldingTimerExpires =>
    unfold HoldingTimerExpires at h
    cases hd : l.m_holdingTimer with
    | none => rw [hd] at h; exact absurd h (by simp)
    | some d =>
      rw [hd] at h
      injection h with h
      subst h
      exact StateMachine_idsBound TOH _ _ hi.1 (Or.inr ⟨hi.2, by decide, by decide⟩)
  case BeaconLossTimerExpires =>
    unfold BeaconLossTimerExpires at h
    cases hd : l.m_beaconLossTimer with
    | none => rw [hd] at h; exact absurd h (by simp)
    | some d =>
      rw [hd] at h
      injection h with h
      subst h
      exact StateMachine_idsBound CNCL _ _ hi.1 (Or.inr ⟨hi.2, by decide, by decide⟩)
  case BeaconMissedTimerExpires =>
    unfold BeaconMissedTimerExpires at h
    cases hd : l.m_beaconMissedTimer with
    | none => rw [hd] at h; exact absurd h (by simp)
    | some d =>
      rw [hd] at h
      injection h with h
      subst h
      have := BeaconMissed_frame { l with m_beaconMissedTimer := none }
      obtain ⟨f1, -, -, -, f5, f6, -⟩ := sameButBeacon_fields _ _ this
      unfold idsBound
      rw [f1, f5, f6]
      exact hi

/-- A run of calls that present no identifier 0 keeps the identifiers bound. -/
theorem runCalls_idsBound (calls : List Call) (l l' : PeerLink)
    (h : runCalls calls l = some l') (hc : ∀ c ∈ calls, presentsBoundIds c)
    (hi : idsBound l) : idsBound l' := by
  induction calls generalizing l with
  | nil =>
    injection h with h
    subst h
    exact hi
  | cons c cs ih =>
    cases hr : runCall c l with
    | none =>
      have : runCalls (c :: cs) l = none := by
        show (runCall c l).bind (runCalls cs) = none
        rw [hr]
        rfl
      rw [this] at h
      exact absurd h (by simp)
    | some l₁ =>
      have : runCalls (c :: cs) l = runCalls cs l₁ := by
        show (runCall c l).bind (runCalls cs) = _
        rw [hr]
        rfl
      rw [this] at h
      exact ih l₁ h (fun c' hc' => hc c' (List.mem_cons_of_mem _ hc'))
        (runCall_idsBound c l l₁ hr (hc c (List.mem_cons_self _ _)) hi)

/-! ### The transition table -/

/-- C1. In state IDLE, for every link and every reason code: Cancel and CloseAccept
leave the link as it is but for one status notification (IDLE to IDLE): no frame,
no timer.  RequestReject leaves the link as it is but for exactly one Close frame
(with the reason passed).  ActiveOpen moves to OPN_SNT, notifies, sends exactly one
Open and arms the retry timer.  OpenAccept moves to OPN_RCVD, notifies, sends one
Confirm, then one Open, and arms the retry timer.  (Arming the retry timer asserts
that the retry timeout is not zero.) -/
theorem idle_transitions (l : PeerLink) (r : PmpReasonCode) (h : l.m_state = IDLE) :
    StateMachine CNCL r l =
      { l with m_effects := l.m_effects ++ [statusSignal l IDLE IDLE] } ∧
    StateMachine CLS_ACPT r l =
      { l with m_effects := l.m_effects ++ [statusSignal l IDLE IDLE] } ∧
    StateMachine REQ_RJCT r l =
      { l with m_effects := l.m_effects ++ [closeFrame l r] } ∧
    StateMachine ACTOPN r l =
      NS_ASSERT (retryTimeoutOk l) NsAssert.retryTimeoutNonZero
        { l with
          m_state := OPN_SNT
          m_effects := l.m_effects ++ [statusSignal l IDLE OPN_SNT] ++ [openFrame l]
          m_retryTimer := some l.m_dot11MeshRetryTimeout } ∧
    StateMachine OPN_ACPT r l =
      NS_ASSERT (retryTimeoutOk l) NsAssert.retryTimeoutNonZero
        { l with
          m_state := OPN_RCVD
          m_effects := l.m_effects ++ [statusSignal l IDLE OPN_RCVD] ++ [confirmFrame l]
            ++ [openFrame l]
          m_retryTimer := some l.m_dot11MeshRetryTimeout } := by
  cases l
  simp only at h
  subst h
  exact ⟨rfl, rfl, rfl, rfl, rfl⟩

/-- Witness of C1: a freshly constructed link is IDLE; ActiveOpen takes it to OPN_SNT
with the single frame Open(0) sent, the retry timer pending for 40 * 1024
microseconds and no assertion violated. -/
theorem idle_transitions_witness :
    (PeerLink.PeerLink 0 0).m_state = IDLE ∧
    (StateMachine ACTOPN REASON11S_RESERVED (PeerLink.PeerLink 0 0)).m_state = OPN_SNT ∧
    sentFrames (StateMachine ACTOPN REASON11S_RESERVED (PeerLink.PeerLink 0 0)) = [PeerOpen 0] ∧
    (StateMachine ACTOPN REASON11S_RESERVED (PeerLink.PeerLink 0 0)).m_retryTimer
      = some (MicroSeconds (40 * 1024)) ∧
    (StateMachine ACTOPN REASON11S_RESERVED (PeerLink.PeerLink 0 0)).m_failedAsserts = [] := by
  rw [(idle_transitions (PeerLink.PeerLink 0 0) REASON11S_RESERVED rfl).2.2.2.1]
  exact ⟨rfl, rfl, rfl, rfl, rfl⟩

/-- C2. In state OPN_SNT: RetryTimeout1 resends Open (exactly one Open frame, no
notification), adds one to the retry counter, re-arms the retry timer and leaves
the state OPN_SNT; the counter is a uint16_t, and whenever the expiry of the retry
timer is dispatched as RetryTimeout1 (counter below the maximum number of retries)
the increment does not wrap.  ConfirmAccept moves to CNF_RCVD, clears the retry
timer and arms the confirm timer, sending no frame.  OpenAccept moves to OPN_RCVD
and sends exactly one Confirm, leaving the timers as they are. -/
theorem opn_snt_progress (l : PeerLink) (r : PmpReasonCode) (h : l.m_state = OPN_SNT) :
    StateMachine TOR1 r l =
      NS_ASSERT (retryTimeoutOk l) NsAssert.retryTimeoutNonZero
        { l with
          m_effects := l.m_effects ++ [openFrame l]
          m_retryCounter := (l.m_retryCounter + 1) % 65536
          m_retryTimer := some l.m_dot11MeshRetryTimeout } ∧
    (l.m_retryCounter < l.m_dot11MeshMaxRetries → l.m_dot11MeshMaxRetries < 65536 →
      RetryTimeout l = StateMachine TOR1 REASON11S_RESERVED l ∧
      StateMachine TOR1 r l =
        NS_ASSERT (retryTimeoutOk l) NsAssert.retryTimeoutNonZero
          { l with
            m_effects := l.m_effects ++ [openFrame l]
            m_retryCounter := l.m_retryCounter + 1
            m_retryTimer := some l.m_dot11MeshRetryTimeout }) ∧
    StateMachine CNF_ACPT r l =
      NS_ASSERT (confirmTimeoutOk l) NsAssert.confirmTimeoutNonZero
        { l with
          m_state := CNF_RCVD
          m_effects := l.m_effects ++ [statusSignal l OPN_SNT CNF_RCVD]
          m_retryTimer := none
          m_confirmTimer := some l.m_dot11MeshConfirmTimeout } ∧
    StateMachine OPN_ACPT r l =
      { l with
        m_state := OPN_RCVD
        m_effects := l.m_effects ++ [statusSignal l OPN_SNT OPN_RCVD] ++ [confirmFrame l] } := by
  have tor1 := StateMachine_TOR1 r l (Or.inl h)
  refine ⟨tor1, ?_, ?_, ?_⟩
  · intro h1 h2
    have hm : (l.m_retryCounter + 1) % 65536 = l.m_retryCounter + 1 :=
      Nat.mod_eq_of_lt (by omega)
    refine ⟨?_, ?_⟩
    · unfold RetryTimeout
      rw [if_pos h1]
    · rw [tor1, hm]
  · cases l
    simp only at h
    subst h
    rfl
  · cases l
    simp only at h
    subst h
    rfl

/-- Witness of C2, the scenario of the spec: a fresh link that got ActiveOpen is in
OPN_SNT with retry counter 0 below the 4 retries allowed; a retry timeout there
makes the counter 1 and sends a second Open; ConfirmAccept instead gives CNF_RCVD
with the retry timer cleared and the confirm timer pending. -/
theorem opn_snt_progress_witness :
    (MLMEActivePeerLinkOpen (PeerLink.PeerLink 0 0)).m_state = OPN_SNT ∧
    (MLMEActivePeerLinkOpen (PeerLink.PeerLink 0 0)).m_retryCounter <
      (MLMEActivePeerLinkOpen (PeerLink.PeerLink 0 0)).m_dot11MeshMaxRetries ∧
    (MLMEActivePeerLinkOpen (PeerLink.PeerLink 0 0)).m_dot11MeshMaxRetries < 65536 ∧
    (RetryTimeout (MLMEActivePeerLinkOpen (PeerLink.PeerLink 0 0))).m_retryCounter = 1 ∧
    sentFrames (RetryTimeout (MLMEActivePeerLinkOpen (PeerLink.PeerLink 0 0)))
      = [PeerOpen 0, PeerOpen 0] ∧
    (StateMachine CNF_ACPT REASON11S_RESERVED
      (MLMEActivePeerLinkOpen (PeerLink.PeerLink 0 0))).m_state = CNF_RCVD ∧
    (StateMachine CNF_ACPT REASON11S_RESERVED
      (MLMEActivePeerLinkOpen (PeerLink.PeerLink 0 0))).m_retryTimer = none ∧
    (StateMachine CNF_ACPT REASON11S_RESERVED
      (MLMEActivePeerLinkOpen (PeerLink.PeerLink 0 0))).m_confirmTimer
      = some (MicroSeconds (40 * 1024)) := by
  have hw := opn_snt_progress (MLMEActivePeerLinkOpen (PeerLink.PeerLink 0 0))
    REASON11S_RESERVED rfl
  have h1 : (MLMEActivePeerLinkOpen (PeerLink.PeerLink 0 0)).m_retryCounter <
      (MLMEActivePeerLinkOpen (PeerLink.PeerLink 0 0)).m_dot11MeshMaxRetries := by decide
  have h2 : (MLMEActivePeerLinkOpen (PeerLink.PeerLink 0 0)).m_dot11MeshMaxRetries < 65536 := by
    decide
  refine ⟨rfl, h1, h2, ?_, ?_, ?_, ?_, ?_⟩
  · rw [(hw.2.1 h1 h2).1, (hw.2.1 h1 h2).2]
    rfl
  · rw [(hw.2.1 h1 h2).1, (hw.2.1 h1 h2).2]
    rfl
  · rw [hw.2.2.1]
    rfl
  · rw [hw.2.2.1]
    rfl
  · rw [hw.2.2.1]
    rfl

/-- C3. In state OPN_SNT each of CloseAccept, OpenReject, ConfirmReject,
RetryTimeout2 and Cancel moves the link to HOLDING, clears the retry timer, arms
the holding timer and sends exactly one Close frame.  The reason in the frame is
the reason code passed with the event for OpenReject and ConfirmReject, "mesh
close received" for CloseAccept, "max retries" for RetryTimeout2 and "peering
cancelled" for Cancel, whatever reason code `r` is passed with these three. -/
theorem opn_snt_to_holding (l : PeerLink) (r : PmpReasonCode) (h : l.m_state = OPN_SNT) :
    StateMachine CLS_ACPT r l =
      NS_ASSERT (holdingTimeoutOk l) NsAssert.holdingTimeoutNonZero
        { l with
          m_state := HOLDING
          m_effects := l.m_effects ++ [statusSignal l OPN_SNT HOLDING]
            ++ [closeFrame l REASON11S_MESH_CLOSE_RCVD]
          m_retryTimer := none
          m_holdingTimer := some l.m_dot11MeshHoldingTimeout } ∧
    StateMachine OPN_RJCT r l =
      NS_ASSERT (holdingTimeoutOk l) NsAssert.holdingTimeoutNonZero
        { l with
          m_state := HOLDING
          m_effects := l.m_effects ++ [statusSignal l OPN_SNT HOLDING] ++ [closeFrame l r]
          m_retryTimer := none
          m_holdingTimer := some l.m_dot11MeshHoldingTimeout } ∧
    StateMachine CNF_RJCT r l =
      NS_ASSERT (holdingTimeoutOk l) NsAssert.holdingTimeoutNonZero
        { l with
          m_state := HOLDING
          m_effects := l.m_effects ++ [statusSignal l OPN_SNT HOLDING] ++ [closeFrame l r]
          m_retryTimer := none
          m_holdingTimer := some l.m_dot11MeshHoldingTimeout } ∧
    StateMachine TOR2 r l =
      NS_ASSERT (holdingTimeoutOk l) NsAssert.holdingTimeoutNonZero
        { l with
          m_state := HOLDING
          m_effects := l.m_effects ++ [statusSignal l OPN_SNT HOLDING]
            ++ [closeFrame l REASON11S_MESH_MAX_RETRIES]
          m_retryTimer := none
          m_holdingTimer := some l.m_dot11MeshHoldingTimeout } ∧
    StateMachine CNCL r l =
      NS_ASSERT (holdingTimeoutOk l) NsAssert.holdingTimeoutNonZero
        { l with
          m_state := HOLDING
          m_effects := l.m_effects ++ [statusSignal l OPN_SNT HOLDING]
            ++ [closeFrame l REASON11S_PEERING_CANCELLED]
          m_retryTimer := none
          m_holdingTimer := some l.m_dot11MeshHoldingTimeout } := by
  cases l
  simp only at h
  subst h
  exact ⟨rfl, rfl, rfl, rfl, rfl⟩

/-- Witness of C3: on a fresh link that got ActiveOpen, a CloseAccept passed with the
reason `other 7` gives HOLDING with the frames Open(0), Close(0, 0, mesh close
received), the retry timer cleared and the holding timer pending. -/
theorem opn_snt_to_holding_witness :
    (MLMEActivePeerLinkOpen (PeerLink.PeerLink 0 0)).m_state = OPN_SNT ∧
    (StateMachine CLS_ACPT (other 7) (MLMEActivePeerLinkOpen (PeerLink.PeerLink 0 0))).m_state
      = HOLDING ∧
    sentFrames (StateMachine CLS_ACPT (other 7) (MLMEActivePeerLinkOpen (PeerLink.PeerLink 0 0)))
      = [PeerOpen 0, PeerClose 0 0 REASON11S_MESH_CLOSE_RCVD] ∧
    (StateMachine CLS_ACPT (other 7)
      (MLMEActivePeerLinkOpen (PeerLink.PeerLink 0 0))).m_retryTimer = none ∧
    (StateMachine CLS_ACPT (other 7)
      (MLMEActivePeerLinkOpen (PeerLink.PeerLink 0 0))).m_holdingTimer
      = some (MicroSeconds (40 * 1024)) := by
  rw [(opn_snt_to_holding (MLMEActivePeerLinkOpen (PeerLink.PeerLink 0 0)) (other 7) rfl).1]
  exact ⟨rfl, rfl, rfl, rfl, rfl⟩

/-- C4. In state CNF_RCVD: ConfirmAccept changes nothing at all.  OpenAccept moves
to ESTAB, clears the confirm timer and sends exactly one Confirm (asserting that
the peer mesh-point address is known).  Each of CloseAccept, ConfirmReject,
OpenReject and Cancel moves to HOLDING, clears the confirm timer, sends exactly one
Close and arms the holding timer.  ConfirmTimeout moves to HOLDING, sends exactly
one Close ("confirm timeout") and arms the holding timer; its case does not touch
the confirm timer, which is not pending because the event is its expiry: the
scheduler firing the confirm timer leaves the link in HOLDING with the confirm
timer not pending. -/
theorem cnf_rcvd_transitions (l : PeerLink) (r : PmpReasonCode) (h : l.m_state = CNF_RCVD) :
    StateMachine CNF_ACPT r l = l ∧
    StateMachine OPN_ACPT r l =
      NS_ASSERT (peerMeshPointKnown l) NsAssert.peerMeshPointAddressKnown
        { l with
          m_state := ESTAB
          m_effects := l.m_effects ++ [statusSignal l CNF_RCVD ESTAB] ++ [confirmFrame l]
          m_confirmTimer := none } ∧
    StateMachine CLS_ACPT r l =
      NS_ASSERT (holdingTimeoutOk l) NsAssert.holdingTimeoutNonZero
        { l with
          m_state := HOLDING
          m_effects := l.m_effects ++ [statusSignal l CNF_RCVD HOLDING]
            ++ [closeFrame l REASON11S_MESH_CLOSE_RCVD]
          m_confirmTimer := none
          m_holdingTimer := some l.m_dot11MeshHoldingTimeout } ∧
    StateMachine CNF_RJCT r l =
      NS_ASSERT (holdingTimeoutOk l) NsAssert.holdingTimeoutNonZero
        { l with
          m_state := HOLDING
          m_effects := l.m_effects ++ [statusSignal l CNF_RCVD HOLDING] ++ [closeFrame l r]
          m_confirmTimer := none
          m_holdingTimer := some l.m_dot11MeshHoldingTimeout } ∧
    StateMachine OPN_RJCT r l =
      NS_ASSERT (holdingTimeoutOk l) NsAssert.holdingTimeoutNonZero
        { l with
          m_state := HOLDING
          m_effects := l.m_effects ++ [statusSignal l CNF_RCVD HOLDING] ++ [closeFrame l r]
          m_confirmTimer := none
          m_holdingTimer := some l.m_dot11MeshHoldingTimeout } ∧
    StateMachine CNCL r l =
      NS_ASSERT (holdingTimeoutOk l) NsAssert.holdingTimeoutNonZero
        { l with
          m_state := HOLDING
          m_effects := l.m_effects ++ [statusSignal l CNF_RCVD HOLDING]
            ++ [closeFrame l REASON11S_PEERING_CANCELLED]
          m_confirmTimer := none
          m_holdingTimer := some l.m_dot11MeshHoldingTimeout } ∧
    StateMachine TOC r l =
      NS_ASSERT (holdingTimeoutOk l) NsAssert.holdingTimeoutNonZero
        { l with
          m_state := HOLDING
          m_effects := l.m_effects ++ [statusSignal l CNF_RCVD HOLDING]
            ++ [closeFrame l REASON11S_MESH_CONFIRM_TIMEOUT]
          m_holdingTimer := some l.m_dot11MeshHoldingTimeout } ∧
    (∀ d : Time, l.m_confirmTimer = some d →
      ConfirmTimerExpires l = some
        (NS_ASSERT (holdingTimeoutOk l) NsAssert.holdingTimeoutNonZero
          { l with
            m_state := HOLDING
            m_effects := l.m_effects ++ [statusSignal l CNF_RCVD HOLDING]
              ++ [closeFrame l REASON11S_MESH_CONFIRM_TIMEOUT]
            m_confirmTimer := none
            m_holdingTimer := some l.m_dot11MeshHoldingTimeout })) := by
  cases l
  simp only at h
  subst h
  refine ⟨rfl, rfl, rfl, rfl, rfl, rfl, rfl, ?_⟩
  intro d hd
  simp only at hd
  subst hd
  rfl

/-- Witness of C4, the end of the scenario of the spec: the example link after
ActiveOpen and ConfirmAccept is in CNF_RCVD; OpenAccept there gives ESTAB with the
confirm timer cleared, the frames Open(7), Confirm(7, 0) sent so far and no
assertion violated; the confirm timer firing instead gives HOLDING with the
confirm timer not pending and the holding timer pending. -/
theorem cnf_rcvd_transitions_witness :
    exampleCnfRcvd.m_state = CNF_RCVD ∧
    (StateMachine OPN_ACPT REASON11S_RESERVED exampleCnfRcvd).m_state = ESTAB ∧
    (StateMachine OPN_ACPT REASON11S_RESERVED exampleCnfRcvd).m_confirmTimer = none ∧
    sentFrames (StateMachine OPN_ACPT REASON11S_RESERVED exampleCnfRcvd)
      = [PeerOpen 7, PeerConfirm 7 0] ∧
    (StateMachine OPN_ACPT REASON11S_RESERVED exampleCnfRcvd).m_failedAsserts = [] ∧
    (ConfirmTimerExpires exampleCnfRcvd).map (fun l => (l.m_state, l.m_confirmTimer,
      l.m_holdingTimer, sentFrames l))
      = some (HOLDING, none, some (MicroSeconds (40 * 1024)),
          [PeerOpen 7, PeerClose 7 0 REASON11S_MESH_CONFIRM_TIMEOUT]) := by
  have hw := cnf_rcvd_transitions exampleCnfRcvd REASON11S_RESERVED rfl
  rw [hw.2.1, hw.2.2.2.2.2.2.2 (MicroSeconds (40 * 1024)) rfl]
  exact ⟨rfl, rfl, rfl, rfl, rfl, rfl⟩

/-- C5. In state OPN_RCVD: RetryTimeout1 resends Open (exactly one Open frame), adds
one to the retry counter (a uint16_t; without wrapping whenever the expiry of the
retry timer is dispatched as RetryTimeout1) and re-arms the retry timer without
changing the state.  ConfirmAccept moves to ESTAB and clears the retry timer,
sending no frame (asserting that the peer mesh-point address is known).  Each of
CloseAccept, OpenReject, ConfirmReject, RetryTimeout2 and Cancel moves to HOLDING,
clears the retry timer, sends exactly one Close and arms the holding timer. -/
theorem opn_rcvd_transitions (l : PeerLink) (r : PmpReasonCode) (h : l.m_state = OPN_RCVD) :
    StateMachine TOR1 r l =
      NS_ASSERT (retryTimeoutOk l) NsAssert.retryTimeoutNonZero
        { l with
          m_effects := l.m_effects ++ [openFrame l]
          m_retryCounter := (l.m_retryCounter + 1) % 65536
          m_retryTimer := some l.m_dot11MeshRetryTimeout } ∧
    (l.m_retryCounter < l.m_dot11MeshMaxRetries → l.m_dot11MeshMaxRetries < 65536 →
      RetryTimeout l = StateMachine TOR1 REASON11S_RESERVED l ∧
      StateMachine TOR1 r l =
        NS_ASSERT (retryTimeoutOk l) NsAssert.retryTimeoutNonZero
          { l with
            m_effects := l.m_effects ++ [openFrame l]
            m_retryCounter := l.m_retryCounter + 1
            m_retryTimer := some l.m_dot11MeshRetryTimeout }) ∧
    StateMachine CNF_ACPT r l =
      NS_ASSERT (peerMeshPointKnown l) NsAssert.peerMeshPointAddressKnown
        { l with
          m_state := ESTAB
          m_effects := l.m_effects ++ [statusSignal l OPN_RCVD ESTAB]
          m_retryTimer := none } ∧
    StateMachine CLS_ACPT r l =
      NS_ASSERT (holdingTimeoutOk l) NsAssert.holdingTimeoutNonZero
        { l with
          m_state := HOLDING
          m_effects := l.m_effects ++ [statusSignal l OPN_RCVD HOLDING]
            ++ [closeFrame l REASON11S_MESH_CLOSE_RCVD]
          m_retryTimer := none
          m_holdingTimer := some l.m_dot11MeshHoldingTimeout } ∧
    StateMachine OPN_RJCT r l =
      NS_ASSERT (holdingTimeoutOk l) NsAssert.holdingTimeoutNonZero
        { l with
          m_state := HOLDING
          m_effects := l.m_effects ++ [statusSignal l OPN_RCVD HOLDING] ++ [closeFrame l r]
          m_retryTimer := none
          m_holdingTimer := some l.m_dot11MeshHoldingTimeout } ∧
    StateMachine CNF_RJCT r l =
      NS_ASSERT (holdingTimeoutOk l) NsAssert.holdingTimeoutNonZero
        { l with
          m_state := HOLDING
          m_effects := l.m_effects ++ [statusSignal l OPN_RCVD HOLDING] ++ [closeFrame l r]
          m_retryTimer := none
          m_holdingTimer := some l.m_dot11MeshHoldingTimeout } ∧
    StateMachine TOR2 r l =
      NS_ASSERT (holdingTimeoutOk l) NsAssert.holdingTimeoutNonZero
        { l with
          m_state := HOLDING
          m_effects := l.m_effects ++ [statusSignal l OPN_RCVD HOLDING]
            ++ [closeFrame l REASON11S_MESH_MAX_RETRIES]
          m_retryTimer := none
          m_holdingTimer := some l.m_dot11MeshHoldingTimeout } ∧
    StateMachine CNCL r l =
      NS_ASSERT (holdingTimeoutOk l) NsAssert.holdingTimeoutNonZero
        { l with
          m_state := HOLDING
          m_effects := l.m_effects ++ [statusSignal l OPN_RCVD HOLDING]
            ++ [closeFrame l REASON11S_PEERING_CANCELLED]
          m_retryTimer := none
          m_holdingTimer := some l.m_dot11MeshHoldingTimeout } := by
  have tor1 := StateMachine_TOR1 r l (Or.inr h)
  refine ⟨tor1, ?_, ?_⟩
  · intro h1 h2
    have hm : (l.m_retryCounter + 1) % 65536 = l.m_retryCounter + 1 :=
      Nat.mod_eq_of_lt (by omega)
    refine ⟨?_, ?_⟩
    · unfold RetryTimeout
      rw [if_pos h1]
    · rw [tor1, hm]
  · cases l
    simp only at h
    subst h
    exact ⟨rfl, rfl, rfl, rfl, rfl, rfl⟩

/-- Witness of C5: the example link after OpenAccept is in OPN_RCVD with retry
counter 0 below the 4 retries allowed; a retry timeout makes the counter 1 and
keeps the state; ConfirmAccept gives ESTAB with the retry timer cleared and no
assertion violated; Cancel gives HOLDING. -/
theorem opn_rcvd_transitions_witness :
    exampleOpnRcvd.m_state = OPN_RCVD ∧
    exampleOpnRcvd.m_retryCounter < exampleOpnRcvd.m_dot11MeshMaxRetries ∧
    exampleOpnRcvd.m_dot11MeshMaxRetries < 65536 ∧
    (RetryTimeout exampleOpnRcvd).m_retryCounter = 1 ∧
    (RetryTimeout exampleOpnRcvd).m_state = OPN_RCVD ∧
    (StateMachine CNF_ACPT REASON11S_RESERVED exampleOpnRcvd).m_state = ESTAB ∧
    (StateMachine CNF_ACPT REASON11S_RESERVED exampleOpnRcvd).m_retryTimer = none ∧
    (StateMachine CNF_ACPT REASON11S_RESERVED exampleOpnRcvd).m_failedAsserts = [] ∧
    (StateMachine CNCL REASON11S_RESERVED exampleOpnRcvd).m_state = HOLDING := by
  have hw := opn_rcvd_transitions exampleOpnRcvd REASON11S_RESERVED rfl
  have h1 : exampleOpnRcvd.m_retryCounter < exampleOpnRcvd.m_dot11MeshMaxRetries := by decide
  have h2 : exampleOpnRcvd.m_dot11MeshMaxRetries < 65536 := by decide
  rw [(hw.2.1 h1 h2).1, (hw.2.1 h1 h2).2, hw.2.2.1, hw.2.2.2.2.2.2.2]
  exact ⟨rfl, h1, h2, rfl, rfl, rfl, rfl, rfl, rfl⟩

/-- C6. In state ESTAB: OpenAccept resends exactly one Confirm and changes nothing
else, so the state stays ESTAB.  Each of CloseAccept, OpenReject, ConfirmReject and
Cancel moves to HOLDING, sends exactly one Close and arms the holding timer
(OpenReject and ConfirmReject also cancel the retry timer handle). -/
theorem estab_transitions (l : PeerLink) (r : PmpReasonCode) (h : l.m_state = ESTAB) :
    StateMachine OPN_ACPT r l =
      { l with m_effects := l.m_effects ++ [confirmFrame l] } ∧
    StateMachine CLS_ACPT r l =
      NS_ASSERT (holdingTimeoutOk l) NsAssert.holdingTimeoutNonZero
        { l with
          m_state := HOLDING
          m_effects := l.m_effects ++ [statusSignal l ESTAB HOLDING]
            ++ [closeFrame l REASON11S_MESH_CLOSE_RCVD]
          m_holdingTimer := some l.m_dot11MeshHoldingTimeout } ∧
    StateMachine OPN_RJCT r l =
      NS_ASSERT (holdingTimeoutOk l) NsAssert.holdingTimeoutNonZero
        { l with
          m_state := HOLDING
          m_effects := l.m_effects ++ [statusSignal l ESTAB HOLDING] ++ [closeFrame l r]
          m_retryTimer := none
          m_holdingTimer := some l.m_dot11MeshHoldingTimeout } ∧
    StateMachine CNF_RJCT r l =
      NS_ASSERT (holdingTimeoutOk l) NsAssert.holdingTimeoutNonZero
        { l with
          m_state := HOLDING
          m_effects := l.m_effects ++ [statusSignal l ESTAB HOLDING] ++ [closeFrame l r]
          m_retryTimer := none
          m_holdingTimer := some l.m_dot11MeshHoldingTimeout } ∧
    StateMachine CNCL r l =
      NS_ASSERT (holdingTimeoutOk l) NsAssert.holdingTimeoutNonZero
        { l with
          m_state := HOLDING
          m_effects := l.m_effects ++ [statusSignal l ESTAB HOLDING]
            ++ [closeFrame l REASON11S_PEERING_CANCELLED]
          m_holdingTimer := some l.m_dot11MeshHoldingTimeout } := by
  cases l
  simp only at h
  subst h
  exact ⟨rfl, rfl, rfl, rfl, rfl⟩

/-- Witness of C6: the example link after ActiveOpen, ConfirmAccept and OpenAccept is
in ESTAB; a further OpenAccept keeps ESTAB and sends a second Confirm(7, 0); an
OpenReject with the reason `other 9` gives HOLDING, sends Close(7, 0, other 9) and
arms the holding timer. -/
theorem estab_transitions_witness :
    exampleEstab.m_state = ESTAB ∧
    (StateMachine OPN_ACPT REASON11S_RESERVED exampleEstab).m_state = ESTAB ∧
    sentFrames (StateMachine OPN_ACPT REASON11S_RESERVED exampleEstab)
      = [PeerOpen 7, PeerConfirm 7 0, PeerConfirm 7 0] ∧
    (StateMachine OPN_RJCT (other 9) exampleEstab).m_state = HOLDING ∧
    sentFrames (StateMachine OPN_RJCT (other 9) exampleEstab)
      = [PeerOpen 7, PeerConfirm 7 0, PeerClose 7 0 (other 9)] ∧
    (StateMachine OPN_RJCT (other 9) exampleEstab).m_holdingTimer
      = some (MicroSeconds (40 * 1024)) := by
  rw [(estab_transitions exampleEstab REASON11S_RESERVED rfl).1,
    (estab_transitions exampleEstab (other 9) rfl).2.2.1]
  exact ⟨rfl, rfl, rfl, rfl, rfl, rfl⟩

/-- C7. In state HOLDING: a single HoldingTimeout moves to IDLE (one notification, no
frame), and so does the scheduler firing the pending holding timer.  CloseAccept
clears the holding timer and is then handled by the code of HoldingTimeout: it
gives the link that HoldingTimeout gives once the holding timer is cleared, which
is the link that the firing of the holding timer gives.  OpenAccept and
ConfirmAccept stay in HOLDING and send exactly one Close with the reason "peering
cancelled"; OpenReject and ConfirmReject stay in HOLDING and send exactly one Close
with the reason code passed with the event. -/
theorem holding_transitions (l : PeerLink) (r : PmpReasonCode) (h : l.m_state = HOLDING) :
    StateMachine TOH r l =
      { l with
        m_state := IDLE
        m_effects := l.m_effects ++ [statusSignal l HOLDING IDLE] } ∧
    HoldingTimeout l =
      { l with
        m_state := IDLE
        m_effects := l.m_effects ++ [statusSignal l HOLDING IDLE] } ∧
    StateMachine CLS_ACPT r l =
      { l with
        m_state := IDLE
        m_effects := l.m_effects ++ [statusSignal l HOLDING IDLE]
        m_holdingTimer := none } ∧
    StateMachine CLS_ACPT r l = StateMachine TOH r (ClearHoldingTimer l) ∧
    (∀ d : Time, l.m_holdingTimer = some d →
      HoldingTimerExpires l = some (StateMachine CLS_ACPT r l)) ∧
    StateMachine OPN_ACPT r l =
      { l with
        m_effects := l.m_effects ++ [statusSignal l HOLDING HOLDING]
          ++ [closeFrame l REASON11S_PEERING_CANCELLED] } ∧
    StateMachine CNF_ACPT r l =
      { l with
        m_effects := l.m_effects ++ [statusSignal l HOLDING HOLDING]
          ++ [closeFrame l REASON11S_PEERING_CANCELLED] } ∧
    StateMachine OPN_RJCT r l =
      { l with
        m_effects := l.m_effects ++ [statusSignal l HOLDING HOLDING] ++ [closeFrame l r] } ∧
    StateMachine CNF_RJCT r l =
      { l with
        m_effects := l.m_effects ++ [statusSignal l HOLDING HOLDING] ++ [closeFrame l r] } := by
  cases l
  simp only at h
  subst h
  refine ⟨rfl, rfl, rfl, rfl, ?_, rfl, rfl, rfl, rfl⟩
  intro d hd
  simp only at hd
  subst hd
  rfl

/-- Witness of C7: the example link after ActiveOpen, ConfirmAccept, OpenAccept and
Cancel is in HOLDING with the holding timer pending; one firing of the holding
timer gives IDLE with no timer pending and no further frame; a ConfirmReject with
the reason `other 9` keeps HOLDING and sends Close(7, 0, other 9). -/
theorem holding_transitions_witness :
    exampleHolding.m_state = HOLDING ∧
    exampleHolding.m_holdingTimer = some (MicroSeconds (40 * 1024)) ∧
    (HoldingTimerExpires exampleHolding).map (fun l => (l.m_state, l.m_holdingTimer,
      l.m_retryTimer, l.m_confirmTimer, sentFrames l))
      = some (IDLE, none, none, none,
          [PeerOpen 7, PeerConfirm 7 0, PeerClose 7 0 REASON11S_PEERING_CANCELLED]) ∧
    (StateMachine CNF_RJCT (other 9) exampleHolding).m_state = HOLDING ∧
    sentFrames (StateMachine CNF_RJCT (other 9) exampleHolding)
      = [PeerOpen 7, PeerConfirm 7 0, PeerClose 7 0 REASON11S_PEERING_CANCELLED,
          PeerClose 7 0 (other 9)] := by
  have hw := holding_transitions exampleHolding (other 9) rfl
  rw [hw.2.2.2.2.1 (MicroSeconds (40 * 1024)) rfl, hw.2.2.2.2.2.2.2.2]
  exact ⟨rfl, rfl, rfl, rfl, rfl⟩

/-- C8. For every (state, event) pair that the transition table of the spec does not
list, StateMachine returns the link it was given: the state, the retry counter,
every timer and every other member are unchanged, no frame is sent and no status
notification is emitted. -/
theorem unlisted_pairs_ignored (l : PeerLink) (e : PeerEvent) (r : PmpReasonCode)
    (h : specTableLists l.m_state e = false) : StateMachine e r l = l := by
  cases hs : l.m_state <;> cases e <;>
    first
    | exact absurd h (by rw [hs]; decide)
    | (cases l; simp only at hs; subst hs; rfl)

/-- Witness of C8, on pairs the claim names: the example link in IDLE ignores
ConfirmTimeout, in OPN_RCVD it ignores OpenAccept, in ESTAB it ignores
ConfirmAccept and in HOLDING it ignores Cancel. -/
theorem unlisted_pairs_ignored_witness :
    (specTableLists exampleLink.m_state TOC = false ∧
      StateMachine TOC REASON11S_RESERVED exampleLink = exampleLink) ∧
    (specTableLists exampleOpnRcvd.m_state OPN_ACPT = false ∧
      StateMachine OPN_ACPT REASON11S_RESERVED exampleOpnRcvd = exampleOpnRcvd) ∧
    (specTableLists exampleEstab.m_state CNF_ACPT = false ∧
      StateMachine CNF_ACPT REASON11S_RESERVED exampleEstab = exampleEstab) ∧
    (specTableLists exampleHolding.m_state CNCL = false ∧
      StateMachine CNCL REASON11S_RESERVED exampleHolding = exampleHolding) :=
  ⟨⟨rfl, unlisted_pairs_ignored exampleLink TOC REASON11S_RESERVED rfl⟩,
   ⟨rfl, unlisted_pairs_ignored exampleOpnRcvd OPN_ACPT REASON11S_RESERVED rfl⟩,
   ⟨rfl, unlisted_pairs_ignored exampleEstab CNF_ACPT REASON11S_RESERVED rfl⟩,
   ⟨rfl, unlisted_pairs_ignored exampleHolding CNCL REASON11S_RESERVED rfl⟩⟩

/-- C9. Whatever sequence of events has been applied to a link, a step of the state
machine that starts in a state other than ESTAB and ends in ESTAB is either
OpenAccept received in CNF_RCVD or ConfirmAccept received in OPN_RCVD.  (The link
before the step is arbitrary, so the statement also covers steps taken after the
handlers have written other members.) -/
theorem estab_entered_only_by_handshake (l : PeerLink)
    (events : List (PeerEvent × PmpReasonCode)) (e : PeerEvent) (r : PmpReasonCode)
    (hpre : (StateMachineRun events l).m_state ≠ ESTAB)
    (hpost : (StateMachine e r (StateMachineRun events l)).m_state = ESTAB) :
    ((StateMachineRun events l).m_state = CNF_RCVD ∧ e = OPN_ACPT) ∨
    ((StateMachineRun events l).m_state = OPN_RCVD ∧ e = CNF_ACPT) := by
  rw [StateMachine_m_state] at hpost
  revert hpre hpost
  generalize (StateMachineRun events l).m_state = s
  cases s <;> cases e <;> decide

/-- Witness of C9: on the example link the events ActiveOpen, ConfirmAccept lead to
CNF_RCVD, which is not ESTAB; OpenAccept then enters ESTAB. -/
theorem estab_entered_only_by_handshake_witness :
    (StateMachineRun [(ACTOPN, REASON11S_RESERVED), (CNF_ACPT, REASON11S_RESERVED)]
      exampleLink).m_state ≠ ESTAB ∧
    (StateMachine OPN_ACPT REASON11S_RESERVED
      (StateMachineRun [(ACTOPN, REASON11S_RESERVED), (CNF_ACPT, REASON11S_RESERVED)]
        exampleLink)).m_state = ESTAB ∧
    (((StateMachineRun [(ACTOPN, REASON11S_RESERVED), (CNF_ACPT, REASON11S_RESERVED)]
        exampleLink).m_state = CNF_RCVD ∧ OPN_ACPT = OPN_ACPT) ∨
      ((StateMachineRun [(ACTOPN, REASON11S_RESERVED), (CNF_ACPT, REASON11S_RESERVED)]
        exampleLink).m_state = OPN_RCVD ∧ OPN_ACPT = CNF_ACPT)) :=
  ⟨by decide, rfl,
    estab_entered_only_by_handshake exampleLink
      [(ACTOPN, REASON11S_RESERVED), (CNF_ACPT, REASON11S_RESERVED)] OPN_ACPT
      REASON11S_RESERVED (by decide) rfl⟩

/-- C10. Let a link be in OPN_SNT or OPN_RCVD with retry counter 0 and its retry timer
pending, and let no event but the expiry of the retry timer reach it (maxRetries
being a uint16_t).  Then the retry timer fires maxRetries + 1 times in a row.  For
every k below maxRetries the (k+1)-th firing is dispatched as RetryTimeout1: the
state is unchanged, the counter becomes k + 1, exactly one Open is sent and the
retry timer is pending again.  The (maxRetries+1)-th firing is dispatched as
RetryTimeout2 and moves the link to HOLDING, not IDLE: after the maxRetries Open
frames come one notification and exactly one Close with the reason "max retries",
the retry timer is not pending and the holding timer is. -/
theorem retry_exhaustion (l : PeerLink) (hs : l.m_state = OPN_SNT ∨ l.m_state = OPN_RCVD)
    (hc : l.m_retryCounter = 0) (ht : l.m_retryTimer ≠ none)
    (hm : l.m_dot11MeshMaxRetries < 65536) :
    (∀ k, k < l.m_dot11MeshMaxRetries →
      ∃ lk lk', RetryTimerExpiresTimes k l = some lk ∧
        RetryTimerExpiresTimes (k + 1) l = some lk' ∧
        lk' = StateMachine TOR1 REASON11S_RESERVED { lk with m_retryTimer := none } ∧
        lk'.m_state = l.m_state ∧
        lk'.m_retryCounter = k + 1 ∧
        lk'.m_effects = lk.m_effects ++ [openFrame l] ∧
        lk'.m_effects = l.m_effects ++ List.replicate (k + 1) (openFrame l) ∧
        lk'.m_retryTimer = some l.m_dot11MeshRetryTimeout) ∧
    (∃ ln lf, RetryTimerExpiresTimes l.m_dot11MeshMaxRetries l = some ln ∧
      RetryTimerExpiresTimes (l.m_dot11MeshMaxRetries + 1) l = some lf ∧
      lf = StateMachine TOR2 REASON11S_RESERVED { ln with m_retryTimer := none } ∧
      lf.m_state = HOLDING ∧
      lf.m_state ≠ IDLE ∧
      lf.m_effects = l.m_effects ++ List.replicate l.m_dot11MeshMaxRetries (openFrame l)
        ++ [statusSignal l l.m_state HOLDING] ++ [closeFrame l REASON11S_MESH_MAX_RETRIES] ∧
      lf.m_retryTimer = none ∧
      lf.m_holdingTimer = some l.m_dot11MeshHoldingTimeout) := by
  constructor
  · intro k hk
    obtain ⟨lk, h1, h2, h3, h4, h5, -⟩ := retry_run l hs hc ht hm k (by omega)
    obtain ⟨lk', g1, g2, g3, g4, g5, g6, -⟩ := retry_step l lk hs h2 h4 (by omega) hm
    refine ⟨lk, lk', h1, ?_, g2, ?_, ?_, g6, ?_, g5⟩
    · show (RetryTimerExpiresTimes k l).bind RetryTimerExpires = some lk'
      rw [h1]
      exact g1
    · exact (sameButRetry_fields l lk' g3).1
    · rw [g4, h3]
    · rw [g6, h5, List.replicate_succ', List.append_assoc]
  · obtain ⟨ln, h1, h2, h3, h4, h5, -⟩ :=
      retry_run l hs hc ht hm l.m_dot11MeshMaxRetries (Nat.le_refl _)
    obtain ⟨f1, f2, -, f4, -, -, f7, f8⟩ := sameButRetry_fields l ln h2
    have hs' : ({ ln with m_retryTimer := none } : PeerLink).m_state = OPN_SNT ∨
        ({ ln with m_retryTimer := none } : PeerLink).m_state = OPN_RCVD := by
      show ln.m_state = OPN_SNT ∨ ln.m_state = OPN_RCVD
      rw [f1]
      exact hs
    have hge : ¬ ({ ln with m_retryTimer := none } : PeerLink).m_retryCounter <
        ({ ln with m_retryTimer := none } : PeerLink).m_dot11MeshMaxRetries := by
      show ¬ ln.m_retryCounter < ln.m_dot11MeshMaxRetries
      rw [f2, h3]
      exact Nat.lt_irrefl _
    have hdisp : RetryTimeout { ln with m_retryTimer := none } =
        StateMachine TOR2 REASON11S_RESERVED { ln with m_retryTimer := none } := by
      unfold RetryTimeout
      rw [if_neg hge]
    refine ⟨ln, _, h1, ?_, rfl, ?_⟩
    · show (RetryTimerExpiresTimes l.m_dot11MeshMaxRetries l).bind RetryTimerExpires = _
      rw [h1]
      exact (RetryTimerExpires_of_pending ln h4).trans (congrArg some hdisp)
    · rw [StateMachine_TOR2 REASON11S_RESERVED _ hs']
      refine ⟨rfl, ?_, ?_, rfl, ?_⟩
      · show HOLDING ≠ IDLE
        decide
      · show ln.m_effects ++ [statusSignal ln ln.m_state HOLDING]
          ++ [closeFrame ln REASON11S_MESH_MAX_RETRIES] = _
        rw [h5, f1, f7, f8]
      · show some ln.m_dot11MeshHoldingTimeout = some l.m_dot11MeshHoldingTimeout
        rw [f4]

/-- Witness of C10: the example link after ActiveOpen is in OPN_SNT with retry
counter 0, its retry timer pending and 4 retries allowed.  Four firings of the
retry timer leave it in OPN_SNT with counter 4 and five Open frames sent in all;
the fifth firing leaves it in HOLDING with Close(7, 0, max retries) sent, and no
assertion violated. -/
theorem retry_exhaustion_witness :
    (exampleOpnSnt.m_state = OPN_SNT ∨ exampleOpnSnt.m_state = OPN_RCVD) ∧
    exampleOpnSnt.m_retryCounter = 0 ∧
    exampleOpnSnt.m_retryTimer ≠ none ∧
    exampleOpnSnt.m_dot11MeshMaxRetries < 65536 ∧
    (∃ lf, RetryTimerExpiresTimes (exampleOpnSnt.m_dot11MeshMaxRetries + 1) exampleOpnSnt
        = some lf ∧ lf.m_state = HOLDING ∧ lf.m_retryTimer = none ∧
      lf.m_holdingTimer = some exampleOpnSnt.m_dot11MeshHoldingTimeout) ∧
    (RetryTimerExpiresTimes 4 exampleOpnSnt).map (fun l => (l.m_state, l.m_retryCounter,
      sentFrames l))
      = some (OPN_SNT, 4, [PeerOpen 7, PeerOpen 7, PeerOpen 7, PeerOpen 7, PeerOpen 7]) ∧
    (RetryTimerExpiresTimes 5 exampleOpnSnt).map (fun l => (l.m_state, l.m_retryCounter,
      sentFrames l, l.m_failedAsserts))
      = some (HOLDING, 4, [PeerOpen 7, PeerOpen 7, PeerOpen 7, PeerOpen 7, PeerOpen 7,
          PeerClose 7 0 REASON11S_MESH_MAX_RETRIES], []) := by
  have hs : exampleOpnSnt.m_state = OPN_SNT ∨ exampleOpnSnt.m_state = OPN_RCVD := Or.inl rfl
  have ht : exampleOpnSnt.m_retryTimer ≠ none := by decide
  have hm : exampleOpnSnt.m_dot11MeshMaxRetries < 65536 := by decide
  obtain ⟨-, lf, -, h2, -, h4, -, -, h7, h8⟩ :=
    (retry_exhaustion exampleOpnSnt hs rfl ht hm).2
  exact ⟨hs, rfl, ht, hm, ⟨lf, h2, h4, h7, h8⟩, rfl, rfl⟩

/-! ### The handlers of received frames -/

/-- C11, the claim refuted for OpenAccept and OpenReject: the example link in ESTAB
knows the peer link identifier 5; an Open frame presenting 9 is not dropped.
OpenAccept overwrites the identifier with 9 and sends Confirm(7, 9); OpenReject
keeps 5, moves the link to HOLDING and sends Close(7, 5, reason). -/
theorem open_handlers_do_not_drop_on_mismatch :
    exampleEstabKnown.m_state = ESTAB ∧
    exampleEstabKnown.m_peerLinkId = 5 ∧
    (OpenAccept 9 0 2 exampleEstabKnown).m_peerLinkId = 9 ∧
    sentFrames (OpenAccept 9 0 2 exampleEstabKnown)
      = sentFrames exampleEstabKnown ++ [PeerConfirm 7 9] ∧
    (OpenReject 9 0 2 (other 1) exampleEstabKnown).m_peerLinkId = 5 ∧
    (OpenReject 9 0 2 (other 1) exampleEstabKnown).m_state = HOLDING ∧
    sentFrames (OpenReject 9 0 2 (other 1) exampleEstabKnown)
      = sentFrames exampleEstabKnown ++ [PeerClose 7 5 (other 1)] :=
  ⟨rfl, rfl, rfl, rfl, rfl, rfl, rfl⟩

/-- C11 as amended.  Close, ConfirmAccept and ConfirmReject return the link they
were given, with no member changed and nothing sent, in two cases: the frame does
not name this link (its `peerLinkId` is not the local link identifier; for Close a
`peerLinkId` of 0 passes), or the peer link identifier is known (not 0) and the
presented `localLinkId` differs from it.  In every other case they run the state
machine on the link whose peer link identifier is the presented one: adopted if
none was known, equal to the known one otherwise.  OpenAccept and OpenReject never
drop: OpenAccept writes the presented identifier whether or not one is known,
OpenReject writes it only when none is known and otherwise keeps the known one,
and both run the state machine.  The state machine leaves the peer link
identifier as the handler wrote it. -/
theorem link_id_reconciliation (l : PeerLink) (localLinkId peerLinkId peerAid : Nat)
    (conf : IeConfiguration) (peerMp : Mac48Address) (reason : PmpReasonCode) :
    (Close localLinkId peerLinkId reason l =
      if peerLinkId ≠ 0 ∧ l.m_localLinkId ≠ peerLinkId then l
      else if l.m_peerLinkId ≠ 0 ∧ l.m_peerLinkId ≠ localLinkId then l
      else StateMachine CLS_ACPT reason { l with m_peerLinkId := localLinkId }) ∧
    (ConfirmAccept localLinkId peerLinkId peerAid conf peerMp l =
      if l.m_localLinkId ≠ peerLinkId then l
      else if l.m_peerLinkId ≠ 0 ∧ l.m_peerLinkId ≠ localLinkId then l
      else StateMachine CNF_ACPT REASON11S_RESERVED
        (frameBound localLinkId conf peerAid (boundMeshPoint peerMp l) peerMp l)) ∧
    (ConfirmReject localLinkId peerLinkId conf peerMp reason l =
      if l.m_localLinkId ≠ peerLinkId then l
      else if l.m_peerLinkId ≠ 0 ∧ l.m_peerLinkId ≠ localLinkId then l
      else StateMachine CNF_RJCT reason
        (frameBound localLinkId conf l.m_peerAssocId peerMp peerMp l)) ∧
    (OpenAccept localLinkId conf peerMp l = StateMachine OPN_ACPT REASON11S_RESERVED
      (frameBound localLinkId conf l.m_peerAssocId (boundMeshPoint peerMp l) peerMp l)) ∧
    (OpenReject localLinkId conf peerMp reason l = StateMachine OPN_RJCT reason
      (frameBound (if l.m_peerLinkId = 0 then localLinkId else l.m_peerLinkId) conf
        l.m_peerAssocId (boundMeshPoint peerMp l) peerMp l)) ∧
    (∀ (e : PeerEvent) (r : PmpReasonCode) (id aid : Nat) (mp : Mac48Address),
      (StateMachine e r (frameBound id conf aid mp peerMp l)).m_peerLinkId = id ∧
      (StateMachine e r { l with m_peerLinkId := id }).m_peerLinkId = id) :=
  ⟨Close_eq localLinkId peerLinkId reason l,
   ConfirmAccept_eq localLinkId peerLinkId peerAid conf peerMp l,
   ConfirmReject_eq localLinkId peerLinkId conf peerMp reason l,
   OpenAccept_eq localLinkId conf peerMp l,
   OpenReject_eq localLinkId conf peerMp reason l,
   fun e r _ _ _ => ⟨StateMachine_m_peerLinkId e r _, StateMachine_m_peerLinkId e r _⟩⟩

/-- C12, the claim refuted: the example link is IDLE with the peer mesh-point
address 2 bound.  An Open frame presenting the address 3 violates the assertion of
OpenAccept (a build with assertions aborts there); otherwise the normal accept
transition is taken, to OPN_RCVD with Confirm and Open sent, and not to HOLDING.
OpenReject with the address 3 violates the same assertion and leaves the link
IDLE. -/
theorem mesh_point_mismatch_not_holding :
    exampleLink.m_state = IDLE ∧
    exampleLink.m_peerMeshPointAddress = 2 ∧
    (2 : Mac48Address) ≠ Mac48Address.GetBroadcast ∧
    (OpenAccept 5 0 3 exampleLink).m_state = OPN_RCVD ∧
    (OpenAccept 5 0 3 exampleLink).m_failedAsserts = [NsAssert.peerMeshPointAddressMatches] ∧
    sentFrames (OpenAccept 5 0 3 exampleLink) = [PeerConfirm 7 5, PeerOpen 7] ∧
    (OpenReject 5 0 3 (other 1) exampleLink).m_state = IDLE ∧
    (OpenReject 5 0 3 (other 1) exampleLink).m_failedAsserts
      = [NsAssert.peerMeshPointAddressMatches] :=
  ⟨rfl, rfl, by decide, rfl, rfl, rfl, rfl, rfl⟩

/-- C12 as amended.  When OpenAccept or OpenReject presents a peer mesh-point address
that differs from the one already bound to the link, the assertion of the handler
that the two are equal is violated, which aborts a build with assertions.  Where
assertions are compiled out the handler keeps the bound address, drops the
presented one and takes the normal accept or reject transition, on the link with
the identifier and the configuration of the frame written: the state afterwards is
the one that transition gives, so the link is in HOLDING afterwards only where the
normal transition leads there; OpenAccept never moves a link to HOLDING. -/
theorem mesh_point_mismatch_asserts (l : PeerLink) (localLinkId : Nat)
    (conf : IeConfiguration) (peerMp : Mac48Address) (reason : PmpReasonCode)
    (hb : l.m_peerMeshPointAddress ≠ Mac48Address.GetBroadcast)
    (hm : l.m_peerMeshPointAddress ≠ peerMp) :
    OpenAccept localLinkId conf peerMp l = StateMachine OPN_ACPT REASON11S_RESERVED
      { l with
        m_peerLinkId := localLinkId
        m_configuration := conf
        m_failedAsserts := l.m_failedAsserts ++ [NsAssert.peerMeshPointAddressMatches] } ∧
    OpenReject localLinkId conf peerMp reason l = StateMachine OPN_RJCT reason
      { l with
        m_peerLinkId := if l.m_peerLinkId = 0 then localLinkId else l.m_peerLinkId
        m_configuration := conf
        m_failedAsserts := l.m_failedAsserts ++ [NsAssert.peerMeshPointAddressMatches] } ∧
    NsAssert.peerMeshPointAddressMatches ∈ (OpenAccept localLinkId conf peerMp l).m_failedAsserts ∧
    NsAssert.peerMeshPointAddressMatches ∈
      (OpenReject localLinkId conf peerMp reason l).m_failedAsserts ∧
    (OpenAccept localLinkId conf peerMp l).m_peerMeshPointAddress = l.m_peerMeshPointAddress ∧
    (OpenReject localLinkId conf peerMp reason l).m_peerMeshPointAddress
      = l.m_peerMeshPointAddress ∧
    (OpenAccept localLinkId conf peerMp l).m_state = nextState l.m_state OPN_ACPT ∧
    (OpenReject localLinkId conf peerMp reason l).m_state = nextState l.m_state OPN_RJCT ∧
    (l.m_state ≠ HOLDING → (OpenAccept localLinkId conf peerMp l).m_state ≠ HOLDING) := by
  have hd : decide (l.m_peerMeshPointAddress = peerMp) = false := decide_eq_false hm
  have ea : OpenAccept localLinkId conf peerMp l = StateMachine OPN_ACPT REASON11S_RESERVED
      { l with
        m_peerLinkId := localLinkId
        m_configuration := conf
        m_failedAsserts := l.m_failedAsserts ++ [NsAssert.peerMeshPointAddressMatches] } := by
    rw [OpenAccept_eq]
    unfold frameBound boundMeshPoint
    simp only [if_pos hb, hd]
    rfl
  have er : OpenReject localLinkId conf peerMp reason l = StateMachine OPN_RJCT reason
      { l with
        m_peerLinkId := if l.m_peerLinkId = 0 then localLinkId else l.m_peerLinkId
        m_configuration := conf
        m_failedAsserts := l.m_failedAsserts ++ [NsAssert.peerMeshPointAddressMatches] } := by
    rw [OpenReject_eq]
    unfold frameBound boundMeshPoint
    simp only [if_pos hb, hd]
    rfl
  have sa : (OpenAccept localLinkId conf peerMp l).m_state = nextState l.m_state OPN_ACPT := by
    rw [ea, StateMachine_m_state]
  refine ⟨ea, er, ?_, ?_, ?_, ?_, sa, ?_, ?_⟩
  · rw [ea]
    obtain ⟨extra, hx⟩ := StateMachine_failedAsserts OPN_ACPT REASON11S_RESERVED
      { l with
        m_peerLinkId := localLinkId
        m_configuration := conf
        m_failedAsserts := l.m_failedAsserts ++ [NsAssert.peerMeshPointAddressMatches] }
    rw [hx]
    exact List.mem_append_left _ (List.mem_append_right _ (List.mem_singleton.mpr rfl))
  · rw [er]
    obtain ⟨extra, hx⟩ := StateMachine_failedAsserts OPN_RJCT reason
      { l with
        m_peerLinkId := if l.m_peerLinkId = 0 then localLinkId else l.m_peerLinkId
        m_configuration := conf
        m_failedAsserts := l.m_failedAsserts ++ [NsAssert.peerMeshPointAddressMatches] }
    rw [hx]
    exact List.mem_append_left _ (List.mem_append_right _ (List.mem_singleton.mpr rfl))
  · rw [ea, (sameButMachine_fields _ _ (StateMachine_frame _ _ _)).2.2.1]
  · rw [er, (sameButMachine_fields _ _ (StateMachine_frame _ _ _)).2.2.1]
  · rw [er, StateMachine_m_state]
  · rw [sa]
    generalize l.m_state = s
    cases s <;> decide

/-- Witness of C12 as amended: on the example link, whose bound mesh-point address
is 2, an Open frame presenting 3 records the violated assertion, keeps the address
2 and takes the normal transition to OPN_RCVD. -/
theorem mesh_point_mismatch_asserts_witness :
    exampleLink.m_peerMeshPointAddress ≠ Mac48Address.GetBroadcast ∧
    exampleLink.m_peerMeshPointAddress ≠ 3 ∧
    NsAssert.peerMeshPointAddressMatches ∈ (OpenAccept 5 0 3 exampleLink).m_failedAsserts ∧
    (OpenAccept 5 0 3 exampleLink).m_peerMeshPointAddress = exampleLink.m_peerMeshPointAddress ∧
    (OpenAccept 5 0 3 exampleLink).m_state = nextState exampleLink.m_state OPN_ACPT :=
  ⟨by decide, by decide,
    (mesh_point_mismatch_asserts exampleLink 5 0 3 REASON11S_RESERVED (by decide)
      (by decide)).2.2.1,
    (mesh_point_mismatch_asserts exampleLink 5 0 3 REASON11S_RESERVED (by decide)
      (by decide)).2.2.2.2.1,
    (mesh_point_mismatch_asserts exampleLink 5 0 3 REASON11S_RESERVED (by decide)
      (by decide)).2.2.2.2.2.2.1⟩

/-! ### Transmission reports and beacons -/

/-- C15. TransmissionSuccess sets the counter of consecutive failures to 0 and
changes nothing else.  TransmissionFailure adds one to the counter (a uint16_t, so
modulo 2 ^ 16; exactly one whenever the counter is below 65535); when the new value
equals the configured maximum it runs the state machine on Cancel and then sets
the counter to 0, and when it does not, it changes nothing but the counter, so the
peering state is untouched. -/
theorem transmission_reports (l : PeerLink) :
    TransmissionSuccess l = { l with m_packetFail := 0 } ∧
    ((l.m_packetFail + 1) % 65536 = l.m_maxPacketFail →
      TransmissionFailure l =
        { StateMachine CNCL REASON11S_RESERVED
            { l with m_packetFail := (l.m_packetFail + 1) % 65536 } with m_packetFail := 0 } ∧
      (TransmissionFailure l).m_packetFail = 0 ∧
      (TransmissionFailure l).m_state = nextState l.m_state CNCL) ∧
    ((l.m_packetFail + 1) % 65536 ≠ l.m_maxPacketFail →
      TransmissionFailure l = { l with m_packetFail := (l.m_packetFail + 1) % 65536 } ∧
      (TransmissionFailure l).m_state = l.m_state ∧
      (TransmissionFailure l).m_effects = l.m_effects) ∧
    (l.m_packetFail < 65535 → (l.m_packetFail + 1) % 65536 = l.m_packetFail + 1) := by
  refine ⟨rfl, ?_, ?_, ?_⟩
  · intro h
    have e : TransmissionFailure l =
        { StateMachine CNCL REASON11S_RESERVED
            { l with m_packetFail := (l.m_packetFail + 1) % 65536 } with m_packetFail := 0 } := by
      unfold TransmissionFailure
      simp only [if_pos h]
    refine ⟨e, ?_, ?_⟩
    · rw [e]
    · rw [e]
      exact StateMachine_m_state CNCL REASON11S_RESERVED _
  · intro h
    have e : TransmissionFailure l = { l with m_packetFail := (l.m_packetFail + 1) % 65536 } := by
      unfold TransmissionFailure
      simp only [if_neg h]
    refine ⟨e, ?_, ?_⟩ <;> rw [e]
  · intro h
    exact Nat.mod_eq_of_lt (by omega)

/-- Witness of C15: the established example link allows 2 consecutive failures.  The
first failure makes the counter 1 and leaves the link in ESTAB; the second reaches
the maximum: Cancel moves the link to HOLDING and the counter is 0 again. -/
theorem transmission_reports_witness :
    (exampleEstab.m_packetFail + 1) % 65536 ≠ exampleEstab.m_maxPacketFail ∧
    (TransmissionFailure exampleEstab).m_packetFail = 1 ∧
    (TransmissionFailure exampleEstab).m_state = ESTAB ∧
    ((TransmissionFailure exampleEstab).m_packetFail + 1) % 65536
      = (TransmissionFailure exampleEstab).m_maxPacketFail ∧
    (TransmissionFailure (TransmissionFailure exampleEstab)).m_packetFail = 0 ∧
    (TransmissionFailure (TransmissionFailure exampleEstab)).m_state = HOLDING := by
  have h1 : (exampleEstab.m_packetFail + 1) % 65536 ≠ exampleEstab.m_maxPacketFail := by decide
  have h2 : ((TransmissionFailure exampleEstab).m_packetFail + 1) % 65536
      = (TransmissionFailure exampleEstab).m_maxPacketFail := by decide
  have w1 := (transmission_reports exampleEstab).2.2.1 h1
  have w2 := (transmission_reports (TransmissionFailure exampleEstab)).2.1 h2
  refine ⟨h1, ?_, ?_, h2, w2.2.1, ?_⟩
  · rw [w1.1]
    rfl
  · rw [w1.2.1]
    rfl
  · rw [w2.2.2, w1.2.1]
    rfl

/-- C16. For a window of W beacons, 1 ≤ W ≤ 30, CalculateFailAvg is the rational
number 1 - (fwdCount * revCount) / (W * W), where fwdCount and revCount are the
numbers of set bits among the W least-significant bits of the forward and of the
reverse history; and it reads no other bit: two links with the same window whose
histories agree modulo 2 ^ W have the same failure average. -/
theorem fail_avg_formula (l : PeerLink) (h1 : 1 ≤ l.m_beaconWinSize)
    (h30 : l.m_beaconWinSize ≤ 30) :
    CalculateFailAvg l =
      1 - ((setBits l.m_beaconWinSize l.m_beaconsOnLink.fwdBeacons : ℚ)
            * (setBits l.m_beaconWinSize l.m_beaconsOnLink.revBeacons : ℚ))
          / ((l.m_beaconWinSize : ℚ) * (l.m_beaconWinSize : ℚ)) ∧
    (∀ l' : PeerLink, l'.m_beaconWinSize = l.m_beaconWinSize →
      l'.m_beaconsOnLink.fwdBeacons % 2 ^ l.m_beaconWinSize
        = l.m_beaconsOnLink.fwdBeacons % 2 ^ l.m_beaconWinSize →
      l'.m_beaconsOnLink.revBeacons % 2 ^ l.m_beaconWinSize
        = l.m_beaconsOnLink.revBeacons % 2 ^ l.m_beaconWinSize →
      CalculateFailAvg l' = CalculateFailAvg l) := by
  constructor
  · rw [CalculateFailAvg_eq l (by omega)]
    push_cast
    rfl
  · intro l' hW hf hr
    rw [CalculateFailAvg_eq l (by omega), CalculateFailAvg_eq l' (by omega), hW,
      ← setBits_mod _ l'.m_beaconsOnLink.fwdBeacons, ← setBits_mod _ l'.m_beaconsOnLink.revBeacons,
      hf, hr, setBits_mod, setBits_mod]

/-- Witness of C16: on a fresh link (window 20, both histories all ones) the failure
average is 1 - (20 * 20) / (20 * 20) = 0. -/
theorem fail_avg_formula_witness :
    1 ≤ (PeerLink.PeerLink 0 0).m_beaconWinSize ∧
    (PeerLink.PeerLink 0 0).m_beaconWinSize ≤ 30 ∧
    setBits 20 0xffffffff = 20 ∧
    CalculateFailAvg (PeerLink.PeerLink 0 0) = 0 := by
  have h1 : 1 ≤ (PeerLink.PeerLink 0 0).m_beaconWinSize := by decide
  have h30 : (PeerLink.PeerLink 0 0).m_beaconWinSize ≤ 30 := by decide
  have hb : setBits 20 0xffffffff = 20 := by decide
  refine ⟨h1, h30, hb, ?_⟩
  rw [(fail_avg_formula (PeerLink.PeerLink 0 0) h1 h30).1]
  show 1 - ((setBits 20 0xffffffff : ℚ) * (setBits 20 0xffffffff : ℚ)) / ((20 : ℚ) * (20 : ℚ)) = 0
  rw [hb]
  norm_num

/-- C17. For a link with a window of W beacons, 1 ≤ W ≤ 32, after W consecutive
BeaconMissed calls CalculateFailAvg returns exactly 1: whatever the reverse
history holds, and whatever the forward history held before the calls, the fresh
history of all ones included. -/
theorem fail_avg_after_window_of_misses (l : PeerLink) (h1 : 1 ≤ l.m_beaconWinSize)
    (h32 : l.m_beaconWinSize ≤ 32) :
    CalculateFailAvg (BeaconMissed^[l.m_beaconWinSize] l) = 1 := by
  obtain ⟨hW, hf, -⟩ := BeaconMissed_iterate l.m_beaconWinSize l
  rw [CalculateFailAvg_eq _ (by rw [hW]; omega), hW, hf, setBits_after_misses _ _ h1]
  simp

/-- Witness of C17: a fresh link has the window 20 and both histories all ones;
after 20 BeaconMissed calls its failure average is 1, and so it is when the
reverse history is 0x12345 instead. -/
theorem fail_avg_after_window_of_misses_witness :
    (PeerLink.PeerLink 0 0).m_beaconWinSize = 20 ∧
    (PeerLink.PeerLink 0 0).m_beaconsOnLink.fwdBeacons = 0xffffffff ∧
    (PeerLink.PeerLink 0 0).m_beaconsOnLink.revBeacons = 0xffffffff ∧
    CalculateFailAvg (BeaconMissed^[20] (PeerLink.PeerLink 0 0)) = 1 ∧
    CalculateFailAvg (BeaconMissed^[20]
      { PeerLink.PeerLink 0 0 with
        m_beaconsOnLink := { BeaconHistory.BeaconHistory with revBeacons := 0x12345 } }) = 1 :=
  ⟨rfl, rfl, rfl,
    fail_avg_after_window_of_misses (PeerLink.PeerLink 0 0) (by decide) (by decide),
    fail_avg_after_window_of_misses
      { PeerLink.PeerLink 0 0 with
        m_beaconsOnLink := { BeaconHistory.BeaconHistory with revBeacons := 0x12345 } }
      (by decide) (by decide)⟩

/-- C18. A BeaconMissed call changes four members and no other.  The counter of
missed beacons grows by one unless it is 255 or more, in which case it keeps its
value: a uint8_t counter saturates at 255 and does not wrap.  The forward history
becomes (2 * old) mod 2 ^ 32: shifted left by one inside 32 bits, with bit 0 clear
and bit i + 1 equal to the old bit i.  The beacon-missed timer is armed for one
beacon interval.  One failure average is pushed to the plugin.  The reverse
history, the peering state and the retry counter are as before. -/
theorem beacon_missed_effect (l : PeerLink) :
    BeaconMissed l =
      { l with
        m_beaconsOnLink :=
          { l.m_beaconsOnLink with
            fwdBeacons := AddBeaconMissToSequence l.m_beaconsOnLink.fwdBeacons
            missedBeacons :=
              if l.m_beaconsOnLink.missedBeacons < 255 then l.m_beaconsOnLink.missedBeacons + 1
              else l.m_beaconsOnLink.missedBeacons }
        m_beaconMissedTimer := some l.m_beaconInterval
        m_effects := l.m_effects ++
          [Effect.UpdateFailAvg l.m_peerAddress
            (CalculateFailAvg
              { l with m_beaconsOnLink :=
                  { l.m_beaconsOnLink with
                    fwdBeacons := AddBeaconMissToSequence l.m_beaconsOnLink.fwdBeacons } })] } ∧
    AddBeaconMissToSequence l.m_beaconsOnLink.fwdBeacons
      = (2 * l.m_beaconsOnLink.fwdBeacons) % 4294967296 ∧
    (AddBeaconMissToSequence l.m_beaconsOnLink.fwdBeacons).testBit 0 = false ∧
    (∀ i, i + 1 < 32 → (AddBeaconMissToSequence l.m_beaconsOnLink.fwdBeacons).testBit (i + 1)
      = l.m_beaconsOnLink.fwdBeacons.testBit i) ∧
    (l.m_beaconsOnLink.missedBeacons = 255 →
      (BeaconMissed l).m_beaconsOnLink.missedBeacons = 255) ∧
    (l.m_beaconsOnLink.missedBeacons < 255 →
      (BeaconMissed l).m_beaconsOnLink.missedBeacons = l.m_beaconsOnLink.missedBeacons + 1) ∧
    (BeaconMissed l).m_beaconsOnLink.revBeacons = l.m_beaconsOnLink.revBeacons ∧
    (BeaconMissed l).m_state = l.m_state ∧
    (BeaconMissed l).m_retryCounter = l.m_retryCounter := by
  have e := BeaconMissed_eq l
  have hx := AddBeaconMissToSequence_eq l.m_beaconsOnLink.fwdBeacons
  have h32 : (4294967296 : Nat) = 2 ^ 32 := by norm_num
  refine ⟨e, hx, ?_, ?_, ?_, ?_, ?_, ?_, ?_⟩
  · rw [hx, Nat.testBit_zero]
    have : (2 * l.m_beaconsOnLink.fwdBeacons) % 4294967296 % 2 = 0 := by omega
    simp [this]
  · intro i hi
    rw [hx, h32, Nat.testBit_mod_two_pow, Nat.mul_comm,
      ← Nat.pow_one 2, ← Nat.shiftLeft_eq, Nat.testBit_shiftLeft]
    simp [hi]
  · intro h
    rw [e]
    show (if l.m_beaconsOnLink.missedBeacons < 255 then _ else _) = 255
    rw [if_neg (by omega), h]
  · intro h
    rw [e]
    show (if l.m_beaconsOnLink.missedBeacons < 255 then _ else _) = _
    rw [if_pos h]
  · rw [e]
  · rw [e]
  · rw [e]

/-- Witness of C18: on a fresh link (forward history all ones, no beacon missed, beacon
interval 0) one BeaconMissed call gives the forward history 0xfffffffe and the
counter 1, and arms the beacon-missed timer for the beacon interval; on a link
whose counter is 255 the counter stays 255. -/
theorem beacon_missed_effect_witness :
    (BeaconMissed (PeerLink.PeerLink 0 0)).m_beaconsOnLink.fwdBeacons = 0xfffffffe ∧
    (BeaconMissed (PeerLink.PeerLink 0 0)).m_beaconsOnLink.missedBeacons = 1 ∧
    (BeaconMissed (PeerLink.PeerLink 0 0)).m_beaconMissedTimer
      = some (PeerLink.PeerLink 0 0).m_beaconInterval ∧
    (BeaconMissed
      { PeerLink.PeerLink 0 0 with
        m_beaconsOnLink := { BeaconHistory.BeaconHistory with missedBeacons := 255 } }
      ).m_beaconsOnLink.missedBeacons = 255 := by
  refine ⟨?_, ?_, ?_, ?_⟩
  · rw [(beacon_missed_effect (PeerLink.PeerLink 0 0)).1]
    decide
  · exact (beacon_missed_effect (PeerLink.PeerLink 0 0)).2.2.2.2.2.1 (by decide)
  · rw [(beacon_missed_effect (PeerLink.PeerLink 0 0)).1]
  · exact (beacon_missed_effect _).2.2.2.2.1 rfl

/-- C19, the code evaluated at the failing input.  The calls of exampleBeaconCalls
lead from a fresh link to an established link that has handled a first beacon: it
is no longer new and its peer association identifier is 1.  A second beacon whose
timing record reports the beacon interval 488 for this station is handled and
returns.  A second beacon whose timing record reports the beacon interval 0 is not:
UpdateBeaconReceived divides by remoteBeaconIntervalTu = 4 * 0 = 0 and does not
return. -/
theorem update_beacon_received_divides_by_zero :
    (runCalls exampleBeaconCalls (PeerLink.PeerLink 0 0)).map
      (fun l => (l.m_state, l.m_newLink, l.m_peerAssocId)) = some (ESTAB, false, 1) ∧
    (runCalls (exampleBeaconCalls ++
      [Call.SetBeaconTimingElement [{ aid := 1, lastBeacon := 2100, beaconInterval := 488 }],
       Call.UpdateBeaconReceived 0]) (PeerLink.PeerLink 0 0)).map
      (fun l => (l.m_beaconsOnLink.fwdBeacons, l.m_beaconsOnLink.missedBeacons))
      = some (0xffffffff, 0) ∧
    runCalls (exampleBeaconCalls ++
      [Call.SetBeaconTimingElement [{ aid := 1, lastBeacon := 2100, beaconInterval := 0 }],
       Call.UpdateBeaconReceived 0]) (PeerLink.PeerLink 0 0) = none :=
  ⟨rfl, rfl, rfl⟩

/-- C20. On a link that is still new, a call of UpdateBeaconReceived whose timing
record has an entry for this station (association identifier not 0 and equal to
the one the peer assigned) returns, whatever values `indeterminate` and the
record hold; the reverse history gets exactly one received beacon and no missed
one: it becomes (2 * old) mod 2 ^ 32 + 1; and the link is no longer new.  A call
whose record has no such entry returns too, leaves the reverse history as it is
and leaves the link new, so that the first call with an entry is the one the
first part speaks of. -/
theorem first_update_on_new_link (ind : Nat) (l : PeerLink) (hnew : l.m_newLink = true) :
    ((∃ u ∈ l.m_beaconTiming, u.aid ≠ 0 ∧ l.m_peerAssocId = u.aid) →
      ∃ l', UpdateBeaconReceived ind l = some l' ∧
        l'.m_beaconsOnLink.revBeacons
          = AddBeaconReceptionToSequence l.m_beaconsOnLink.revBeacons ∧
        l'.m_beaconsOnLink.revBeacons = (2 * l.m_beaconsOnLink.revBeacons) % 4294967296 + 1 ∧
        l'.m_newLink = false) ∧
    ((∀ u ∈ l.m_beaconTiming, ¬ (u.aid ≠ 0 ∧ l.m_peerAssocId = u.aid)) →
      ∃ l', UpdateBeaconReceived ind l = some l' ∧
        l'.m_beaconsOnLink.revBeacons = l.m_beaconsOnLink.revBeacons ∧
        l'.m_newLink = true) := by
  constructor
  · intro hentry
    cases hf : l.m_beaconTiming.find? (fun u => decide (u.aid ≠ 0 ∧ l.m_peerAssocId = u.aid)) with
    | none =>
      obtain ⟨u, hu, hp⟩ := hentry
      have := List.find?_eq_none.mp hf u hu
      exact absurd (decide_eq_true hp) this
    | some u =>
      have hf' : (UpdateBeaconReceived.start l).m_beaconTiming.find?
          (fun u => decide (u.aid ≠ 0 ∧ (UpdateBeaconReceived.start l).m_peerAssocId = u.aid))
          = some u := hf
      have he : UpdateBeaconReceived ind l = some (UpdateBeaconReceived.finish
          { UpdateBeaconReceived.start l with
            m_beaconsOnLink :=
              { (UpdateBeaconReceived.start l).m_beaconsOnLink with
                revBeacons := AddBeaconReceptionToSequence l.m_beaconsOnLink.revBeacons
                lastRemBeaconUpdateTu := u.lastBeacon % 65536 }
            m_prevBeaconTiming := u.lastBeacon
            m_newLink := false }) := by
        unfold UpdateBeaconReceived UpdateBeaconReceived.reverse
        simp only [hf']
        rw [UpdateBeaconReceived.entry_new _ u (UpdateBeaconReceived.start l) hnew]
        rfl
      exact ⟨_, he, rfl, AddBeaconReceptionToSequence_eq _, rfl⟩
  · intro hno
    have hf : l.m_beaconTiming.find? (fun u => decide (u.aid ≠ 0 ∧ l.m_peerAssocId = u.aid))
        = none := by
      rw [List.find?_eq_none]
      intro u hu hd
      exact hno u hu (of_decide_eq_true hd)
    have hf' : (UpdateBeaconReceived.start l).m_beaconTiming.find?
        (fun u => decide (u.aid ≠ 0 ∧ (UpdateBeaconReceived.start l).m_peerAssocId = u.aid))
        = none := hf
    have hn : ¬ ¬ (UpdateBeaconReceived.start l).m_newLink = true := fun h => h hnew
    have he : UpdateBeaconReceived ind l
        = some (UpdateBeaconReceived.finish (UpdateBeaconReceived.start l)) := by
      unfold UpdateBeaconReceived UpdateBeaconReceived.reverse
      simp only [hf', if_neg hn]
      rfl
    exact ⟨_, he, rfl, hnew⟩

/-- Witness of C20: the established example link is new and its peer association
identifier is 1; with a timing record holding the entry (1, 100, 488) the call
returns, the reverse history, all ones before, is all ones after, and the link is
no longer new. -/
theorem first_update_on_new_link_witness :
    (SetBeaconTimingElement [{ aid := 1, lastBeacon := 100, beaconInterval := 488 }]
      exampleEstabKnown).m_newLink = true ∧
    (∃ l', UpdateBeaconReceived 0
        (SetBeaconTimingElement [{ aid := 1, lastBeacon := 100, beaconInterval := 488 }]
          exampleEstabKnown) = some l' ∧
      l'.m_beaconsOnLink.revBeacons = 0xffffffff ∧ l'.m_newLink = false) := by
  refine ⟨rfl, ?_⟩
  obtain ⟨l', h1, h2, -, h4⟩ := (first_update_on_new_link 0
    (SetBeaconTimingElement [{ aid := 1, lastBeacon := 100, beaconInterval := 488 }]
      exampleEstabKnown) rfl).1
    ⟨{ aid := 1, lastBeacon := 100, beaconInterval := 488 }, List.mem_singleton.mpr rfl,
      by decide, rfl⟩
  exact ⟨l', h1, h2.trans (by decide), h4⟩

/-! ### Invariants over the runs of a link -/

/-- C13, the claim refuted: ESTAB is reached with an identifier that is 0.  From a
fresh link whose local link identifier is never set, ActiveOpen, a Confirm frame
and an Open frame presenting the identifier 5 lead to ESTAB with the local link
identifier 0.  From a fresh link with the local link identifier 7, the same
frames presenting the identifier 0 lead to ESTAB with the peer link identifier
0. -/
theorem estab_with_unbound_identifier :
    (runCalls [Call.MLMEActivePeerLinkOpen, Call.ConfirmAccept 5 0 1 0 2, Call.OpenAccept 5 0 2]
      (PeerLink.PeerLink 0 0)).map (fun l => (l.m_state, l.m_localLinkId, l.m_peerLinkId))
      = some (ESTAB, 0, 5) ∧
    (runCalls [Call.SetLocalLinkId 7, Call.MLMEActivePeerLinkOpen, Call.ConfirmAccept 0 7 1 0 2,
        Call.OpenAccept 0 0 2]
      (PeerLink.PeerLink 0 0)).map (fun l => (l.m_state, l.m_localLinkId, l.m_peerLinkId))
      = some (ESTAB, 7, 0) :=
  ⟨rfl, rfl⟩

/-- C13 as amended.  Take a freshly constructed link whose owner first sets a local
link identifier other than 0, and then any calls that present no link identifier
0 (frames with a non-zero identifier of the peer, SetLocalLinkId with a non-zero
identifier).  In every state so reached, if the state is ESTAB then the local and
the peer link identifier are both non-zero. -/
theorem estab_ids_bound (m_interface m_prevBeaconTiming id : Nat) (calls : List Call)
    (l : PeerLink) (hid : id ≠ 0) (hcalls : ∀ c ∈ calls, presentsBoundIds c)
    (hrun : runCalls (Call.SetLocalLinkId id :: calls)
      (PeerLink.PeerLink m_interface m_prevBeaconTiming) = some l)
    (hs : l.m_state = ESTAB) :
    l.m_localLinkId ≠ 0 ∧ l.m_peerLinkId ≠ 0 := by
  have h0 : idsBound (SetLocalLinkId id (PeerLink.PeerLink m_interface m_prevBeaconTiming)) :=
    ⟨hid, fun h => absurd (show IDLE = ESTAB from h) (by decide)⟩
  have h := runCalls_idsBound calls _ l hrun hcalls h0
  exact ⟨h.1, h.2 hs⟩

/-- Witness of C13 as amended: with the local link identifier 7 and frames presenting
the identifier 5, the run of the counterexample ends in ESTAB with the identifiers
7 and 5. -/
theorem estab_ids_bound_witness :
    (7 : Nat) ≠ 0 ∧
    (∀ c ∈ [Call.MLMEActivePeerLinkOpen, Call.ConfirmAccept 5 7 1 0 2, Call.OpenAccept 5 0 2],
      presentsBoundIds c) ∧
    runCalls [Call.SetLocalLinkId 7, Call.MLMEActivePeerLinkOpen, Call.ConfirmAccept 5 7 1 0 2,
      Call.OpenAccept 5 0 2] (PeerLink.PeerLink 0 0)
      = some (OpenAccept 5 0 2 (ConfirmAccept 5 7 1 0 2 (MLMEActivePeerLinkOpen
          (SetLocalLinkId 7 (PeerLink.PeerLink 0 0))))) ∧
    (OpenAccept 5 0 2 (ConfirmAccept 5 7 1 0 2 (MLMEActivePeerLinkOpen
      (SetLocalLinkId 7 (PeerLink.PeerLink 0 0))))).m_state = ESTAB ∧
    (OpenAccept 5 0 2 (ConfirmAccept 5 7 1 0 2 (MLMEActivePeerLinkOpen
      (SetLocalLinkId 7 (PeerLink.PeerLink 0 0))))).m_localLinkId ≠ 0 ∧
    (OpenAccept 5 0 2 (ConfirmAccept 5 7 1 0 2 (MLMEActivePeerLinkOpen
      (SetLocalLinkId 7 (PeerLink.PeerLink 0 0))))).m_peerLinkId ≠ 0 := by
  have hc : ∀ c ∈ [Call.MLMEActivePeerLinkOpen, Call.ConfirmAccept 5 7 1 0 2,
      Call.OpenAccept 5 0 2], presentsBoundIds c := by
    intro c hc
    simp only [List.mem_cons, List.mem_singleton, List.not_mem_nil, or_false] at hc
    rcases hc with rfl | rfl | rfl
    · trivial
    · show (5 : Nat) ≠ 0
      decide
    · show (5 : Nat) ≠ 0
      decide
  exact ⟨by decide, hc, rfl, rfl,
    estab_ids_bound 0 0 7 _ _ (by decide) hc rfl rfl⟩

/-- C14. In every state reachable from a freshly constructed link, the firing of a
timer being the step that makes the timer not pending and runs its handler: the
retry timer is pending exactly when the state is OPN_SNT or OPN_RCVD, the confirm
timer exactly when the state is CNF_RCVD, the holding timer exactly when the state
is HOLDING.  Hence no two of the three are pending together, and none is pending
in IDLE or in ESTAB. -/
theorem timer_invariant (l : PeerLink) (h : Reachable l) :
    (EventId.IsRunning l.m_retryTimer = true ↔ (l.m_state = OPN_SNT ∨ l.m_state = OPN_RCVD)) ∧
    (EventId.IsRunning l.m_confirmTimer = true ↔ l.m_state = CNF_RCVD) ∧
    (EventId.IsRunning l.m_holdingTimer = true ↔ l.m_state = HOLDING) ∧
    ¬ (EventId.IsRunning l.m_retryTimer = true ∧ EventId.IsRunning l.m_confirmTimer = true) ∧
    ¬ (EventId.IsRunning l.m_retryTimer = true ∧ EventId.IsRunning l.m_holdingTimer = true) ∧
    ¬ (EventId.IsRunning l.m_confirmTimer = true ∧ EventId.IsRunning l.m_holdingTimer = true) ∧
    ((l.m_state = IDLE ∨ l.m_state = ESTAB) →
      l.m_retryTimer = none ∧ l.m_confirmTimer = none ∧ l.m_holdingTimer = none) := by
  obtain ⟨i, p, calls, hrun⟩ := h
  have hb : timersMatchState l = true := runCalls_timers calls _ l hrun rfl
  rcases l with ⟨_, _, _, _, _, _, _, _, _, _, _, _, _, _, s, _, _, _, _, _, _, rt, ht, ct,
    _, _, _, _, _, _, _, _⟩
  cases s <;> cases rt <;> cases ht <;> cases ct <;>
    first
    | exact absurd hb Bool.false_ne_true
    | simp [EventId.IsRunning]

/-- Witness of C14: a fresh link that got ActiveOpen is reachable; it is in OPN_SNT
with the retry timer pending and the two other timers not pending. -/
theorem timer_invariant_witness :
    Reachable (MLMEActivePeerLinkOpen (PeerLink.PeerLink 0 0)) ∧
    (MLMEActivePeerLinkOpen (PeerLink.PeerLink 0 0)).m_state = OPN_SNT ∧
    (EventId.IsRunning (MLMEActivePeerLinkOpen (PeerLink.PeerLink 0 0)).m_retryTimer = true ↔
      ((MLMEActivePeerLinkOpen (PeerLink.PeerLink 0 0)).m_state = OPN_SNT ∨
        (MLMEActivePeerLinkOpen (PeerLink.PeerLink 0 0)).m_state = OPN_RCVD)) ∧
    ¬ (EventId.IsRunning (MLMEActivePeerLinkOpen (PeerLink.PeerLink 0 0)).m_retryTimer = true ∧
      EventId.IsRunning (MLMEActivePeerLinkOpen (PeerLink.PeerLink 0 0)).m_confirmTimer = true) :=
  have hr : Reachable (MLMEActivePeerLinkOpen (PeerLink.PeerLink 0 0)) :=
    ⟨0, 0, [Call.MLMEActivePeerLinkOpen], rfl⟩
  ⟨hr, rfl, (timer_invariant _ hr).1, (timer_invariant _ hr).2.2.2.1⟩

/-! ### The ETX tracker -/

/-- The test that Lpp10bMapToCnt makes on slot `j` is the test of bit `j`. -/
theorem and_one_shiftLeft_ne_zero (x j : Nat) :
    (x &&& (0x0001 <<< j) ≠ 0) ↔ x.testBit j = true := by
  rw [Nat.one_shiftLeft]
  constructor
  · intro h
    by_contra hb
    apply h
    apply Nat.eq_of_testBit_eq
    intro i
    rw [Nat.testBit_and, Nat.testBit_two_pow, Nat.zero_testBit]
    by_cases hji : j = i
    · subst hji
      simp [hb]
    · simp [hji]
  · intro hb h
    have := congrArg (fun y => y.testBit j) h
    simp only [Nat.testBit_and, Nat.testBit_two_pow_self, Nat.zero_testBit, hb] at this
    exact absurd this (by decide)

/-- The next time stamp is one of the twelve slots. -/
theorem CalculateNextLppTimeStamp_le (t : Nat) : CalculateNextLppTimeStamp t ≤ 11 := by
  unfold CalculateNextLppTimeStamp
  simp only
  split <;> omega

/-- From one of the twelve slots the next time stamp is the next slot, cyclically. -/
theorem CalculateNextLppTimeStamp_eq (t : Nat) (ht : t ≤ 11) :
    CalculateNextLppTimeStamp t = (t + 1) % 12 := by
  unfold CalculateNextLppTimeStamp
  simp only
  split <;> omega

/-- The loop of Lpp10bMapToCnt over a list of slots counts the set bits at the slots
it does not skip; the uint8_t counter does not wrap while the list is short. -/
theorem Lpp10bMapToCnt_loop (x t n : Nat) (L : List Nat) (c : Nat) (h : c + L.length < 256) :
    L.foldl
      (fun (lpp : Nat) (j : Nat) =>
        if j ≠ t ∧ j ≠ n then
          (lpp + (if x &&& (0x0001 <<< j) ≠ 0 then 1 else 0)) % 256
        else
          lpp)
      c
    = c + L.countP (fun j => decide (j ≠ t ∧ j ≠ n) && x.testBit j) := by
  induction L generalizing c with
  | nil => simp
  | cons j L ih =>
    rw [List.foldl_cons, List.countP_cons]
    rw [List.length_cons] at h
    have hb : (if x &&& (0x0001 <<< j) ≠ 0 then 1 else 0) = (if x.testBit j = true then 1 else 0) :=
      if_congr (and_one_shiftLeft_ne_zero x j) rfl rfl
    rw [hb]
    by_cases hp : j ≠ t ∧ j ≠ n
    · rw [if_pos hp]
      by_cases hx : x.testBit j = true
      · rw [if_pos hx, Nat.mod_eq_of_lt (by omega), ih _ (by omega)]
        simp [hp, hx]
        omega
      · rw [if_neg hx, Nat.add_zero, Nat.mod_eq_of_lt (by omega), ih _ (by omega)]
        simp [hx]
    · rw [if_neg hp, ih _ (by omega)]
      simp [hp]

/-- The forward count is the number of set bits among the slots 0..11 other than the
current slot and the one that CalculateNextLppTimeStamp gives for it. -/
theorem Lpp10bMapToCnt_eq (x : Nat) (e : NeighborEtx) :
    Lpp10bMapToCnt x e = (List.range 12).countP (fun j =>
      decide (j ≠ e.m_lppTimeStamp ∧ j ≠ CalculateNextLppTimeStamp e.m_lppTimeStamp)
        && x.testBit j) := by
  unfold Lpp10bMapToCnt
  rw [Lpp10bMapToCnt_loop x _ _ _ 0 (by simp), Nat.zero_add]

/-- With the time stamp among the twelve slots, the forward count is the number of
set bits among the counted slots. -/
theorem Lpp10bMapToCnt_counted (x : Nat) (e : NeighborEtx) (ht : e.m_lppTimeStamp ≤ 11) :
    Lpp10bMapToCnt x e
      = (List.range 12).countP (fun j => countedSlot e.m_lppTimeStamp j && x.testBit j) := by
  rw [Lpp10bMapToCnt_eq, CalculateNextLppTimeStamp_eq _ ht]
  rfl

/-- Ten of the twelve slots are counted. -/
theorem countedSlot_count (t : Nat) (ht : t ≤ 11) :
    (List.range 12).countP (countedSlot t) = 10 := by
  interval_cases t <;> rfl

/-- The forward count is at most 10. -/
theorem Lpp10bMapToCnt_le (x : Nat) (e : NeighborEtx) (ht : e.m_lppTimeStamp ≤ 11) :
    Lpp10bMapToCnt x e ≤ 10 := by
  rw [Lpp10bMapToCnt_counted x e ht, ← countedSlot_count _ ht]
  apply List.countP_mono_left
  intro j _ h
  simp only [Bool.and_eq_true] at h
  exact h.1

/-- The bits that the mask of slot `s` keeps: those of the slots 0..11 other than
`s`. -/
theorem clearMask_testBit (s i : Nat) :
    (clearMask s).testBit i = decide (i < 12 ∧ i ≠ s) := by
  unfold clearMask
  have h32 : (0xffffffff : Nat) = 2 ^ 32 - 1 := by norm_num
  have h12 : (0x0FFF : Nat) = 2 ^ 12 - 1 := by norm_num
  have h16 : (65536 : Nat) = 2 ^ 16 := by norm_num
  rw [h32, h12, h16, Nat.testBit_mod_two_pow, Nat.testBit_and, Nat.testBit_xor,
    Nat.one_shiftLeft, Nat.testBit_two_pow, Nat.testBit_two_pow_sub_one,
    Nat.testBit_two_pow_sub_one]
  by_cases h1 : i < 12
  · have h4 : i < 16 := by omega
    have h5 : i < 32 := by omega
    by_cases h2 : s = i
    · subst h2
      simp [h1, h4, h5]
    · have h3 : i ≠ s := fun h => h2 h.symm
      simp [h1, h2, h3, h4, h5]
  · simp [h1]


/-- What GotoNextTimeStampAndClearOldest does, entry by entry: the time stamp moves
on and every stored map is masked with the mask of the slot after the new time
stamp. -/
theorem GotoNextTimeStampAndClearOldest_eq (e : NeighborEtx) :
    GotoNextTimeStampAndClearOldest e =
      { m_lppTimeStamp := CalculateNextLppTimeStamp e.m_lppTimeStamp
        m_neighborEtx := fun addr =>
          (e.m_neighborEtx addr).map fun etx =>
            { etx with
              m_lppMyCnt10bMap := etx.m_lppMyCnt10bMap &&&
                clearMask (CalculateNextLppTimeStamp
                  (CalculateNextLppTimeStamp e.m_lppTimeStamp)) } } :=
  rfl

/-- The tracker after `k` calls of GotoNextTimeStampAndClearOldest: the time stamp
has moved on `k` times and every stored map has been masked `k` times, the call
number `j` (from 0) clearing the slot `j + 2` steps after the first time stamp. -/
theorem GotoNextTimeStampAndClearOldest_iterate (k : Nat) (e : NeighborEtx) :
    GotoNextTimeStampAndClearOldest^[k] e =
      { m_lppTimeStamp := CalculateNextLppTimeStamp^[k] e.m_lppTimeStamp
        m_neighborEtx := fun addr =>
          (e.m_neighborEtx addr).map fun etx =>
            { etx with
              m_lppMyCnt10bMap := (List.range k).foldl
                (fun m j => m &&& clearMask (CalculateNextLppTimeStamp^[j + 2] e.m_lppTimeStamp))
                etx.m_lppMyCnt10bMap } } := by
  induction k with
  | zero =>
    cases e
    simp [Function.iterate_zero]
  | succ k ih =>
    rw [Function.iterate_succ_apply', ih, GotoNextTimeStampAndClearOldest_eq]
    simp only [List.range_succ, List.foldl_append, List.foldl_cons, List.foldl_nil,
      Function.iterate_succ_apply', Option.map_map]
    rfl


/-- On a quotient of natural numbers `round` is a division of natural numbers. -/
theorem math_round_div (a n : Nat) (hn : 0 < n) :
    math_round ((a : ℚ) / (n : ℚ)) = (((2 * a + n) / (2 * n) : Nat) : Int) := by
  unfold math_round
  have hq : (0 : ℚ) ≤ (a : ℚ) / (n : ℚ) := by positivity
  rw [if_pos hq]
  have hn0 : (n : ℚ) ≠ 0 := by exact_mod_cast hn.ne'
  have : (a : ℚ) / (n : ℚ) + 1 / 2 = (((2 * a + n : Nat) : Int) : ℚ) / ((2 * n : Nat) : ℚ) := by
    push_cast
    field_simp
    ring
  rw [this, Rat.floor_intCast_div_natCast]
  norm_cast

/-- The cost computed from a forward count and a reverse count that are not 0, as a
division of natural numbers. -/
theorem CalculateBinaryShiftedEtx_eq (etx : NeighborEtx.Etx) (e : NeighborEtx)
    (hf : Lpp10bMapToCnt etx.m_lppMyCnt10bMap e ≠ 0) (hr : etx.m_lppReverse ≠ 0) :
    CalculateBinaryShiftedEtx etx e
      = (200000 + Lpp10bMapToCnt etx.m_lppMyCnt10bMap e * etx.m_lppReverse)
        / (2 * (Lpp10bMapToCnt etx.m_lppMyCnt10bMap e * etx.m_lppReverse)) := by
  unfold CalculateBinaryShiftedEtx
  simp only
  rw [if_pos ⟨hf, hr⟩]
  have hn : 0 < Lpp10bMapToCnt etx.m_lppMyCnt10bMap e * etx.m_lppReverse :=
    Nat.mul_pos (Nat.pos_of_ne_zero hf) (Nat.pos_of_ne_zero hr)
  have h := math_round_div 100000 _ hn
  rw [show ((100000 : Nat) : ℚ) = 100000 by norm_num] at h
  rw [h, Int.toNat_ofNat]
  apply Nat.mod_eq_of_lt
  generalize Lpp10bMapToCnt etx.m_lppMyCnt10bMap e * etx.m_lppReverse = n at hn
  exact Nat.div_lt_of_lt_mul (by omega)


/-- C23. The cost that GetEtxForNeighbor returns for a neighbour is the sentinel
200000 when the neighbour was never recorded, and also when its forward count or
its stored reverse count is 0.  Otherwise it is round (100000 / (forward count *
reverse count)), the quotient being exact: the integer r with r - 1/2 <= quotient <
r + 1/2, so that a half goes away from zero.  Forward count 10 and reverse count 10
give 1000, as on the example tracker; forward count 8 and reverse count 8 give
1563, the quotient being 1562.5. -/
theorem etx_cost (addr : Mac48Address) (e : NeighborEtx) :
    (e.m_neighborEtx addr = none → GetEtxForNeighbor addr e = 200000) ∧
    (∀ etx, e.m_neighborEtx addr = some etx →
      (Lpp10bMapToCnt etx.m_lppMyCnt10bMap e = 0 ∨ etx.m_lppReverse = 0 →
        GetEtxForNeighbor addr e = 200000) ∧
      (Lpp10bMapToCnt etx.m_lppMyCnt10bMap e ≠ 0 → etx.m_lppReverse ≠ 0 →
        ((GetEtxForNeighbor addr e : Nat) : Int)
          = math_round (100000 /
              ((Lpp10bMapToCnt etx.m_lppMyCnt10bMap e * etx.m_lppReverse : Nat) : ℚ)) ∧
        ((GetEtxForNeighbor addr e : Nat) : ℚ) - 1 / 2
          ≤ 100000 / ((Lpp10bMapToCnt etx.m_lppMyCnt10bMap e * etx.m_lppReverse : Nat) : ℚ) ∧
        (100000 : ℚ) / ((Lpp10bMapToCnt etx.m_lppMyCnt10bMap e * etx.m_lppReverse : Nat) : ℚ)
          < ((GetEtxForNeighbor addr e : Nat) : ℚ) + 1 / 2) ∧
      (Lpp10bMapToCnt etx.m_lppMyCnt10bMap e = 10 → etx.m_lppReverse = 10 →
        GetEtxForNeighbor addr e = 1000) ∧
      (Lpp10bMapToCnt etx.m_lppMyCnt10bMap e = 8 → etx.m_lppReverse = 8 →
        GetEtxForNeighbor addr e = 1563)) ∧
    GetEtxForNeighbor 5 exampleTracker = 1000 := by
  refine ⟨?_, ?_, ?_⟩
  · intro h
    unfold GetEtxForNeighbor
    rw [h]
    rfl
  · intro etx h
    have hg : GetEtxForNeighbor addr e = CalculateBinaryShiftedEtx etx e := by
      unfold GetEtxForNeighbor
      rw [h]
    refine ⟨?_, ?_, ?_, ?_⟩
    · intro hz
      rw [hg]
      unfold CalculateBinaryShiftedEtx
      simp only
      rw [if_neg (by
        intro hc
        rcases hz with hz | hz
        · exact hc.1 hz
        · exact hc.2 hz)]
      rfl
    · intro hf hr
      have hn : 0 < Lpp10bMapToCnt etx.m_lppMyCnt10bMap e * etx.m_lppReverse :=
        Nat.mul_pos (Nat.pos_of_ne_zero hf) (Nat.pos_of_ne_zero hr)
      rw [hg, CalculateBinaryShiftedEtx_eq etx e hf hr]
      generalize Lpp10bMapToCnt etx.m_lppMyCnt10bMap e * etx.m_lppReverse = n at hn
      have hm := math_round_div 100000 n hn
      rw [show ((100000 : Nat) : ℚ) = 100000 by norm_num] at hm
      have hn0 : (0 : ℚ) < (n : ℚ) := by exact_mod_cast hn
      have hd := Nat.div_add_mod (200000 + n) (2 * n)
      have hlt := Nat.mod_lt (200000 + n) (show 0 < 2 * n by omega)
      generalize (200000 + n) / (2 * n) = r at hd hlt hm ⊢
      generalize (200000 + n) % (2 * n) = m at hd hlt
      have hdq : (2 * (n : ℚ)) * (r : ℚ) + (m : ℚ) = 200000 + (n : ℚ) := by exact_mod_cast hd
      have hltq : (m : ℚ) < 2 * (n : ℚ) := by exact_mod_cast hlt
      have hm0 : (0 : ℚ) ≤ (m : ℚ) := by positivity
      refine ⟨by rw [hm], ?_, ?_⟩
      · rw [le_div_iff₀ hn0]
        nlinarith
      · rw [div_lt_iff₀ hn0]
        nlinarith
    · intro hf hr
      rw [hg, CalculateBinaryShiftedEtx_eq etx e (by rw [hf]; decide) (by rw [hr]; decide), hf, hr]
    · intro hf hr
      rw [hg, CalculateBinaryShiftedEtx_eq etx e (by rw [hf]; decide) (by rw [hr]; decide), hf, hr]
  · have h : exampleTracker.m_neighborEtx 5
        = some { m_lppMyCnt10bMap := 0x0FFC, m_lppReverse := 10 } := by decide
    have hc : Lpp10bMapToCnt 0x0FFC exampleTracker = 10 := by decide
    have hg : GetEtxForNeighbor 5 exampleTracker
        = CalculateBinaryShiftedEtx { m_lppMyCnt10bMap := 0x0FFC, m_lppReverse := 10 }
            exampleTracker := by
      unfold GetEtxForNeighbor
      rw [h]
    rw [hg, CalculateBinaryShiftedEtx_eq _ _ (by rw [hc]; decide) (by decide), hc]
    rfl


/-- C24. With the time stamp t among the slots 0..11, the forward count
Lpp10bMapToCnt of a map is the number of set bits among the slots 0..11 other than
t and (t + 1) mod 12.  The bits 12..15 are never counted: the count of a map is the
count of its 12 lowest bits, and two maps that agree on the slots 0..11 have the
same count.  The count never exceeds 10. -/
theorem forward_count (lpp10bMap : Nat) (e : NeighborEtx) (ht : e.m_lppTimeStamp ≤ 11) :
    Lpp10bMapToCnt lpp10bMap e
      = (List.range 12).countP (fun j =>
          decide (j ≠ e.m_lppTimeStamp ∧ j ≠ (e.m_lppTimeStamp + 1) % 12)
            && lpp10bMap.testBit j) ∧
    Lpp10bMapToCnt lpp10bMap e = Lpp10bMapToCnt (lpp10bMap % 4096) e ∧
    (∀ other : Nat, (∀ j, j < 12 → other.testBit j = lpp10bMap.testBit j) →
      Lpp10bMapToCnt other e = Lpp10bMapToCnt lpp10bMap e) ∧
    Lpp10bMapToCnt lpp10bMap e ≤ 10 := by
  have hcongr : ∀ other : Nat, (∀ j, j < 12 → other.testBit j = lpp10bMap.testBit j) →
      Lpp10bMapToCnt other e = Lpp10bMapToCnt lpp10bMap e := by
    intro other h
    rw [Lpp10bMapToCnt_eq, Lpp10bMapToCnt_eq]
    apply List.countP_congr
    intro j hj
    rw [h j (List.mem_range.mp hj)]
  refine ⟨Lpp10bMapToCnt_counted lpp10bMap e ht, ?_, hcongr, Lpp10bMapToCnt_le lpp10bMap e ht⟩
  refine (hcongr _ ?_).symm
  intro j hj
  rw [show (4096 : Nat) = 2 ^ 12 by norm_num, Nat.testBit_mod_two_pow]
  simp [hj]

/-- Witness of C24: at time stamp 0 the map with all 16 bits set has the forward
count 10, and the map 0xf003, whose set bits are the slots 0, 1 and 12..15, has the
forward count 0. -/
theorem forward_count_witness :
    exampleTracker.m_lppTimeStamp = 0 ∧
    Lpp10bMapToCnt 0xffff exampleTracker = 10 ∧
    Lpp10bMapToCnt 0xf003 exampleTracker = 0 ∧
    Lpp10bMapToCnt 0xffff exampleTracker ≤ 10 :=
  ⟨rfl, by decide, by decide, (forward_count 0xffff exampleTracker (by decide)).2.2.2⟩

/-- C25. UpdateNeighborEtx (addr, slot, rev) with slot among 0..11 returns true.
If addr is not tracked, afterwards it is tracked with the map 2 ^ slot, whose only
set bit is bit `slot`, and with the reverse count rev.  If addr is tracked,
afterwards its map is the old map OR (1 << slot), kept in 16 bits, which changes
nothing for a map that fits a uint16_t, and its reverse count is rev, the old value
playing no part.  The entries of the other addresses and the time stamp are
unchanged. -/
theorem update_neighbor_etx (addr : Mac48Address) (slot rev : Nat) (e : NeighborEtx)
    (hs : slot ≤ 11) :
    (UpdateNeighborEtx addr slot rev e).1 = true ∧
    (e.m_neighborEtx addr = none →
      (UpdateNeighborEtx addr slot rev e).2.m_neighborEtx addr
        = some { m_lppMyCnt10bMap := 2 ^ slot, m_lppReverse := rev } ∧
      ∀ i, (2 ^ slot).testBit i = decide (slot = i)) ∧
    (∀ old, e.m_neighborEtx addr = some old →
      (UpdateNeighborEtx addr slot rev e).2.m_neighborEtx addr
        = some { m_lppMyCnt10bMap := (old.m_lppMyCnt10bMap ||| (1 <<< slot)) % 65536,
                 m_lppReverse := rev } ∧
      (old.m_lppMyCnt10bMap < 65536 →
        (old.m_lppMyCnt10bMap ||| (1 <<< slot)) % 65536 = old.m_lppMyCnt10bMap ||| (1 <<< slot))) ∧
    (∀ a, a ≠ addr →
      (UpdateNeighborEtx addr slot rev e).2.m_neighborEtx a = e.m_neighborEtx a) ∧
    (UpdateNeighborEtx addr slot rev e).2.m_lppTimeStamp = e.m_lppTimeStamp := by
  have hpow : (0x0001 <<< slot) % 65536 = 2 ^ slot := by
    rw [Nat.one_shiftLeft]
    apply Nat.mod_eq_of_lt
    calc 2 ^ slot ≤ 2 ^ 11 := Nat.pow_le_pow_right (by norm_num) hs
      _ < 65536 := by norm_num
  cases h : e.m_neighborEtx addr with
  | none =>
    have hu : UpdateNeighborEtx addr slot rev e
        = (true, { e with m_neighborEtx := fun a =>
            if a = addr then some { m_lppMyCnt10bMap := (0x0001 <<< slot) % 65536, m_lppReverse := rev }
            else e.m_neighborEtx a }) := by
      unfold UpdateNeighborEtx
      rw [h]
    rw [hu]
    refine ⟨rfl, ?_, ?_, ?_, rfl⟩
    · intro _
      refine ⟨?_, fun i => Nat.testBit_two_pow⟩
      simp only [hpow, ↓reduceIte]
    · intro old ho
      exact absurd ho (by simp)
    · intro a ha
      simp only [if_neg ha]
  | some i =>
    have hu : UpdateNeighborEtx addr slot rev e
        = (true, { e with m_neighborEtx := fun a =>
            if a = addr then some ⟨(i.m_lppMyCnt10bMap ||| (0x0001 <<< slot)) % 65536, rev⟩
            else e.m_neighborEtx a }) := by
      unfold UpdateNeighborEtx
      rw [h]
    rw [hu]
    refine ⟨rfl, ?_, ?_, ?_, rfl⟩
    · intro hn
      exact absurd hn (by simp)
    · intro old ho
      injection ho with ho
      subst ho
      refine ⟨?_, ?_⟩
      · simp only [↓reduceIte]
      · intro hlt
        apply Nat.mod_eq_of_lt
        rw [show (65536 : Nat) = 2 ^ 16 by norm_num]
        apply Nat.or_lt_two_pow
        · exact hlt
        · rw [Nat.one_shiftLeft]
          exact Nat.pow_lt_pow_right (by norm_num) (by omega)
    · intro a ha
      simp only [if_neg ha]


/-- Witness of C25: on a fresh tracker a probe of the neighbour 5 in slot 3 with the
reverse count 7 gives the entry (8, 7); a second probe in slot 4 with the reverse
count 9 gives (24, 9), not a reverse count of 16. -/
theorem update_neighbor_etx_witness :
    (3 : Nat) ≤ 11 ∧
    (UpdateNeighborEtx 5 3 7 NeighborEtx.NeighborEtx).1 = true ∧
    (UpdateNeighborEtx 5 3 7 NeighborEtx.NeighborEtx).2.m_neighborEtx 5
      = some { m_lppMyCnt10bMap := 8, m_lppReverse := 7 } ∧
    (UpdateNeighborEtx 5 4 9 (UpdateNeighborEtx 5 3 7 NeighborEtx.NeighborEtx).2).2.m_neighborEtx 5
      = some { m_lppMyCnt10bMap := 24, m_lppReverse := 9 } :=
  ⟨by decide,
   (update_neighbor_etx 5 3 7 NeighborEtx.NeighborEtx (by decide)).1,
   ((update_neighbor_etx 5 3 7 NeighborEtx.NeighborEtx (by decide)).2.1 rfl).1,
   ((update_neighbor_etx 5 4 9 (UpdateNeighborEtx 5 3 7 NeighborEtx.NeighborEtx).2
      (by decide)).2.2.1 { m_lppMyCnt10bMap := 8, m_lppReverse := 7 } (by decide)).1⟩

/-- C26 fails as stated.  The example tracker is at time stamp 0 and holds the map
0x0FFF for the neighbour 5.  After GotoNextTimeStampAndClearOldest the time stamp
is 1 and the map is 0x0FFB: the slot two positions behind the new time stamp, (1 -
2) mod 12 = 11, is still set, and the slot that has been cleared is 2. -/
theorem goto_next_keeps_slot_two_behind :
    exampleTrackerFull.m_lppTimeStamp = 0 ∧
    exampleTrackerFull.m_neighborEtx 5 = some { m_lppMyCnt10bMap := 0x0FFF, m_lppReverse := 10 } ∧
    (GotoNextTimeStampAndClearOldest exampleTrackerFull).m_lppTimeStamp = 1 ∧
    (GotoNextTimeStampAndClearOldest exampleTrackerFull).m_neighborEtx 5
      = some { m_lppMyCnt10bMap := 0x0FFB, m_lppReverse := 10 } ∧
    (1 + 12 - 2) % 12 = 11 ∧
    Nat.testBit 0x0FFB 11 = true ∧
    Nat.testBit 0x0FFB 2 = false := by
  decide

/-- C26, amended.  GotoNextTimeStampAndClearOldest leaves the time stamp among the
slots 0..11, at (t + 1) mod 12 when it was t among 0..11, and then, for every
tracked neighbour, clears the bit of the slot that follows the new time stamp
cyclically, (t_new + 1) mod 12; the bit of the slot two positions behind the new
time stamp, (t_new - 2) mod 12, keeps its value. -/
theorem goto_next_clears_following_slot (e : NeighborEtx) (addr : Mac48Address)
    (etx : NeighborEtx.Etx) (h : e.m_neighborEtx addr = some etx) :
    (GotoNextTimeStampAndClearOldest e).m_lppTimeStamp ≤ 11 ∧
    (e.m_lppTimeStamp ≤ 11 →
      (GotoNextTimeStampAndClearOldest e).m_lppTimeStamp = (e.m_lppTimeStamp + 1) % 12) ∧
    ∃ etx', (GotoNextTimeStampAndClearOldest e).m_neighborEtx addr = some etx' ∧
      etx'.m_lppMyCnt10bMap.testBit
        (((GotoNextTimeStampAndClearOldest e).m_lppTimeStamp + 1) % 12) = false ∧
      etx'.m_lppMyCnt10bMap.testBit
        (((GotoNextTimeStampAndClearOldest e).m_lppTimeStamp + 12 - 2) % 12)
        = etx.m_lppMyCnt10bMap.testBit
            (((GotoNextTimeStampAndClearOldest e).m_lppTimeStamp + 12 - 2) % 12) := by
  rw [GotoNextTimeStampAndClearOldest_eq]
  have hc := CalculateNextLppTimeStamp_le e.m_lppTimeStamp
  refine ⟨hc, fun ht => CalculateNextLppTimeStamp_eq _ ht, _, by simp only [h]; rfl, ?_, ?_⟩
  · simp only
    rw [Nat.testBit_and, clearMask_testBit, CalculateNextLppTimeStamp_eq _ hc]
    simp
  · simp only
    rw [Nat.testBit_and, clearMask_testBit, CalculateNextLppTimeStamp_eq _ hc]
    generalize CalculateNextLppTimeStamp e.m_lppTimeStamp = c at hc
    have h1 : (c + 12 - 2) % 12 < 12 := Nat.mod_lt _ (by norm_num)
    have h2 : (c + 12 - 2) % 12 ≠ (c + 1) % 12 := by omega
    rw [decide_eq_true ⟨h1, h2⟩, Bool.and_true]

/-- Witness of C26, amended: the example tracker, at time stamp 0 with the
neighbour 5 tracked. -/
theorem goto_next_clears_following_slot_witness :
    exampleTrackerFull.m_neighborEtx 5 = some { m_lppMyCnt10bMap := 0x0FFF, m_lppReverse := 10 } ∧
    (GotoNextTimeStampAndClearOldest exampleTrackerFull).m_lppTimeStamp ≤ 11 ∧
    (exampleTrackerFull.m_lppTimeStamp ≤ 11 →
      (GotoNextTimeStampAndClearOldest exampleTrackerFull).m_lppTimeStamp
        = (exampleTrackerFull.m_lppTimeStamp + 1) % 12) :=
  ⟨by decide,
   (goto_next_clears_following_slot exampleTrackerFull 5
      { m_lppMyCnt10bMap := 0x0FFF, m_lppReverse := 10 } (by decide)).1,
   (goto_next_clears_following_slot exampleTrackerFull 5
      { m_lppMyCnt10bMap := 0x0FFF, m_lppReverse := 10 } (by decide)).2.1⟩


/-- C27. After GotoNextTimeStampAndClearOldest, with c the new time stamp, c is
among 0..11, no neighbour has been added or removed, and for every tracked
neighbour: the reverse count is unchanged, the bit of the slot (c + 1) mod 12 is
clear, every other bit among the slots 0..11 has its previous value, the bits from
12 on are clear, and the forward count of the new map in the new tracker counts the
set bits of the slots 0..11 other than c and (c + 1) mod 12: the new current slot
and the cleared slot are the two slots left out. -/
theorem goto_next_frame (e : NeighborEtx) (addr : Mac48Address)
    (etx : NeighborEtx.Etx) (h : e.m_neighborEtx addr = some etx) :
    (GotoNextTimeStampAndClearOldest e).m_lppTimeStamp ≤ 11 ∧
    (∀ a, ((GotoNextTimeStampAndClearOldest e).m_neighborEtx a).isSome
      = (e.m_neighborEtx a).isSome) ∧
    ∃ etx', (GotoNextTimeStampAndClearOldest e).m_neighborEtx addr = some etx' ∧
      etx'.m_lppReverse = etx.m_lppReverse ∧
      etx'.m_lppMyCnt10bMap.testBit
        (((GotoNextTimeStampAndClearOldest e).m_lppTimeStamp + 1) % 12) = false ∧
      (∀ i, i < 12 → i ≠ ((GotoNextTimeStampAndClearOldest e).m_lppTimeStamp + 1) % 12 →
        etx'.m_lppMyCnt10bMap.testBit i = etx.m_lppMyCnt10bMap.testBit i) ∧
      (∀ i, 12 ≤ i → etx'.m_lppMyCnt10bMap.testBit i = false) ∧
      Lpp10bMapToCnt etx'.m_lppMyCnt10bMap (GotoNextTimeStampAndClearOldest e)
        = (List.range 12).countP (fun j =>
            decide (j ≠ (GotoNextTimeStampAndClearOldest e).m_lppTimeStamp ∧
              j ≠ ((GotoNextTimeStampAndClearOldest e).m_lppTimeStamp + 1) % 12)
            && etx'.m_lppMyCnt10bMap.testBit j) := by
  have hc := CalculateNextLppTimeStamp_le e.m_lppTimeStamp
  have hcount := fun x => Lpp10bMapToCnt_counted x (GotoNextTimeStampAndClearOldest e) hc
  rw [GotoNextTimeStampAndClearOldest_eq] at hcount ⊢
  refine ⟨hc, ?_,
    { m_lppMyCnt10bMap := etx.m_lppMyCnt10bMap &&&
        clearMask (CalculateNextLppTimeStamp (CalculateNextLppTimeStamp e.m_lppTimeStamp))
      m_lppReverse := etx.m_lppReverse },
    by simp only [h]; rfl, rfl, ?_, ?_, ?_, hcount _⟩
  · intro a
    simp only [Option.isSome_map']
  · simp only
    rw [Nat.testBit_and, clearMask_testBit, CalculateNextLppTimeStamp_eq _ hc]
    simp
  · intro i hi hne
    simp only at hne ⊢
    rw [Nat.testBit_and, clearMask_testBit, CalculateNextLppTimeStamp_eq _ hc,
      decide_eq_true ⟨hi, hne⟩, Bool.and_true]
  · intro i hi
    simp only
    rw [Nat.testBit_and, clearMask_testBit,
      decide_eq_false (fun hh => absurd hh.1 (by omega)), Bool.and_false]

/-- Witness of C27: the example tracker holds the map 0x0FFF for the neighbour 5;
after the call it holds 0x0FFB with the same reverse count, and the same neighbours
are tracked. -/
theorem goto_next_frame_witness :
    exampleTrackerFull.m_neighborEtx 5 = some { m_lppMyCnt10bMap := 0x0FFF, m_lppReverse := 10 } ∧
    (GotoNextTimeStampAndClearOldest exampleTrackerFull).m_neighborEtx 5
      = some { m_lppMyCnt10bMap := 0x0FFB, m_lppReverse := 10 } ∧
    (GotoNextTimeStampAndClearOldest exampleTrackerFull).m_lppTimeStamp ≤ 11 ∧
    (∀ a, ((GotoNextTimeStampAndClearOldest exampleTrackerFull).m_neighborEtx a).isSome
      = (exampleTrackerFull.m_neighborEtx a).isSome) :=
  ⟨by decide, by decide,
   (goto_next_frame exampleTrackerFull 5
      { m_lppMyCnt10bMap := 0x0FFF, m_lppReverse := 10 } (by decide)).1,
   (goto_next_frame exampleTrackerFull 5
      { m_lppMyCnt10bMap := 0x0FFF, m_lppReverse := 10 } (by decide)).2.1⟩


/-- A bit survives a sequence of maskings when it is set in every mask. -/
theorem foldl_and_testBit (f : Nat → Nat) (L : List Nat) (x i : Nat) :
    (L.foldl (fun m j => m &&& f j) x).testBit i
      = (x.testBit i && L.all (fun j => (f j).testBit i)) := by
  induction L generalizing x with
  | nil => simp
  | cons j L ih =>
    rw [List.foldl_cons, ih, Nat.testBit_and, List.all_cons, Bool.and_assoc]

/-- Twelve steps from one of the twelve slots pass every slot. -/
theorem twelve_steps_pass_every_slot :
    ∀ c, c < 12 → ∀ i, i < 12 →
      (List.range 12).any (fun j => decide (CalculateNextLppTimeStamp^[j + 1] c = i)) = true := by
  decide

/-- Twelve consecutive maskings, starting from any time stamp, leave no bit set. -/
theorem twelve_masks_clear (x t : Nat) :
    (List.range 12).foldl
      (fun m j => m &&& clearMask (CalculateNextLppTimeStamp^[j + 2] t)) x = 0 := by
  apply Nat.eq_of_testBit_eq
  intro i
  rw [Nat.zero_testBit, foldl_and_testBit (fun j => clearMask (CalculateNextLppTimeStamp^[j + 2] t))]
  have hall : (List.range 12).all
      (fun j => (clearMask (CalculateNextLppTimeStamp^[j + 2] t)).testBit i) = false := by
    rw [List.all_eq_false]
    by_cases h12 : i < 12
    · have ht : CalculateNextLppTimeStamp t < 12 :=
        Nat.lt_succ_of_le (CalculateNextLppTimeStamp_le t)
      have := twelve_steps_pass_every_slot _ ht i h12
      rw [List.any_eq_true] at this
      obtain ⟨j, hj, hji⟩ := this
      refine ⟨j, hj, ?_⟩
      have hji : CalculateNextLppTimeStamp^[j + 2] t = i := of_decide_eq_true hji
      rw [clearMask_testBit, hji]
      simp
    · refine ⟨0, by simp, ?_⟩
      rw [clearMask_testBit]
      simp [h12]
  rw [hall, Bool.and_false]

/-- C28 fails as stated.  The example tracker holds the map 0x0FFF for the neighbour
5; after 12 consecutive calls of GotoNextTimeStampAndClearOldest it holds the map
0, not 0x0FFF. -/
theorem twelve_advances_do_not_restore :
    exampleTrackerFull.m_neighborEtx 5 = some { m_lppMyCnt10bMap := 0x0FFF, m_lppReverse := 10 } ∧
    (GotoNextTimeStampAndClearOldest^[12] exampleTrackerFull).m_neighborEtx 5
      = some { m_lppMyCnt10bMap := 0, m_lppReverse := 10 } ∧
    (GotoNextTimeStampAndClearOldest^[12] exampleTrackerFull).m_neighborEtx 5
      ≠ exampleTrackerFull.m_neighborEtx 5 := by
  decide

/-- C28, amended.  For every tracker state, 12 consecutive calls of
GotoNextTimeStampAndClearOldest leave every tracked neighbour with the forward map
0, whatever the map was before, and with the reverse count it had; no neighbour is
added or removed; the time stamp, when it was among 0..11, is back at its value
from before the 12 calls. -/
theorem twelve_advances_clear_maps (e : NeighborEtx) (addr : Mac48Address) :
    (GotoNextTimeStampAndClearOldest^[12] e).m_neighborEtx addr
      = (e.m_neighborEtx addr).map (fun etx => { etx with m_lppMyCnt10bMap := 0 }) ∧
    (e.m_lppTimeStamp ≤ 11 →
      (GotoNextTimeStampAndClearOldest^[12] e).m_lppTimeStamp = e.m_lppTimeStamp) := by
  rw [GotoNextTimeStampAndClearOldest_iterate]
  refine ⟨?_, ?_⟩
  · simp only [twelve_masks_clear]
  · intro ht
    simp only
    generalize e.m_lppTimeStamp = t at ht
    interval_cases t <;> rfl

/-- C29 fails as stated.  On a fresh tracker no address is in the neighbour map,
and GetEtxForNeighbor returns 200000 for the address 5, not 4294967295. -/
theorem unknown_neighbor_cost_is_not_uint32_max :
    NeighborEtx.NeighborEtx.m_neighborEtx 5 = none ∧
    GetEtxForNeighbor 5 NeighborEtx.NeighborEtx = 200000 ∧
    GetEtxForNeighbor 5 NeighborEtx.NeighborEtx ≠ 4294967295 := by
  decide

/-- C29, amended.  GetEtxForNeighbor returns ETX_MAX, which is 200000, for an
address that is not in the neighbour map. -/
theorem unknown_neighbor_cost (addr : Mac48Address) (e : NeighborEtx)
    (h : e.m_neighborEtx addr = none) :
    GetEtxForNeighbor addr e = ETX_MAX ∧ ETX_MAX = 200000 := by
  unfold GetEtxForNeighbor
  rw [h]
  exact ⟨rfl, rfl⟩

/-- Witness of C29, amended: the address 5 on a fresh tracker. -/
theorem unknown_neighbor_cost_witness :
    NeighborEtx.NeighborEtx.m_neighborEtx 5 = none ∧
    GetEtxForNeighbor 5 NeighborEtx.NeighborEtx = ETX_MAX ∧ ETX_MAX = 200000 :=
  ⟨rfl, unknown_neighbor_cost 5 NeighborEtx.NeighborEtx rfl⟩

/-! ### The airtime metric -/

/-- C30. Whenever the failure rate that CalculateMetric obtains for the peer is
exactly 1, it returns 0xFFFFFFFF, the largest value of a uint32_t: whatever the
mode, the receive power, the threshold, the coefficient, the square-root flag, the
test frame and the functions standing for pow and sqrt.  The assertion on the
failure rate is not reached, and no assertion is violated when the peer address is
not a group address. -/
theorem metric_of_failed_link (pow10 sqrt : ℚ → ℚ) (peerAddress : Mac48Address)
    (mac : MeshWifiInterfaceMac) (c : AirtimeLinkMetricCalculator)
    (h : obtainedFailAvg peerAddress mac c = 1) :
    (CalculateMetric pow10 sqrt peerAddress mac c).retval = 0xffffffff ∧
    (CalculateMetric pow10 sqrt peerAddress mac c).retval = 2 ^ 32 - 1 ∧
    (CalculateMetric pow10 sqrt peerAddress mac c).failedAsserts
      = (if Mac48Address.IsGroup peerAddress then [MetricAssert.peerAddressNotGroup] else []) := by
  unfold obtainedFailAvg at h
  unfold CalculateMetric
  simp only
  rw [if_pos h]
  refine ⟨rfl, rfl, ?_⟩
  cases Mac48Address.IsGroup peerAddress <;> rfl

/-- Witness of C30: a calculator with FerFromBeacon set and an interface whose
beacon-based failure average is 1. -/
theorem metric_of_failed_link_witness :
    obtainedFailAvg 2 (exampleMac 1 0 (-90))
      { AirtimeLinkMetricCalculator.AirtimeLinkMetricCalculator with m_useBeacon := true } = 1 ∧
    (CalculateMetric (fun _ => 2) (fun _ => 38) 2 (exampleMac 1 0 (-90))
      { AirtimeLinkMetricCalculator.AirtimeLinkMetricCalculator with m_useBeacon := true }).retval
      = 0xffffffff :=
  ⟨rfl, (metric_of_failed_link (fun _ => 2) (fun _ => 38) 2 (exampleMac 1 0 (-90))
      { AirtimeLinkMetricCalculator.AirtimeLinkMetricCalculator with m_useBeacon := true } rfl).1⟩

/-! ### The window of the beacon histories -/

/-- Appending missed beacons keeps a sequence within 32 bits. -/
theorem AddBeaconMissToSequence_iterate_lt (k x : Nat) (h : x < 2 ^ 32) :
    AddBeaconMissToSequence^[k] x < 2 ^ 32 := by
  cases k with
  | zero => exact h
  | succ k =>
    rw [AddBeaconMissToSequence_iterate]
    exact Nat.mod_lt _ (by norm_num)

/-- Appending received beacons keeps a sequence within 32 bits. -/
theorem AddBeaconReceptionToSequence_iterate_lt (k x : Nat) (h : x < 2 ^ 32) :
    AddBeaconReceptionToSequence^[k] x < 2 ^ 32 := by
  induction k with
  | zero => exact h
  | succ k ih =>
    rw [Function.iterate_succ_apply', AddBeaconReceptionToSequence_eq]
    omega

/-- UpdateBeaconReceived, when it returns, keeps the reverse history within 32
bits. -/
theorem UpdateBeaconReceived_reverse_lt (ind : Nat) (l l' : PeerLink)
    (h : UpdateBeaconReceived ind l = some l') (hr : l.m_beaconsOnLink.revBeacons < 2 ^ 32) :
    l'.m_beaconsOnLink.revBeacons < 2 ^ 32 := by
  unfold UpdateBeaconReceived at h
  simp only [Option.bind_eq_some] at h
  obtain ⟨l₁, h₁, h₂⟩ := h
  injection h₂ with h₂
  subst h₂
  unfold UpdateBeaconReceived.reverse at h₁
  cases hf : (UpdateBeaconReceived.start l).m_beaconTiming.find?
      (fun u => decide (u.aid ≠ 0 ∧ (UpdateBeaconReceived.start l).m_peerAssocId = u.aid)) with
  | some u =>
    simp only [hf] at h₁
    unfold UpdateBeaconReceived.entry at h₁
    cases hc : UpdateBeaconReceived.counts ((l.m_beaconIntervalTol * 1000) >>> 8 &&& 0xffff) u
        (UpdateBeaconReceived.start l) with
    | none =>
      rw [hc] at h₁
      exact absurd h₁ (by simp)
    | some c =>
      rw [hc] at h₁
      injection h₁ with h₁
      subst h₁
      exact AddBeaconMissToSequence_iterate_lt _ _
        (AddBeaconReceptionToSequence_iterate_lt _ _ hr)
  | none =>
    simp only [hf] at h₁
    by_cases hn : ¬ (UpdateBeaconReceived.start l).m_newLink = true
    · rw [if_pos hn] at h₁
      injection h₁ with h₁
      subst h₁
      exact AddBeaconMissToSequence_iterate_lt _ _ hr
    · rw [if_neg hn] at h₁
      injection h₁ with h₁
      subst h₁
      exact hr

/-- Every call keeps both beacon histories within 32 bits. -/
theorem runCall_history (c : Call) (l l' : PeerLink) (h : runCall c l = some l')
    (hi : historyFits l) : historyFits l' := by
  have hsm : ∀ (e : PeerEvent) (r : PmpReasonCode) (x : PeerLink),
      historyFits x → historyFits (StateMachine e r x) := by
    intro e r x hx
    unfold historyFits
    rw [(sameButMachine_fields _ _ (StateMachine_frame e r x)).2.2.2.2.2.1]
    exact hx
  cases c <;> simp only [runCall, Option.some.injEq] at h
  case SetPeerAddress a => subst h; exact hi
  case SetPeerMeshPointAddress a => subst h; exact hi
  case SetInterface a => subst h; exact hi
  case SetLocalLinkId a => subst h; exact hi
  case SetLocalAid a => subst h; exact hi
  case SetRetryTimeout a => subst h; exact hi
  case SetHoldingTimeout a => subst h; exact hi
  case SetConfirmTimeout a => subst h; exact hi
  case SetMaxRetries n =>
    split at h
    · injection h with h; subst h; exact hi
    · exact absurd h (by simp)
  case SetMaxBeaconLoss n =>
    split at h
    · injection h with h; subst h; exact hi
    · exact absurd h (by simp)
  case SetMaxPacketFailure n =>
    split at h
    · injection h with h; subst h; exact hi
    · exact absurd h (by simp)
  case SetBeaconWinSize n =>
    split at h
    · injection h with h; subst h; exact hi
    · exact absurd h (by simp)
  case SetBeaconInformation a b =>
    subst h
    unfold SetBeaconInformation NS_ASSERT
    simp only
    split <;> exact hi
  case SetBeaconTimingElement a => subst h; exact hi
  case UpdateBeaconReceived ind =>
    refine ⟨?_, UpdateBeaconReceived_reverse_lt ind l l' h hi.2⟩
    rw [(UpdateBeaconReceived_forward ind l l' h).1, AddBeaconReceptionToSequence_eq]
    omega
  case MLMECancelPeerLink r => subst h; exact hsm _ _ _ hi
  case MLMEActivePeerLinkOpen => subst h; exact hsm _ _ _ hi
  case MLMEPeeringRequestReject => subst h; exact hsm _ _ _ hi
  case TransmissionSuccess => subst h; exact hi
  case TransmissionFailure =>
    subst h
    rw [TransmissionFailure_eq]
    split
    · exact hsm CNCL _ { l with m_packetFail := (l.m_packetFail + 1) % 65536 } hi
    · exact hi
  case Close a b r =>
    subst h
    rw [Close_eq]
    split
    · exact hi
    · split
      · exact hi
      · exact hsm CLS_ACPT _ { l with m_peerLinkId := a } hi
  case OpenAccept a conf mp =>
    subst h
    rw [OpenAccept_eq]
    exact hsm _ _ (frameBound _ _ _ _ _ l) hi
  case OpenReject a conf mp r =>
    subst h
    rw [OpenReject_eq]
    exact hsm _ _ (frameBound _ _ _ _ _ l) hi
  case ConfirmAccept a b aid conf mp =>
    subst h
    rw [ConfirmAccept_eq]
    split
    · exact hi
    · split
      · exact hi
      · exact hsm _ _ (frameBound _ _ _ _ _ l) hi
  case ConfirmReject a b conf mp r =>
    subst h
    rw [ConfirmReject_eq]
    split
    · exact hi
    · split
      · exact hi
      · exact hsm _ _ (frameBound _ _ _ _ _ l) hi
  case RetryTimerExpires =>
    unfold RetryTimerExpires at h
    cases hd : l.m_retryTimer with
    | none => rw [hd] at h; exact absurd h (by simp)
    | some d =>
      rw [hd] at h
      injection h with h
      subst h
      unfold RetryTimeout
      split
      · exact hsm _ _ { l with m_retryTimer := none } hi
      · exact hsm _ _ { l with m_retryTimer := none } hi
  case ConfirmTimerExpires =>
    unfold ConfirmTimerExpires at h
    cases hd : l.m_confirmTimer with
    | none => rw [hd] at h; exact absurd h (by simp)
    | some d =>
      rw [hd] at h
      injection h with h
      subst h
      exact hsm _ _ { l with m_confirmTimer := none } hi
  case HoldingTimerExpires =>
    unfold HoldingTimerExpires at h
    cases hd : l.m_holdingTimer with
    | none => rw [hd] at h; exact absurd h (by simp)
    | some d =>
      rw [hd] at h
      injection h with h
      subst h
      exact hsm _ _ { l with m_holdingTimer := none } hi
  case BeaconLossTimerExpires =>
    unfold BeaconLossTimerExpires at h
    cases hd : l.m_beaconLossTimer with
    | none => rw [hd] at h; exact absurd h (by simp)
    | some d =>
      rw [hd] at h
      injection h with h
      subst h
      exact hsm _ _ { l with m_beaconLossTimer := none } hi
  case BeaconMissedTimerExpires =>
    unfold BeaconMissedTimerExpires at h
    cases hd : l.m_beaconMissedTimer with
    | none => rw [hd] at h; exact absurd h (by simp)
    | some d =>
      rw [hd] at h
      injection h with h
      subst h
      rw [BeaconMissed_eq]
      refine ⟨?_, hi.2⟩
      show AddBeaconMissToSequence l.m_beaconsOnLink.fwdBeacons < 2 ^ 32
      rw [AddBeaconMissToSequence_eq]
      exact Nat.mod_lt _ (by norm_num)

/-- A run of calls keeps both beacon histories within 32 bits. -/
theorem runCalls_history (calls : List Call) (l l' : PeerLink) (h : runCalls calls l = some l')
    (hi : historyFits l) : historyFits l' := by
  induction calls generalizing l with
  | nil =>
    injection h with h
    subst h
    exact hi
  | cons c cs ih =>
    cases hc : runCall c l with
    | none =>
      have : runCalls (c :: cs) l = none := by
        show (runCall c l).bind (runCalls cs) = none
        rw [hc]
        rfl
      rw [this] at h
      exact absurd h (by simp)
    | some l₁ =>
      have : runCalls (c :: cs) l = runCalls cs l₁ := by
        show (runCall c l).bind (runCalls cs) = _
        rw [hc]
        rfl
      rw [this] at h
      exact ih l₁ h (runCall_history c l l₁ hc hi)

/-- For an entry of the timing record that stands for this station, the count of
missed beacons that the loop of UpdateBeaconReceived appends is capped at the
window. -/
theorem UpdateBeaconReceived.counts_le (tol : Nat) (u : IeBeaconTimingUnit) (l : PeerLink)
    (c : Int × Int) (h : UpdateBeaconReceived.counts tol u l = some c) :
    Int.toNat c.2 ≤ l.m_beaconWinSize := by
  unfold UpdateBeaconReceived.counts at h
  simp only at h
  by_cases hn : l.m_newLink = true
  · rw [if_pos hn] at h
    injection h with h
    subst h
    exact Nat.zero_le _
  · rw [if_neg hn] at h
    simp only [Option.bind_eq_some] at h
    obtain ⟨r, -, m, -, h⟩ := h
    injection h with h
    subst h
    simp only
    split <;> split <;> omega

/-- Without an entry for this station, UpdateBeaconReceived on a link that is not
new appends one missed beacon more than the counter of missed beacons holds,
whatever the window. -/
theorem UpdateBeaconReceived.reverse_no_entry (tol ind : Nat) (l : PeerLink)
    (hnew : l.m_newLink = false)
    (hfind : l.m_beaconTiming.find? (fun u => decide (u.aid ≠ 0 ∧ l.m_peerAssocId = u.aid))
      = none) :
    (UpdateBeaconReceived.reverse tol ind l).map (fun l' => l'.m_beaconsOnLink.revBeacons)
      = some (AddBeaconMissToSequence^[l.m_beaconsOnLink.missedBeacons + 1]
          l.m_beaconsOnLink.revBeacons) := by
  unfold UpdateBeaconReceived.reverse
  simp only [hfind, hnew]
  rfl

/-- C21, the code evaluated at the failing input.  The calls of exampleMissedCalls
lead from a fresh link to a link that is no longer new, with the window 20, the
counter of missed beacons at 20 and the reverse history 0xffffffff, and whose
timing record has no entry for this station.  UpdateBeaconReceived then returns
with the reverse history 0xffe00000, which is 0xffffffff with 21 missed beacons
appended: bit 20, the first one above the window, is clear as the 20 below it
are. -/
theorem update_without_entry_appends_beyond_window :
    (runCalls exampleMissedCalls (PeerLink.PeerLink 0 0)).map
      (fun l => (l.m_beaconWinSize, l.m_newLink, l.m_beaconTiming,
        l.m_beaconsOnLink.missedBeacons, l.m_beaconsOnLink.revBeacons))
      = some (20, false, [], 20, 0xffffffff) ∧
    (runCalls (exampleMissedCalls ++ [Call.UpdateBeaconReceived 0]) (PeerLink.PeerLink 0 0)).map
      (fun l => l.m_beaconsOnLink.revBeacons) = some 0xffe00000 ∧
    AddBeaconMissToSequence^[21] 0xffffffff = 0xffe00000 ∧
    AddBeaconMissToSequence^[20] 0xffffffff = 0xfff00000 ∧
    Nat.testBit 0xffe00000 20 = false :=
  ⟨rfl, rfl, rfl, rfl, rfl⟩

/-- C22 fails as stated.  A freshly constructed link has the window 20 and both
histories 0xffffffff, in which bit 20 is set; after the calls of exampleBeaconCalls,
which end with an UpdateBeaconReceived call, the window is 20 and bit 20 of both
histories is still set, and so is bit 20 of the forward history after a BeaconMissed
call on the fresh link. -/
theorem history_exceeds_window :
    (PeerLink.PeerLink 0 0).m_beaconWinSize = 20 ∧
    (PeerLink.PeerLink 0 0).m_beaconsOnLink.fwdBeacons.testBit 20 = true ∧
    (PeerLink.PeerLink 0 0).m_beaconsOnLink.revBeacons.testBit 20 = true ∧
    (runCalls exampleBeaconCalls (PeerLink.PeerLink 0 0)).map
      (fun l => (l.m_beaconWinSize, l.m_beaconsOnLink.fwdBeacons.testBit 20,
        l.m_beaconsOnLink.revBeacons.testBit 20)) = some (20, true, true) ∧
    (BeaconMissed (PeerLink.PeerLink 0 0)).m_beaconsOnLink.fwdBeacons.testBit 20 = true :=
  ⟨rfl, rfl, rfl, rfl, rfl⟩

/-- C22, amended.  In every state reached from a freshly constructed link by calls
of its member functions and firings of its timers, UpdateBeaconReceived and
BeaconMissed among them, each of the two shift registers holds at most the 32 most
recent bits: no bit at position 32 or above is set. -/
theorem history_within_32_bits (l : PeerLink) (h : Reachable l) :
    l.m_beaconsOnLink.fwdBeacons < 2 ^ 32 ∧ l.m_beaconsOnLink.revBeacons < 2 ^ 32 ∧
    (∀ i, 32 ≤ i → l.m_beaconsOnLink.fwdBeacons.testBit i = false) ∧
    (∀ i, 32 ≤ i → l.m_beaconsOnLink.revBeacons.testBit i = false) := by
  obtain ⟨i, p, calls, hrun⟩ := h
  have hb : historyFits l :=
    runCalls_history calls _ l hrun
      ⟨show (0xffffffff : Nat) < 2 ^ 32 by norm_num, show (0xffffffff : Nat) < 2 ^ 32 by norm_num⟩
  refine ⟨hb.1, hb.2, ?_, ?_⟩
  · intro i hi
    exact Nat.testBit_lt_two_pow (lt_of_lt_of_le hb.1 (Nat.pow_le_pow_right (by norm_num) hi))
  · intro i hi
    exact Nat.testBit_lt_two_pow (lt_of_lt_of_le hb.2 (Nat.pow_le_pow_right (by norm_num) hi))

/-- Witness of C22, amended: the link after MLMEActivePeerLinkOpen on a fresh link
is reachable; its forward history is 0xffffffff, and both histories are within 32
bits. -/
theorem history_within_32_bits_witness :
    Reachable (MLMEActivePeerLinkOpen (PeerLink.PeerLink 0 0)) ∧
    (MLMEActivePeerLinkOpen (PeerLink.PeerLink 0 0)).m_beaconsOnLink.fwdBeacons = 0xffffffff ∧
    (MLMEActivePeerLinkOpen (PeerLink.PeerLink 0 0)).m_beaconsOnLink.fwdBeacons < 2 ^ 32 ∧
    (MLMEActivePeerLinkOpen (PeerLink.PeerLink 0 0)).m_beaconsOnLink.revBeacons < 2 ^ 32 :=
  have hr : Reachable (MLMEActivePeerLinkOpen (PeerLink.PeerLink 0 0)) :=
    ⟨0, 0, [Call.MLMEActivePeerLinkOpen], rfl⟩
  ⟨hr, rfl, (history_within_32_bits _ hr).1, (history_within_32_bits _ hr).2.1⟩

/-! ### The formula of the airtime metric -/

/-- CalculateMetric for a failure rate other than 1, written with the terms of the
formula. -/
theorem CalculateMetric_eq (pow10 sqrt : ℚ → ℚ) (peerAddress : Mac48Address)
    (mac : MeshWifiInterfaceMac) (c : AirtimeLinkMetricCalculator)
    (h : obtainedFailAvg peerAddress mac c ≠ 1) :
    (CalculateMetric pow10 sqrt peerAddress mac c).retval =
      if c.m_useRootSquare then
        toUint32 ((((overheadMicroSeconds mac : ℚ)
            + 20 * sqrt (Time.GetMicroSeconds (testFrameTxDuration peerAddress mac c) : ℚ))
          / (1024 / 100) + powerCompensation pow10 peerAddress mac c)
          / (1 - obtainedFailAvg peerAddress mac c))
      else
        toUint32 (((airtimeMicroSeconds peerAddress mac c : ℚ) / (1024 / 100)
            + powerCompensation pow10 peerAddress mac c)
          / (1 - obtainedFailAvg peerAddress mac c)) := by
  unfold obtainedFailAvg at h
  unfold CalculateMetric obtainedFailAvg powerCompensation overheadMicroSeconds
    airtimeMicroSeconds testFrameTxDuration
  simp only
  rw [if_neg h]
  simp only [mul_one]

/-- The conversion to uint32_t of a value from 0 up to 2 ^ 32 is its integer
part. -/
theorem toUint32_spec (x : ℚ) (h0 : 0 ≤ x) (h32 : x < 4294967296) :
    (toUint32 x : ℚ) ≤ x ∧ x < (toUint32 x : ℚ) + 1 := by
  unfold toUint32
  have hf0 : 0 ≤ ⌊x⌋ := Int.floor_nonneg.mpr h0
  have hlt : ⌊x⌋ < 4294967296 := Int.floor_lt.mpr (by exact_mod_cast h32)
  have hn : (⌊x⌋.toNat : Int) = ⌊x⌋ := Int.toNat_of_nonneg hf0
  have hm : ⌊x⌋.toNat % 4294967296 = ⌊x⌋.toNat := Nat.mod_eq_of_lt (by omega)
  rw [hm]
  have hq : ((⌊x⌋.toNat : Nat) : ℚ) = ((⌊x⌋ : Int) : ℚ) := by
    rw [← Int.cast_natCast, hn]
  rw [hq]
  exact ⟨Int.floor_le x, Int.lt_floor_add_one x⟩

/-- The conversion to uint32_t of a quotient of natural numbers. -/
theorem toUint32_div (a b : Nat) :
    toUint32 ((a : ℚ) / (b : ℚ)) = (a / b) % 4294967296 := by
  unfold toUint32
  rw [Rat.floor_natCast_div_natCast]
  norm_cast


/-- CalculateMetric in the plain variant, for a failure rate other than 1. -/
theorem CalculateMetric_plain (pow10 sqrt : ℚ → ℚ) (peerAddress : Mac48Address)
    (mac : MeshWifiInterfaceMac) (c : AirtimeLinkMetricCalculator)
    (h : obtainedFailAvg peerAddress mac c ≠ 1) (hplain : c.m_useRootSquare = false) :
    (CalculateMetric pow10 sqrt peerAddress mac c).retval =
      toUint32 (((airtimeMicroSeconds peerAddress mac c : ℚ) / (1024 / 100)
          + powerCompensation pow10 peerAddress mac c)
        / (1 - obtainedFailAvg peerAddress mac c)) := by
  rw [CalculateMetric_eq pow10 sqrt peerAddress mac c h, hplain]
  rfl

/-- CalculateMetric in the square-root variant, for a failure rate other than 1. -/
theorem CalculateMetric_root (pow10 sqrt : ℚ → ℚ) (peerAddress : Mac48Address)
    (mac : MeshWifiInterfaceMac) (c : AirtimeLinkMetricCalculator)
    (h : obtainedFailAvg peerAddress mac c ≠ 1) (hroot : c.m_useRootSquare = true) :
    (CalculateMetric pow10 sqrt peerAddress mac c).retval =
      toUint32 ((((overheadMicroSeconds mac : ℚ)
          + 20 * sqrt (Time.GetMicroSeconds (testFrameTxDuration peerAddress mac c) : ℚ))
        / (1024 / 100) + powerCompensation pow10 peerAddress mac c)
        / (1 - obtainedFailAvg peerAddress mac c)) := by
  rw [CalculateMetric_eq pow10 sqrt peerAddress mac c h, hroot]
  rfl

/-- C31 fails as stated.  The example calculator is the plain variant with the
coefficient 1; the interface reports the failure rate 0, an overhead of 94
microseconds, a transmit duration of 1500 microseconds and a power budget of -103 +
96 = -7, so that the power compensation is 1 * (10 ^ 1 - 1) = 9.  CalculateMetric
returns 164, the integer part of 1594 / 10.24 + 9; the integer part of (94 + 1500 +
9) / 10.24 / (1 - 0), with the compensation inside the numerator, is 156. -/
theorem power_compensation_is_not_divided :
    exampleCalculator.m_useRootSquare = false ∧
    obtainedFailAvg 2 (exampleMac 0 0 (-103)) exampleCalculator = 0 ∧
    overheadMicroSeconds (exampleMac 0 0 (-103)) = 94 ∧
    Time.GetMicroSeconds (testFrameTxDuration 2 (exampleMac 0 0 (-103)) exampleCalculator) = 1500 ∧
    powerCompensation pow10AtIntegers 2 (exampleMac 0 0 (-103)) exampleCalculator = 9 ∧
    (CalculateMetric pow10AtIntegers sqrtAtSquares 2 (exampleMac 0 0 (-103))
      exampleCalculator).retval = 164 ∧
    toUint32 (((94 : ℚ) + 1500 + 9) / (1024 / 100) / (1 - 0)) = 156 := by
  have hpc : powerCompensation pow10AtIntegers 2 (exampleMac 0 0 (-103)) exampleCalculator = 9 := by
    unfold powerCompensation exampleMac pow10AtIntegers exampleCalculator
    norm_num
  have hf : obtainedFailAvg 2 (exampleMac 0 0 (-103)) exampleCalculator = 0 := rfl
  have ha : airtimeMicroSeconds 2 (exampleMac 0 0 (-103)) exampleCalculator = 1594 := by decide
  refine ⟨rfl, hf, by decide, by decide, hpc, ?_, ?_⟩
  · rw [CalculateMetric_plain _ _ _ _ _ (by rw [hf]; norm_num) rfl, hpc, hf, ha]
    have hq : ((((1594 : Int) : ℚ) / (1024 / 100) + 9) / (1 - 0))
        = ((168616 : Nat) : ℚ) / ((1024 : Nat) : ℚ) := by
      norm_num
    rw [hq, toUint32_div]
  · have hq : (((94 : ℚ) + 1500 + 9) / (1024 / 100) / (1 - 0))
        = ((160300 : Nat) : ℚ) / ((1024 : Nat) : ℚ) := by
      norm_num
    rw [hq, toUint32_div]

/-- C31, amended.  In the plain variant, for every failure rate f < 1,
CalculateMetric returns the conversion to uint32_t of ((overhead_time +
transmit_time) / 10.24 + powerCompensation) / (1 - f): the power compensation is
added after the division by 10.24.  When that value lies from 0 up to 2 ^ 32 the
result is its integer part.  The overhead PIFS + slot + EIFS-without-DIFS and the
transmit duration of the test frame are added as durations and the sum is taken in
whole microseconds. -/
theorem plain_metric (pow10 sqrt : ℚ → ℚ) (peerAddress : Mac48Address)
    (mac : MeshWifiInterfaceMac) (c : AirtimeLinkMetricCalculator)
    (hplain : c.m_useRootSquare = false) (hf : obtainedFailAvg peerAddress mac c < 1) :
    (CalculateMetric pow10 sqrt peerAddress mac c).retval =
      toUint32 (((airtimeMicroSeconds peerAddress mac c : ℚ) / (1024 / 100)
          + powerCompensation pow10 peerAddress mac c)
        / (1 - obtainedFailAvg peerAddress mac c)) ∧
    (0 ≤ ((airtimeMicroSeconds peerAddress mac c : ℚ) / (1024 / 100)
          + powerCompensation pow10 peerAddress mac c)
        / (1 - obtainedFailAvg peerAddress mac c) →
      ((airtimeMicroSeconds peerAddress mac c : ℚ) / (1024 / 100)
          + powerCompensation pow10 peerAddress mac c)
        / (1 - obtainedFailAvg peerAddress mac c) < 4294967296 →
      ((CalculateMetric pow10 sqrt peerAddress mac c).retval : ℚ)
        ≤ ((airtimeMicroSeconds peerAddress mac c : ℚ) / (1024 / 100)
          + powerCompensation pow10 peerAddress mac c)
        / (1 - obtainedFailAvg peerAddress mac c) ∧
      ((airtimeMicroSeconds peerAddress mac c : ℚ) / (1024 / 100)
          + powerCompensation pow10 peerAddress mac c)
        / (1 - obtainedFailAvg peerAddress mac c)
        < ((CalculateMetric pow10 sqrt peerAddress mac c).retval : ℚ) + 1) ∧
    airtimeMicroSeconds peerAddress mac c
      = Time.GetMicroSeconds (mac.GetPifs + mac.GetSlot + mac.GetEifsNoDifs
          + testFrameTxDuration peerAddress mac c) := by
  have h := CalculateMetric_plain pow10 sqrt peerAddress mac c (ne_of_lt hf) hplain
  refine ⟨h, ?_, rfl⟩
  intro h0 h32
  rw [h]
  exact toUint32_spec _ h0 h32

/-- Witness of C31, amended: the example calculator and the interface of the
counterexample, with the failure rate 0. -/
theorem plain_metric_witness :
    exampleCalculator.m_useRootSquare = false ∧
    obtainedFailAvg 2 (exampleMac 0 0 (-103)) exampleCalculator < 1 ∧
    (CalculateMetric pow10AtIntegers sqrtAtSquares 2 (exampleMac 0 0 (-103))
      exampleCalculator).retval =
      toUint32 (((airtimeMicroSeconds 2 (exampleMac 0 0 (-103)) exampleCalculator : ℚ) / (1024 / 100)
          + powerCompensation pow10AtIntegers 2 (exampleMac 0 0 (-103)) exampleCalculator)
        / (1 - obtainedFailAvg 2 (exampleMac 0 0 (-103)) exampleCalculator)) :=
  have hf : obtainedFailAvg 2 (exampleMac 0 0 (-103)) exampleCalculator < 1 := by
    rw [show obtainedFailAvg 2 (exampleMac 0 0 (-103)) exampleCalculator = 0 from rfl]
    norm_num
  ⟨rfl, hf, (plain_metric pow10AtIntegers sqrtAtSquares 2 (exampleMac 0 0 (-103))
    exampleCalculator rfl hf).1⟩


/-- C32 fails as stated.  The default calculator has the coefficient 0; the
interface reports the failure rate 0, an overhead of 94 microseconds and a transmit
duration of 1500 microseconds.  CalculateMetric returns 155, the integer part of
1594 / 10.24; the overhead alone divided by 10.24 and rounded down is 9. -/
theorem zero_failure_cost_includes_transmit_time :
    obtainedFailAvg 2 (exampleMac 0 0 (-90))
      AirtimeLinkMetricCalculator.AirtimeLinkMetricCalculator = 0 ∧
    powerCompensation pow10AtIntegers 2 (exampleMac 0 0 (-90))
      AirtimeLinkMetricCalculator.AirtimeLinkMetricCalculator = 0 ∧
    overheadMicroSeconds (exampleMac 0 0 (-90)) = 94 ∧
    Time.GetMicroSeconds (testFrameTxDuration 2 (exampleMac 0 0 (-90))
      AirtimeLinkMetricCalculator.AirtimeLinkMetricCalculator) = 1500 ∧
    (CalculateMetric pow10AtIntegers sqrtAtSquares 2 (exampleMac 0 0 (-90))
      AirtimeLinkMetricCalculator.AirtimeLinkMetricCalculator).retval = 155 ∧
    toUint32 ((94 : ℚ) / (1024 / 100)) = 9 := by
  have hpc : powerCompensation pow10AtIntegers 2 (exampleMac 0 0 (-90))
      AirtimeLinkMetricCalculator.AirtimeLinkMetricCalculator = 0 := by
    unfold powerCompensation exampleMac
    norm_num
  have hf : obtainedFailAvg 2 (exampleMac 0 0 (-90))
      AirtimeLinkMetricCalculator.AirtimeLinkMetricCalculator = 0 := rfl
  have ha : airtimeMicroSeconds 2 (exampleMac 0 0 (-90))
      AirtimeLinkMetricCalculator.AirtimeLinkMetricCalculator = 1594 := by decide
  refine ⟨hf, hpc, by decide, by decide, ?_, ?_⟩
  · rw [CalculateMetric_plain _ _ _ _ _ (by rw [hf]; norm_num) rfl, hpc, hf, ha]
    have hq : ((((1594 : Int) : ℚ) / (1024 / 100) + 0) / (1 - 0))
        = ((159400 : Nat) : ℚ) / ((1024 : Nat) : ℚ) := by
      norm_num
    rw [hq, toUint32_div]
  · have hq : ((94 : ℚ) / (1024 / 100)) = ((9400 : Nat) : ℚ) / ((1024 : Nat) : ℚ) := by
      norm_num
    rw [hq, toUint32_div]

/-- C32, amended.  With the failure rate 0 and the power compensation 0, the cost
that CalculateMetric returns in the plain variant is the overhead plus the transmit
duration of the test frame, in whole microseconds, divided by 10.24 and rounded
down: us * 100 / 1024 for us microseconds; in the square-root variant it is the
overhead plus 20 times the square root of the transmit duration in microseconds,
divided by 10.24 and rounded down. -/
theorem zero_failure_cost (pow10 sqrt : ℚ → ℚ) (peerAddress : Mac48Address)
    (mac : MeshWifiInterfaceMac) (c : AirtimeLinkMetricCalculator)
    (hf : obtainedFailAvg peerAddress mac c = 0)
    (hpc : powerCompensation pow10 peerAddress mac c = 0) :
    (c.m_useRootSquare = false →
      (CalculateMetric pow10 sqrt peerAddress mac c).retval
        = toUint32 ((Time.GetMicroSeconds (mac.GetPifs + mac.GetSlot + mac.GetEifsNoDifs
            + testFrameTxDuration peerAddress mac c) : ℚ) / (1024 / 100)) ∧
      (∀ us : Nat, Time.GetMicroSeconds (mac.GetPifs + mac.GetSlot + mac.GetEifsNoDifs
            + testFrameTxDuration peerAddress mac c) = (us : Int) →
        (CalculateMetric pow10 sqrt peerAddress mac c).retval = (us * 100 / 1024) % 4294967296)) ∧
    (c.m_useRootSquare = true →
      (CalculateMetric pow10 sqrt peerAddress mac c).retval
        = toUint32 (((overheadMicroSeconds mac : ℚ)
            + 20 * sqrt (Time.GetMicroSeconds (testFrameTxDuration peerAddress mac c) : ℚ))
          / (1024 / 100))) := by
  have h1 : obtainedFailAvg peerAddress mac c ≠ 1 := by
    rw [hf]
    norm_num
  refine ⟨fun hplain => ?_, fun hroot => ?_⟩
  · have h := CalculateMetric_plain pow10 sqrt peerAddress mac c h1 hplain
    rw [hpc, hf, add_zero, sub_zero, div_one] at h
    refine ⟨h, ?_⟩
    intro us hus
    rw [h]
    have ha : airtimeMicroSeconds peerAddress mac c = (us : Int) := hus
    rw [ha]
    have hq : (((us : Int) : ℚ) / (1024 / 100)) = ((us * 100 : Nat) : ℚ) / ((1024 : Nat) : ℚ) := by
      push_cast
      field_simp
    rw [hq, toUint32_div]
  · have h := CalculateMetric_root pow10 sqrt peerAddress mac c h1 hroot
    rw [hpc, hf, add_zero, sub_zero, div_one] at h
    exact h

/-- Witness of C32, amended: the default calculator and the interface of the
counterexample; 1594 microseconds give 1594 * 100 / 1024 = 155. -/
theorem zero_failure_cost_witness :
    obtainedFailAvg 2 (exampleMac 0 0 (-90))
      AirtimeLinkMetricCalculator.AirtimeLinkMetricCalculator = 0 ∧
    powerCompensation pow10AtIntegers 2 (exampleMac 0 0 (-90))
      AirtimeLinkMetricCalculator.AirtimeLinkMetricCalculator = 0 ∧
    (CalculateMetric pow10AtIntegers sqrtAtSquares 2 (exampleMac 0 0 (-90))
      AirtimeLinkMetricCalculator.AirtimeLinkMetricCalculator).retval
      = (1594 * 100 / 1024) % 4294967296 :=
  have hpc : powerCompensation pow10AtIntegers 2 (exampleMac 0 0 (-90))
      AirtimeLinkMetricCalculator.AirtimeLinkMetricCalculator = 0 := by
    unfold powerCompensation exampleMac
    norm_num
  ⟨rfl, hpc,
    ((zero_failure_cost pow10AtIntegers sqrtAtSquares 2 (exampleMac 0 0 (-90))
      AirtimeLinkMetricCalculator.AirtimeLinkMetricCalculator rfl hpc).1 rfl).2 1594 (by decide)⟩

/-- C33. Whenever the power budget, receive power minus energy-detection threshold,
is at least 3, the power compensation is 0, and CalculateMetric returns the same
for any other receive power with a budget of at least 3 and any other coefficient.
Whenever the power budget is below 3 the compensation is the coefficient times 10 ^
((3 - powerBudget) / 10) - 1.  The compensation is the term that CalculateMetric
adds to the time divided by 10.24, in both variants. -/
theorem power_compensation_term (pow10 sqrt : ℚ → ℚ) (peerAddress : Mac48Address)
    (mac : MeshWifiInterfaceMac) (c : AirtimeLinkMetricCalculator)
    (g : Mac48Address → ℚ) (k : Nat)
    (h : 3 ≤ mac.GetPeerRxPower peerAddress - mac.GetEdThreshold)
    (hg : 3 ≤ g peerAddress - mac.GetEdThreshold) :
    powerCompensation pow10 peerAddress mac c = 0 ∧
    CalculateMetric pow10 sqrt peerAddress { mac with GetPeerRxPower := g }
        { c with m_metricRxPowerCoef := k }
      = CalculateMetric pow10 sqrt peerAddress mac c ∧
    (∀ (mac' : MeshWifiInterfaceMac) (c' : AirtimeLinkMetricCalculator),
      mac'.GetPeerRxPower peerAddress - mac'.GetEdThreshold < 3 →
      powerCompensation pow10 peerAddress mac' c'
        = c'.m_metricRxPowerCoef *
          (pow10 ((3 - (mac'.GetPeerRxPower peerAddress - mac'.GetEdThreshold)) / 10) - 1)) ∧
    (∀ (mac' : MeshWifiInterfaceMac) (c' : AirtimeLinkMetricCalculator),
      obtainedFailAvg peerAddress mac' c' ≠ 1 →
      (CalculateMetric pow10 sqrt peerAddress mac' c').retval =
        if c'.m_useRootSquare then
          toUint32 ((((overheadMicroSeconds mac' : ℚ)
              + 20 * sqrt (Time.GetMicroSeconds (testFrameTxDuration peerAddress mac' c') : ℚ))
            / (1024 / 100) + powerCompensation pow10 peerAddress mac' c')
            / (1 - obtainedFailAvg peerAddress mac' c'))
        else
          toUint32 (((airtimeMicroSeconds peerAddress mac' c' : ℚ) / (1024 / 100)
              + powerCompensation pow10 peerAddress mac' c')
            / (1 - obtainedFailAvg peerAddress mac' c'))) := by
  refine ⟨?_, ?_, ?_, ?_⟩
  · unfold powerCompensation
    rw [if_neg (not_lt.mpr h)]
  · unfold CalculateMetric
    simp only [if_neg (not_lt.mpr h), if_neg (not_lt.mpr hg)]
  · intro mac' c' hlt
    unfold powerCompensation
    rw [if_pos hlt]
  · intro mac' c' hne
    exact CalculateMetric_eq pow10 sqrt peerAddress mac' c' hne

/-- Witness of C33: with the threshold -96, the receive powers -90 and -50 and the
coefficients 0 and 7 give the same result. -/
theorem power_compensation_term_witness :
    (3 : ℚ) ≤ (exampleMac 0 0 (-90)).GetPeerRxPower 2 - (exampleMac 0 0 (-90)).GetEdThreshold ∧
    CalculateMetric pow10AtIntegers sqrtAtSquares 2
        { exampleMac 0 0 (-90) with GetPeerRxPower := fun _ => -50 }
        { AirtimeLinkMetricCalculator.AirtimeLinkMetricCalculator with m_metricRxPowerCoef := 7 }
      = CalculateMetric pow10AtIntegers sqrtAtSquares 2 (exampleMac 0 0 (-90))
          AirtimeLinkMetricCalculator.AirtimeLinkMetricCalculator :=
  have h : (3 : ℚ) ≤ (exampleMac 0 0 (-90)).GetPeerRxPower 2
      - (exampleMac 0 0 (-90)).GetEdThreshold := by
    unfold exampleMac
    norm_num
  have hg : (3 : ℚ) ≤ (fun _ : Mac48Address => (-50 : ℚ)) 2
      - (exampleMac 0 0 (-90)).GetEdThreshold := by
    unfold exampleMac
    norm_num
  ⟨h, (power_compensation_term pow10AtIntegers sqrtAtSquares 2 (exampleMac 0 0 (-90))
    AirtimeLinkMetricCalculator.AirtimeLinkMetricCalculator (fun _ => -50) 7 h hg).2.1⟩

/-! ### Time-unit differences, cost bounds and monotonicity -/

/-- C34. For all 16-bit values t1 and t2, CalculateTuDifference (t1, t2) is (t1 -
t2) mod 65536: t1 - t2 when t1 >= t2 and 65536 + t1 - t2 otherwise; it is a 16-bit
value, and adding it to t2 modulo 65536 gives t1 back. -/
theorem tu_difference (t1 t2 : Nat) (h1 : t1 < 65536) (h2 : t2 < 65536) :
    ((CalculateTuDifference t1 t2 : Nat) : Int) = ((t1 : Int) - (t2 : Int)) % 65536 ∧
    (t1 ≥ t2 → CalculateTuDifference t1 t2 = t1 - t2) ∧
    (t1 < t2 → CalculateTuDifference t1 t2 = 65536 + t1 - t2) ∧
    CalculateTuDifference t1 t2 < 65536 ∧
    (t2 + CalculateTuDifference t1 t2) % 65536 = t1 := by
  unfold CalculateTuDifference
  by_cases h : t1 ≥ t2
  · rw [if_pos h]
    refine ⟨by omega, fun _ => by omega, fun hlt => by omega, by omega, by omega⟩
  · rw [if_neg h]
    refine ⟨by omega, fun hge => absurd hge h, fun _ => by omega, by omega, by omega⟩

/-- Witness of C34: 100 - 65500 wraps to 136, and 65500 + 136 wraps to 100. -/
theorem tu_difference_witness :
    CalculateTuDifference 100 65500 = 136 ∧ (65500 + CalculateTuDifference 100 65500) % 65536 = 100 :=
  ⟨(tu_difference 100 65500 (by decide) (by decide)).2.2.1 (by decide),
   (tu_difference 100 65500 (by decide) (by decide)).2.2.2.2⟩

/-- C37. For every tracker, with its time stamp among the slots 0..11, and every
tracked neighbour whose forward count and whose reverse count, a uint8_t, are both
not 0, the cost that GetEtxForNeighbor returns is at least 39 and at most 100000,
hence below ETX_MAX = 200000, the value returned without information.  The two
bounds are reached: forward 10 with reverse 255 gives 39, forward 1 with reverse 1
gives 100000. -/
theorem etx_cost_bounds (addr : Mac48Address) (e : NeighborEtx) (etx : NeighborEtx.Etx)
    (h : e.m_neighborEtx addr = some etx) (ht : e.m_lppTimeStamp ≤ 11)
    (hf : Lpp10bMapToCnt etx.m_lppMyCnt10bMap e ≠ 0)
    (hr : etx.m_lppReverse ≠ 0) (hr8 : etx.m_lppReverse < 256) :
    39 ≤ GetEtxForNeighbor addr e ∧ GetEtxForNeighbor addr e ≤ 100000 ∧
    GetEtxForNeighbor addr e < ETX_MAX ∧
    (Lpp10bMapToCnt etx.m_lppMyCnt10bMap e = 10 → etx.m_lppReverse = 255 →
      GetEtxForNeighbor addr e = 39) ∧
    (Lpp10bMapToCnt etx.m_lppMyCnt10bMap e = 1 → etx.m_lppReverse = 1 →
      GetEtxForNeighbor addr e = 100000) := by
  have hg : GetEtxForNeighbor addr e = CalculateBinaryShiftedEtx etx e := by
    unfold GetEtxForNeighbor
    rw [h]
  rw [hg, CalculateBinaryShiftedEtx_eq etx e hf hr]
  have hle := Lpp10bMapToCnt_le etx.m_lppMyCnt10bMap e ht
  generalize Lpp10bMapToCnt etx.m_lppMyCnt10bMap e = f at hf hle
  generalize etx.m_lppReverse = r at hr hr8
  have hn1 : 1 ≤ f * r := Nat.mul_pos (Nat.pos_of_ne_zero hf) (Nat.pos_of_ne_zero hr)
  have hn2 : f * r ≤ 10 * 255 := Nat.mul_le_mul hle (by omega)
  refine ⟨?_, ?_, ?_, ?_, ?_⟩
  · rw [Nat.le_div_iff_mul_le (by omega)]
    omega
  · exact Nat.le_of_lt_succ (Nat.div_lt_of_lt_mul (by omega))
  · exact Nat.div_lt_of_lt_mul (by unfold ETX_MAX; omega)
  · intro h10 h255
    rw [h10, h255]
  · intro hf1 hr1
    rw [hf1, hr1]

/-- Witness of C37: the neighbour 5 with the forward count 10 and the reverse count
255 has the cost 39, and with one probe in slot 3 and the reverse count 1 it has the
cost 100000. -/
theorem etx_cost_bounds_witness :
    exampleTrackerBest.m_neighborEtx 5 = some { m_lppMyCnt10bMap := 0x0FFC, m_lppReverse := 255 } ∧
    GetEtxForNeighbor 5 exampleTrackerBest = 39 ∧
    GetEtxForNeighbor 5 (UpdateNeighborEtx 5 3 1 NeighborEtx.NeighborEtx).2 = 100000 ∧
    GetEtxForNeighbor 5 exampleTrackerBest < ETX_MAX :=
  ⟨by decide,
   (etx_cost_bounds 5 exampleTrackerBest { m_lppMyCnt10bMap := 0x0FFC, m_lppReverse := 255 }
      (by decide) (by decide) (by decide) (by decide) (by decide)).2.2.2.1 (by decide) rfl,
   (etx_cost_bounds 5 (UpdateNeighborEtx 5 3 1 NeighborEtx.NeighborEtx).2
      { m_lppMyCnt10bMap := 8, m_lppReverse := 1 }
      (by decide) (by decide) (by decide) (by decide) (by decide)).2.2.2.2 (by decide) rfl,
   (etx_cost_bounds 5 exampleTrackerBest { m_lppMyCnt10bMap := 0x0FFC, m_lppReverse := 255 }
      (by decide) (by decide) (by decide) (by decide) (by decide)).2.2.1⟩

/-- The set bits among the `W + 1` lowest of a sequence after a missed beacon are
those among the `W` lowest before it. -/
theorem setBits_miss_succ (W x : Nat) (hW : W + 1 ≤ 32) :
    setBits (W + 1) (AddBeaconMissToSequence x) = setBits W x := by
  have hbit : ∀ i, i < 32 → (AddBeaconMissToSequence x).testBit i
      = (decide (i ≥ 1) && x.testBit (i - 1)) := by
    intro i hi
    rw [AddBeaconMissToSequence_eq, show (4294967296 : Nat) = 2 ^ 32 by norm_num,
      Nat.testBit_mod_two_pow, Nat.mul_comm, ← Nat.pow_one 2, ← Nat.shiftLeft_eq,
      Nat.testBit_shiftLeft]
    simp [hi]
  unfold setBits
  induction W with
  | zero =>
    rw [List.range_succ, List.range_zero, List.nil_append, List.countP_singleton, hbit 0 (by omega)]
    rfl
  | succ W ih =>
    rw [List.range_succ, List.countP_append, ih (by omega), List.countP_singleton,
      hbit (W + 1) (by omega), List.range_succ, List.countP_append, List.countP_singleton]
    simp

/-- A missed beacon does not raise the number of set bits among the `W` lowest. -/
theorem setBits_miss_le (W x : Nat) (hW : W ≤ 32) :
    setBits W (AddBeaconMissToSequence x) ≤ setBits W x := by
  cases W with
  | zero => exact Nat.le_of_eq rfl
  | succ W =>
    rw [setBits_miss_succ W x hW]
    unfold setBits
    rw [List.range_succ, List.countP_append]
    exact Nat.le_add_right _ _

/-- C38. For every beacon history and every window size W with 1 <= W <= 30, the
failure average that CalculateFailAvg returns after a BeaconMissed call, as an
exact rational, is greater than or equal to the one it returns before the call. -/
theorem fail_avg_monotone (l : PeerLink) (h1 : 1 ≤ l.m_beaconWinSize)
    (h30 : l.m_beaconWinSize ≤ 30) :
    CalculateFailAvg l ≤ CalculateFailAvg (BeaconMissed l) := by
  obtain ⟨hW, hf, hr⟩ := BeaconMissed_iterate 1 l
  rw [Function.iterate_one] at hW hf hr
  rw [Function.iterate_one] at hf
  rw [CalculateFailAvg_eq l (by omega), CalculateFailAvg_eq (BeaconMissed l) (by rw [hW]; omega),
    hW, hf, hr]
  have hle := setBits_miss_le l.m_beaconWinSize l.m_beaconsOnLink.fwdBeacons (by omega)
  have hmul : setBits l.m_beaconWinSize (AddBeaconMissToSequence l.m_beaconsOnLink.fwdBeacons)
        * setBits l.m_beaconWinSize l.m_beaconsOnLink.revBeacons
      ≤ setBits l.m_beaconWinSize l.m_beaconsOnLink.fwdBeacons
        * setBits l.m_beaconWinSize l.m_beaconsOnLink.revBeacons :=
    Nat.mul_le_mul_right _ hle
  have hq : ((setBits l.m_beaconWinSize (AddBeaconMissToSequence l.m_beaconsOnLink.fwdBeacons)
        * setBits l.m_beaconWinSize l.m_beaconsOnLink.revBeacons : Nat) : ℚ)
      ≤ ((setBits l.m_beaconWinSize l.m_beaconsOnLink.fwdBeacons
        * setBits l.m_beaconWinSize l.m_beaconsOnLink.revBeacons : Nat) : ℚ) := by
    exact_mod_cast hmul
  have hd : (0 : ℚ) ≤ ((l.m_beaconWinSize * l.m_beaconWinSize : Nat) : ℚ) := by positivity
  have := div_le_div_of_nonneg_right hq hd
  linarith

/-- Witness of C38: on a fresh link, window 20 and both histories all ones, the
failure average is 0 before a BeaconMissed call and 1 - (19 * 20) / (20 * 20) = 1 /
20 after it. -/
theorem fail_avg_monotone_witness :
    (PeerLink.PeerLink 0 0).m_beaconWinSize = 20 ∧
    CalculateFailAvg (PeerLink.PeerLink 0 0) ≤ CalculateFailAvg (BeaconMissed (PeerLink.PeerLink 0 0)) :=
  ⟨rfl, fail_avg_monotone (PeerLink.PeerLink 0 0) (by decide) (by decide)⟩

/-! ### The assertions at the entry into ESTAB -/

/-- The state machine violates the assertion that the peer mesh-point address is
known only on OpenAccept or ConfirmAccept with the address unknown. -/
theorem StateMachine_known (e : PeerEvent) (r : PmpReasonCode) (l : PeerLink)
    (hk : l.m_peerMeshPointAddress ≠ Mac48Address.GetBroadcast ∨ (e ≠ OPN_ACPT ∧ e ≠ CNF_ACPT)) :
    ∃ extra, (StateMachine e r l).m_failedAsserts = l.m_failedAsserts ++ extra ∧
      NsAssert.peerMeshPointAddressKnown ∉ extra := by
  rcases l with ⟨_, _, _, mp, _, _, _, _, _, _, _, _, _, _, s, _, _, _, _, _, _, _, _, _,
    _, _, _, _, _, _, _, _⟩
  cases s <;> cases e <;>
    first
    | exact ⟨[], (List.append_nil _).symm, List.not_mem_nil _⟩
    | (refine ⟨_, rfl, ?_⟩
       (split <;> simp)
       done)
    | (refine ⟨_, rfl, ?_⟩
       rcases hk with hk | ⟨h1, h2⟩
       · show _ ∉ (if decide (mp ≠ Mac48Address.GetBroadcast) = true then []
           else [NsAssert.peerMeshPointAddressKnown])
         rw [if_pos (decide_eq_true hk)]
         exact List.not_mem_nil _
       · first | exact absurd rfl h1 | exact absurd rfl h2)

/-- The state machine, run on an event other than OpenAccept and ConfirmAccept or
on a link whose peer mesh-point address is known, keeps the assertion unviolated,
and when it enters ESTAB the address is known. -/
theorem StateMachine_entry (e : PeerEvent) (r : PmpReasonCode) (l : PeerLink)
    (hk : l.m_peerMeshPointAddress ≠ Mac48Address.GetBroadcast ∨ (e ≠ OPN_ACPT ∧ e ≠ CNF_ACPT))
    (hi : knownAssertHolds l) :
    knownAssertHolds (StateMachine e r l) ∧
    (l.m_state ≠ ESTAB → (StateMachine e r l).m_state = ESTAB →
      (StateMachine e r l).m_peerMeshPointAddress ≠ Mac48Address.GetBroadcast) := by
  constructor
  · obtain ⟨extra, he, hn⟩ := StateMachine_known e r l hk
    unfold knownAssertHolds
    rw [he, List.mem_append]
    exact fun h => h.elim hi hn
  · intro hpre hpost
    rw [(sameButMachine_fields l _ (StateMachine_frame e r l)).2.2.1]
    rcases hk with hk | ⟨h1, h2⟩
    · exact hk
    · rw [StateMachine_m_state] at hpost
      exact absurd (nextState_estab _ _ h1 h2 hpost) hpre

/-- Binding what a frame presents does not violate the assertion that the peer
mesh-point address is known. -/
theorem frameBound_known (id : Nat) (conf : IeConfiguration) (aid : Nat)
    (mp peerMp : Mac48Address) (l : PeerLink) (hi : knownAssertHolds l) :
    knownAssertHolds (frameBound id conf aid mp peerMp l) := by
  unfold knownAssertHolds frameBound
  simp only
  split
  · rw [List.mem_append]
    intro h
    rcases h with h | h
    · exact hi h
    · split at h <;> simp at h
  · exact hi

/-- The address bound after a frame has presented a known one is known. -/
theorem boundMeshPoint_ne (peerMp : Mac48Address) (l : PeerLink)
    (h : peerMp ≠ Mac48Address.GetBroadcast) :
    boundMeshPoint peerMp l ≠ Mac48Address.GetBroadcast := by
  unfold boundMeshPoint
  split
  · assumption
  · exact h

/-- UpdateBeaconReceived, when it returns, has violated no assertion. -/
theorem UpdateBeaconReceived_failedAsserts (ind : Nat) (l l' : PeerLink)
    (h : UpdateBeaconReceived ind l = some l') : l'.m_failedAsserts = l.m_failedAsserts := by
  unfold UpdateBeaconReceived at h
  simp only [Option.bind_eq_some] at h
  obtain ⟨l₁, h₁, h₂⟩ := h
  injection h₂ with h₂
  subst h₂
  unfold UpdateBeaconReceived.reverse at h₁
  cases hf : (UpdateBeaconReceived.start l).m_beaconTiming.find?
      (fun u => decide (u.aid ≠ 0 ∧ (UpdateBeaconReceived.start l).m_peerAssocId = u.aid)) with
  | some u =>
    simp only [hf] at h₁
    unfold UpdateBeaconReceived.entry at h₁
    cases hc : UpdateBeaconReceived.counts ((l.m_beaconIntervalTol * 1000) >>> 8 &&& 0xffff) u
        (UpdateBeaconReceived.start l) with
    | none =>
      rw [hc] at h₁
      exact absurd h₁ (by simp)
    | some c =>
      rw [hc] at h₁
      injection h₁ with h₁
      subst h₁
      rfl
  | none =>
    simp only [hf] at h₁
    by_cases hn : ¬ (UpdateBeaconReceived.start l).m_newLink = true
    · rw [if_pos hn] at h₁
      injection h₁ with h₁
      subst h₁
      rfl
    · rw [if_neg hn] at h₁
      injection h₁ with h₁
      subst h₁
      rfl

/-- Every call that presents a known peer mesh-point address keeps the assertion
unviolated, and when it enters ESTAB the address is known. -/
theorem runCall_known (c : Call) (l l' : PeerLink) (h : runCall c l = some l')
    (hc : presentsKnownMeshPoint c) (hi : knownAssertHolds l) :
    knownAssertHolds l' ∧
    (l.m_state ≠ ESTAB → l'.m_state = ESTAB →
      l'.m_peerMeshPointAddress ≠ Mac48Address.GetBroadcast) := by
  have hsame : ∀ x : PeerLink, x.m_failedAsserts = l.m_failedAsserts → x.m_state = l.m_state →
      knownAssertHolds x ∧ (l.m_state ≠ ESTAB → x.m_state = ESTAB →
        x.m_peerMeshPointAddress ≠ Mac48Address.GetBroadcast) := by
    intro x hfa hst
    refine ⟨?_, fun h1 h2 => absurd (hst ▸ h2) h1⟩
    unfold knownAssertHolds
    rw [hfa]
    exact hi
  have hev : ∀ (e : PeerEvent) (r : PmpReasonCode) (x : PeerLink), e ≠ OPN_ACPT → e ≠ CNF_ACPT →
      knownAssertHolds x → x.m_state = l.m_state →
      knownAssertHolds (StateMachine e r x) ∧ (l.m_state ≠ ESTAB →
        (StateMachine e r x).m_state = ESTAB →
        (StateMachine e r x).m_peerMeshPointAddress ≠ Mac48Address.GetBroadcast) := by
    intro e r x h1 h2 hx hst
    rw [← hst]
    exact StateMachine_entry e r x (Or.inr ⟨h1, h2⟩) hx
  cases c <;> simp only [runCall, Option.some.injEq] at h
  case SetPeerAddress a => subst h; exact hsame _ rfl rfl
  case SetPeerMeshPointAddress a => subst h; exact hsame _ rfl rfl
  case SetInterface a => subst h; exact hsame _ rfl rfl
  case SetLocalLinkId a => subst h; exact hsame _ rfl rfl
  case SetLocalAid a => subst h; exact hsame _ rfl rfl
  case SetRetryTimeout a => subst h; exact hsame _ rfl rfl
  case SetHoldingTimeout a => subst h; exact hsame _ rfl rfl
  case SetConfirmTimeout a => subst h; exact hsame _ rfl rfl
  case SetMaxRetries n =>
    split at h
    · injection h with h; subst h; exact hsame _ rfl rfl
    · exact absurd h (by simp)
  case SetMaxBeaconLoss n =>
    split at h
    · injection h with h; subst h; exact hsame _ rfl rfl
    · exact absurd h (by simp)
  case SetMaxPacketFailure n =>
    split at h
    · injection h with h; subst h; exact hsame _ rfl rfl
    · exact absurd h (by simp)
  case SetBeaconWinSize n =>
    split at h
    · injection h with h; subst h; exact hsame _ rfl rfl
    · exact absurd h (by simp)
  case SetBeaconInformation a b =>
    subst h
    have hst := (sameButBeacon_fields l _ (SetBeaconInformation_frame a b l)).1
    refine ⟨?_, fun h1 h2 => absurd (hst ▸ h2) h1⟩
    unfold knownAssertHolds SetBeaconInformation NS_ASSERT
    simp only
    rw [List.mem_append]
    intro hm
    rcases hm with hm | hm
    · exact hi hm
    · split at hm <;> simp at hm
  case SetBeaconTimingElement a => subst h; exact hsame _ rfl rfl
  case UpdateBeaconReceived ind =>
    exact hsame _ (UpdateBeaconReceived_failedAsserts ind l l' h)
      (sameButBeacon_fields l l' (UpdateBeaconReceived_frame ind l l' h)).1
  case MLMECancelPeerLink r => subst h; exact hev CNCL _ l (by decide) (by decide) hi rfl
  case MLMEActivePeerLinkOpen => subst h; exact hev ACTOPN _ l (by decide) (by decide) hi rfl
  case MLMEPeeringRequestReject => subst h; exact hev REQ_RJCT _ l (by decide) (by decide) hi rfl
  case TransmissionSuccess => subst h; exact hsame _ rfl rfl
  case TransmissionFailure =>
    subst h
    rw [TransmissionFailure_eq]
    split
    · exact hev CNCL _ { l with m_packetFail := (l.m_packetFail + 1) % 65536 }
        (by decide) (by decide) hi rfl
    · exact hsame _ rfl rfl
  case Close a b r =>
    subst h
    rw [Close_eq]
    split
    · exact hsame _ rfl rfl
    · split
      · exact hsame _ rfl rfl
      · exact hev CLS_ACPT _ { l with m_peerLinkId := a } (by decide) (by decide) hi rfl
  case OpenAccept a conf mp =>
    subst h
    rw [OpenAccept_eq]
    exact StateMachine_entry OPN_ACPT _ (frameBound a conf l.m_peerAssocId (boundMeshPoint mp l) mp l)
      (Or.inl (boundMeshPoint_ne mp l hc)) (frameBound_known _ _ _ _ _ l hi)
  case OpenReject a conf mp r =>
    subst h
    rw [OpenReject_eq]
    exact hev OPN_RJCT _ (frameBound _ _ _ _ _ l) (by decide) (by decide)
      (frameBound_known _ _ _ _ _ l hi) rfl
  case ConfirmAccept a b aid conf mp =>
    subst h
    rw [ConfirmAccept_eq]
    split
    · exact hsame _ rfl rfl
    · split
      · exact hsame _ rfl rfl
      · exact StateMachine_entry CNF_ACPT _ (frameBound a conf aid (boundMeshPoint mp l) mp l)
          (Or.inl (boundMeshPoint_ne mp l hc)) (frameBound_known _ _ _ _ _ l hi)
  case ConfirmReject a b conf mp r =>
    subst h
    rw [ConfirmReject_eq]
    split
    · exact hsame _ rfl rfl
    · split
      · exact hsame _ rfl rfl
      · exact hev CNF_RJCT _ (frameBound _ _ _ _ _ l) (by decide) (by decide)
          (frameBound_known _ _ _ _ _ l hi) rfl
  case RetryTimerExpires =>
    unfold RetryTimerExpires at h
    cases hd : l.m_retryTimer with
    | none => rw [hd] at h; exact absurd h (by simp)
    | some d =>
      rw [hd] at h
      injection h with h
      subst h
      unfold RetryTimeout
      split
      · exact hev TOR1 _ { l with m_retryTimer := none } (by decide) (by decide) hi rfl
      · exact hev TOR2 _ { l with m_retryTimer := none } (by decide) (by decide) hi rfl
  case ConfirmTimerExpires =>
    unfold ConfirmTimerExpires at h
    cases hd : l.m_confirmTimer with
    | none => rw [hd] at h; exact absurd h (by simp)
    | some d =>
      rw [hd] at h
      injection h with h
      subst h
      exact hev TOC _ { l with m_confirmTimer := none } (by decide) (by decide) hi rfl
  case HoldingTimerExpires =>
    unfold HoldingTimerExpires at h
    cases hd : l.m_holdingTimer with
    | none => rw [hd] at h; exact absurd h (by simp)
    | some d =>
      rw [hd] at h
      injection h with h
      subst h
      exact hev TOH _ { l with m_holdingTimer := none } (by decide) (by decide) hi rfl
  case BeaconLossTimerExpires =>
    unfold BeaconLossTimerExpires at h
    cases hd : l.m_beaconLossTimer with
    | none => rw [hd] at h; exact absurd h (by simp)
    | some d =>
      rw [hd] at h
      injection h with h
      subst h
      exact hev CNCL _ { l with m_beaconLossTimer := none } (by decide) (by decide) hi rfl
  case BeaconMissedTimerExpires =>
    unfold BeaconMissedTimerExpires at h
    cases hd : l.m_beaconMissedTimer with
    | none => rw [hd] at h; exact absurd h (by simp)
    | some d =>
      rw [hd] at h
      injection h with h
      subst h
      rw [BeaconMissed_eq]
      exact hsame _ rfl rfl

/-- A run of calls that present known peer mesh-point addresses keeps the assertion
unviolated. -/
theorem runCalls_known (calls : List Call) (l l' : PeerLink)
    (h : runCalls calls l = some l') (hc : ∀ c ∈ calls, presentsKnownMeshPoint c)
    (hi : knownAssertHolds l) : knownAssertHolds l' := by
  induction calls generalizing l with
  | nil =>
    injection h with h
    subst h
    exact hi
  | cons c cs ih =>
    cases hr : runCall c l with
    | none =>
      have : runCalls (c :: cs) l = none := by
        show (runCall c l).bind (runCalls cs) = none
        rw [hr]
        rfl
      rw [this] at h
      exact absurd h (by simp)
    | some l₁ =>
      have : runCalls (c :: cs) l = runCalls cs l₁ := by
        show (runCall c l).bind (runCalls cs) = _
        rw [hr]
        rfl
      rw [this] at h
      exact ih l₁ h (fun c' hc' => hc c' (List.mem_cons_of_mem _ hc'))
        (runCall_known c l l₁ hr (hc c (List.mem_cons_self _ _)) hi).1

/-- C35. In every run of calls from a freshly constructed link in which every
OpenAccept and every ConfirmAccept presents a peer mesh-point address other than the
broadcast placeholder, the assertion that the peer mesh-point address is known,
which guards the two transitions into ESTAB, has not been violated after the last
call, and if the last call has taken the link into ESTAB the peer mesh-point
address of the link is not the broadcast placeholder. -/
theorem estab_assertions_hold (m_interface m_prevBeaconTiming : Nat) (calls : List Call)
    (c : Call) (l l' : PeerLink)
    (hcalls : ∀ c' ∈ calls, presentsKnownMeshPoint c') (hc : presentsKnownMeshPoint c)
    (hrun : runCalls calls (PeerLink.PeerLink m_interface m_prevBeaconTiming) = some l)
    (hstep : runCall c l = some l') :
    NsAssert.peerMeshPointAddressKnown ∉ l.m_failedAsserts ∧
    NsAssert.peerMeshPointAddressKnown ∉ l'.m_failedAsserts ∧
    (l.m_state ≠ ESTAB → l'.m_state = ESTAB →
      l'.m_peerMeshPointAddress ≠ Mac48Address.GetBroadcast) := by
  have h0 : knownAssertHolds (PeerLink.PeerLink m_interface m_prevBeaconTiming) :=
    List.not_mem_nil _
  have hl : knownAssertHolds l := runCalls_known calls _ l hrun hcalls h0
  exact ⟨hl, runCall_known c l l' hstep hc hl⟩

/-- Witness of C35: after SetLocalLinkId 7, ActiveOpen and a Confirm frame that
presents the mesh-point address 2, an Open frame that presents the same address
takes the link from CNF_RCVD into ESTAB with the address 2 bound and no assertion
violated. -/
theorem estab_assertions_hold_witness :
    (ConfirmAccept 5 7 1 0 2 (MLMEActivePeerLinkOpen
      (SetLocalLinkId 7 (PeerLink.PeerLink 0 0)))).m_state = CNF_RCVD ∧
    (OpenAccept 5 0 2 (ConfirmAccept 5 7 1 0 2 (MLMEActivePeerLinkOpen
      (SetLocalLinkId 7 (PeerLink.PeerLink 0 0))))).m_state = ESTAB ∧
    (OpenAccept 5 0 2 (ConfirmAccept 5 7 1 0 2 (MLMEActivePeerLinkOpen
      (SetLocalLinkId 7 (PeerLink.PeerLink 0 0))))).m_peerMeshPointAddress = 2 ∧
    NsAssert.peerMeshPointAddressKnown ∉
      (OpenAccept 5 0 2 (ConfirmAccept 5 7 1 0 2 (MLMEActivePeerLinkOpen
        (SetLocalLinkId 7 (PeerLink.PeerLink 0 0))))).m_failedAsserts ∧
    (OpenAccept 5 0 2 (ConfirmAccept 5 7 1 0 2 (MLMEActivePeerLinkOpen
      (SetLocalLinkId 7 (PeerLink.PeerLink 0 0))))).m_peerMeshPointAddress
      ≠ Mac48Address.GetBroadcast := by
  have hcalls : ∀ c ∈ [Call.SetLocalLinkId 7, Call.MLMEActivePeerLinkOpen,
      Call.ConfirmAccept 5 7 1 0 2], presentsKnownMeshPoint c := by
    intro c hc
    simp only [List.mem_cons, List.mem_singleton, List.not_mem_nil, or_false] at hc
    rcases hc with rfl | rfl | rfl
    · trivial
    · trivial
    · show (2 : Nat) ≠ Mac48Address.GetBroadcast
      decide
  have hc : presentsKnownMeshPoint (Call.OpenAccept 5 0 2) := by
    show (2 : Nat) ≠ Mac48Address.GetBroadcast
    decide
  have h := estab_assertions_hold 0 0 _ (Call.OpenAccept 5 0 2)
    (ConfirmAccept 5 7 1 0 2 (MLMEActivePeerLinkOpen (SetLocalLinkId 7 (PeerLink.PeerLink 0 0))))
    (OpenAccept 5 0 2 (ConfirmAccept 5 7 1 0 2 (MLMEActivePeerLinkOpen
      (SetLocalLinkId 7 (PeerLink.PeerLink 0 0))))) hcalls hc rfl rfl
  exact ⟨rfl, rfl, rfl, h.2.1, h.2.2 (by decide) rfl⟩

/-! ### The retry counter -/

/-- StateMachine leaves the maximum number of retries as it is, and leaves the retry
counter as it is or, on TOR1, adds one to it within 16 bits. -/
theorem StateMachine_retryCounter (e : PeerEvent) (r : PmpReasonCode) (l : PeerLink) :
    (StateMachine e r l).m_dot11MeshMaxRetries = l.m_dot11MeshMaxRetries ∧
    (e ≠ TOR1 → (StateMachine e r l).m_retryCounter = l.m_retryCounter) ∧
    ((StateMachine e r l).m_retryCounter = l.m_retryCounter ∨
      (StateMachine e r l).m_retryCounter = (l.m_retryCounter + 1) % 65536) := by
  rcases l with ⟨_, _, _, _, _, _, _, _, _, _, _, _, _, _, s, _, _, _, _, _, _, _, _, _,
    _, _, _, _, _, _, _, _⟩
  cases s <;> cases e <;>
    first
    | exact ⟨rfl, fun _ => rfl, Or.inl rfl⟩
    | exact ⟨rfl, fun h => absurd rfl h, Or.inr rfl⟩

/-- Every call leaves the retry counter as it is or adds one to it within 16
bits. -/
theorem runCall_retryCounter (c : Call) (l l' : PeerLink) (h : runCall c l = some l') :
    l'.m_retryCounter = l.m_retryCounter ∨
      l'.m_retryCounter = (l.m_retryCounter + 1) % 65536 := by
  have hsm : ∀ (e : PeerEvent) (r : PmpReasonCode) (x : PeerLink),
      x.m_retryCounter = l.m_retryCounter →
      (StateMachine e r x).m_retryCounter = l.m_retryCounter ∨
        (StateMachine e r x).m_retryCounter = (l.m_retryCounter + 1) % 65536 := by
    intro e r x hx
    rw [← hx]
    exact (StateMachine_retryCounter e r x).2.2
  have hb : ∀ x : PeerLink, sameButBeacon l x → x.m_retryCounter = l.m_retryCounter :=
    fun x hx => (sameButBeacon_fields l x hx).2.2.2.2.2.2.1
  cases c <;> simp only [runCall, Option.some.injEq] at h
  case SetPeerAddress a => subst h; exact Or.inl rfl
  case SetPeerMeshPointAddress a => subst h; exact Or.inl rfl
  case SetInterface a => subst h; exact Or.inl rfl
  case SetLocalLinkId a => subst h; exact Or.inl rfl
  case SetLocalAid a => subst h; exact Or.inl rfl
  case SetRetryTimeout a => subst h; exact Or.inl rfl
  case SetHoldingTimeout a => subst h; exact Or.inl rfl
  case SetConfirmTimeout a => subst h; exact Or.inl rfl
  case SetMaxRetries n =>
    split at h
    · injection h with h; subst h; exact Or.inl rfl
    · exact absurd h (by simp)
  case SetMaxBeaconLoss n =>
    split at h
    · injection h with h; subst h; exact Or.inl rfl
    · exact absurd h (by simp)
  case SetMaxPacketFailure n =>
    split at h
    · injection h with h; subst h; exact Or.inl rfl
    · exact absurd h (by simp)
  case SetBeaconWinSize n =>
    split at h
    · injection h with h; subst h; exact Or.inl rfl
    · exact absurd h (by simp)
  case SetBeaconInformation a b =>
    subst h
    exact Or.inl (hb _ (SetBeaconInformation_frame a b l))
  case SetBeaconTimingElement a => subst h; exact Or.inl rfl
  case UpdateBeaconReceived ind => exact Or.inl (hb _ (UpdateBeaconReceived_frame ind l l' h))
  case MLMECancelPeerLink r => subst h; exact hsm _ _ l rfl
  case MLMEActivePeerLinkOpen => subst h; exact hsm _ _ l rfl
  case MLMEPeeringRequestReject => subst h; exact hsm _ _ l rfl
  case TransmissionSuccess => subst h; exact Or.inl rfl
  case TransmissionFailure =>
    subst h
    rw [TransmissionFailure_eq]
    split
    · exact hsm CNCL _ { l with m_packetFail := (l.m_packetFail + 1) % 65536 } rfl
    · exact Or.inl rfl
  case Close a b r =>
    subst h
    rw [Close_eq]
    split
    · exact Or.inl rfl
    · split
      · exact Or.inl rfl
      · exact hsm CLS_ACPT _ { l with m_peerLinkId := a } rfl
  case OpenAccept a conf mp =>
    subst h
    rw [OpenAccept_eq]
    exact hsm _ _ (frameBound _ _ _ _ _ l) rfl
  case OpenReject a conf mp r =>
    subst h
    rw [OpenReject_eq]
    exact hsm _ _ (frameBound _ _ _ _ _ l) rfl
  case ConfirmAccept a b aid conf mp =>
    subst h
    rw [ConfirmAccept_eq]
    split
    · exact Or.inl rfl
    · split
      · exact Or.inl rfl
      · exact hsm _ _ (frameBound _ _ _ _ _ l) rfl
  case ConfirmReject a b conf mp r =>
    subst h
    rw [ConfirmReject_eq]
    split
    · exact Or.inl rfl
    · split
      · exact Or.inl rfl
      · exact hsm _ _ (frameBound _ _ _ _ _ l) rfl
  case RetryTimerExpires =>
    unfold RetryTimerExpires at h
    cases hd : l.m_retryTimer with
    | none => rw [hd] at h; exact absurd h (by simp)
    | some d =>
      rw [hd] at h
      injection h with h
      subst h
      unfold RetryTimeout
      split
      · exact hsm _ _ { l with m_retryTimer := none } rfl
      · exact hsm _ _ { l with m_retryTimer := none } rfl
  case ConfirmTimerExpires =>
    unfold ConfirmTimerExpires at h
    cases hd : l.m_confirmTimer with
    | none => rw [hd] at h; exact absurd h (by simp)
    | some d =>
      rw [hd] at h
      injection h with h
      subst h
      exact hsm _ _ { l with m_confirmTimer := none } rfl
  case HoldingTimerExpires =>
    unfold HoldingTimerExpires at h
    cases hd : l.m_holdingTimer with
    | none => rw [hd] at h; exact absurd h (by simp)
    | some d =>
      rw [hd] at h
      injection h with h
      subst h
      exact hsm _ _ { l with m_holdingTimer := none } rfl
  case BeaconLossTimerExpires =>
    unfold BeaconLossTimerExpires at h
    cases hd : l.m_beaconLossTimer with
    | none => rw [hd] at h; exact absurd h (by simp)
    | some d =>
      rw [hd] at h
      injection h with h
      subst h
      exact hsm _ _ { l with m_beaconLossTimer := none } rfl
  case BeaconMissedTimerExpires =>
    unfold BeaconMissedTimerExpires at h
    cases hd : l.m_beaconMissedTimer with
    | none => rw [hd] at h; exact absurd h (by simp)
    | some d =>
      rw [hd] at h
      injection h with h
      subst h
      exact Or.inl (sameButBeacon_fields _ _
        (BeaconMissed_frame { l with m_beaconMissedTimer := none })).2.2.2.2.2.2.1

/-- A pending holding timer fires and HoldingTimeout runs. -/
theorem HoldingTimerExpires_of_pending (l : PeerLink) (h : l.m_holdingTimer ≠ none) :
    HoldingTimerExpires l = some (HoldingTimeout { l with m_holdingTimer := none }) := by
  unfold HoldingTimerExpires
  cases hd : l.m_holdingTimer with
  | none => exact absurd hd h
  | some d => rfl

/-- ActiveOpen on an idle link arms the retry timer. -/
theorem StateMachine_ACTOPN_timer (r : PmpReasonCode) (l : PeerLink) (h : l.m_state = IDLE) :
    (StateMachine ACTOPN r l).m_retryTimer = some l.m_dot11MeshRetryTimeout := by
  cases l
  simp only at h
  subst h
  rfl

/-- A firing of the retry timer with the retry counter at or above the maximum is
dispatched as TOR2. -/
theorem RetryTimerExpires_exhausted (l : PeerLink) (ht : l.m_retryTimer ≠ none)
    (hc : ¬ l.m_retryCounter < l.m_dot11MeshMaxRetries) :
    RetryTimerExpires l
      = some (StateMachine TOR2 REASON11S_RESERVED { l with m_retryTimer := none }) := by
  rw [RetryTimerExpires_of_pending l ht]
  have hge : ¬ ({ l with m_retryTimer := none } : PeerLink).m_retryCounter <
      ({ l with m_retryTimer := none } : PeerLink).m_dot11MeshMaxRetries := hc
  unfold RetryTimeout
  rw [if_neg hge]

/-- The retry timer firing with the counter at or above the maximum: the link goes
to HOLDING on TOR2 with its holding timer pending; the counter and the maximum are
as before. -/
theorem retry_exhausted_step (l : PeerLink)
    (hs : l.m_state = OPN_SNT ∨ l.m_state = OPN_RCVD) (ht : l.m_retryTimer ≠ none)
    (hc : ¬ l.m_retryCounter < l.m_dot11MeshMaxRetries) :
    ∃ l1, RetryTimerExpires l = some l1 ∧
      l1 = StateMachine TOR2 REASON11S_RESERVED { l with m_retryTimer := none } ∧
      l1.m_state = HOLDING ∧ l1.m_holdingTimer ≠ none ∧
      l1.m_retryCounter = l.m_retryCounter ∧
      l1.m_dot11MeshMaxRetries = l.m_dot11MeshMaxRetries := by
  have hs0 : ({ l with m_retryTimer := none } : PeerLink).m_state = OPN_SNT ∨
      ({ l with m_retryTimer := none } : PeerLink).m_state = OPN_RCVD := hs
  have e1 := StateMachine_TOR2 REASON11S_RESERVED { l with m_retryTimer := none } hs0
  have c1 := StateMachine_retryCounter TOR2 REASON11S_RESERVED { l with m_retryTimer := none }
  refine ⟨_, RetryTimerExpires_exhausted l ht hc, rfl, ?_, ?_, c1.2.1 (by decide), c1.1⟩
  · rw [e1]
    rfl
  · rw [e1]
    exact Option.some_ne_none _

/-- The holding timer firing in HOLDING: the link goes to IDLE; the retry counter
and the maximum are as before. -/
theorem holding_expired_step (l : PeerLink) (hs : l.m_state = HOLDING)
    (ht : l.m_holdingTimer ≠ none) :
    ∃ l2, HoldingTimerExpires l = some l2 ∧ l2.m_state = IDLE ∧
      l2.m_retryCounter = l.m_retryCounter ∧
      l2.m_dot11MeshMaxRetries = l.m_dot11MeshMaxRetries := by
  have c2 := StateMachine_retryCounter TOH REASON11S_RESERVED { l with m_holdingTimer := none }
  refine ⟨_, HoldingTimerExpires_of_pending l ht, ?_, c2.2.1 (by decide), c2.1⟩
  unfold HoldingTimeout
  rw [StateMachine_m_state]
  show nextState l.m_state TOH = IDLE
  rw [hs]
  rfl

/-- ActiveOpen on an idle link: the link goes to OPN_SNT with its retry timer
pending; the retry counter and the maximum are as before. -/
theorem active_open_step (l : PeerLink) (hs : l.m_state = IDLE) :
    (MLMEActivePeerLinkOpen l).m_state = OPN_SNT ∧
    (MLMEActivePeerLinkOpen l).m_retryTimer ≠ none ∧
    (MLMEActivePeerLinkOpen l).m_retryCounter = l.m_retryCounter ∧
    (MLMEActivePeerLinkOpen l).m_dot11MeshMaxRetries = l.m_dot11MeshMaxRetries := by
  unfold MLMEActivePeerLinkOpen
  have c3 := StateMachine_retryCounter ACTOPN REASON11S_RESERVED l
  refine ⟨?_, ?_, c3.2.1 (by decide), c3.1⟩
  · rw [StateMachine_m_state, hs]
    rfl
  · rw [StateMachine_ACTOPN_timer _ _ hs]
    exact Option.some_ne_none _

/-- C39. No call on a link, whether a request, a handler of a received frame, a
transmission report or the firing of a timer, sets the retry counter to anything
but its old value or its old value plus one within 16 bits, and the state machine
changes it on TOR1 only.  So a link whose retry timer fires with the counter at or
above the maximum goes to HOLDING on TOR2, then to IDLE when the holding timer
fires, then to OPN_SNT on ActiveOpen with the counter still at its old value, and
the first firing of the retry timer of this new attempt is dispatched as TOR2 again
and takes the link to HOLDING. -/
theorem retry_counter_never_reset (l : PeerLink)
    (hs : l.m_state = OPN_SNT ∨ l.m_state = OPN_RCVD) (ht : l.m_retryTimer ≠ none)
    (hc : ¬ l.m_retryCounter < l.m_dot11MeshMaxRetries) :
    (∀ (c : Call) (x x' : PeerLink), runCall c x = some x' →
      x'.m_retryCounter = x.m_retryCounter ∨
        x'.m_retryCounter = (x.m_retryCounter + 1) % 65536) ∧
    (∀ (e : PeerEvent) (r : PmpReasonCode) (x : PeerLink), e ≠ TOR1 →
      (StateMachine e r x).m_retryCounter = x.m_retryCounter) ∧
    ∃ l1 l2 l3 l4 : PeerLink,
      runCall Call.RetryTimerExpires l = some l1 ∧
      l1 = StateMachine TOR2 REASON11S_RESERVED { l with m_retryTimer := none } ∧
      l1.m_state = HOLDING ∧
      runCall Call.HoldingTimerExpires l1 = some l2 ∧ l2.m_state = IDLE ∧
      l2.m_retryCounter = l.m_retryCounter ∧
      runCall Call.MLMEActivePeerLinkOpen l2 = some l3 ∧ l3.m_state = OPN_SNT ∧
      l3.m_retryCounter = l.m_retryCounter ∧
      runCall Call.RetryTimerExpires l3 = some l4 ∧
      l4 = StateMachine TOR2 REASON11S_RESERVED { l3 with m_retryTimer := none } ∧
      l4.m_state = HOLDING ∧ l4.m_retryCounter = l.m_retryCounter := by
  refine ⟨runCall_retryCounter, fun e r x he => (StateMachine_retryCounter e r x).2.1 he, ?_⟩
  obtain ⟨l1, h1, e1, s1, t1, r1, m1⟩ := retry_exhausted_step l hs ht hc
  obtain ⟨l2, h2, s2, r2, m2⟩ := holding_expired_step l1 s1 t1
  obtain ⟨s3, t3, r3, m3⟩ := active_open_step l2 s2
  have hc3 : ¬ (MLMEActivePeerLinkOpen l2).m_retryCounter
      < (MLMEActivePeerLinkOpen l2).m_dot11MeshMaxRetries := by
    rw [r3, r2, r1, m3, m2, m1]
    exact hc
  obtain ⟨l4, h4, e4, s4, -, r4, -⟩ :=
    retry_exhausted_step (MLMEActivePeerLinkOpen l2) (Or.inl s3) t3 hc3
  exact ⟨l1, l2, MLMEActivePeerLinkOpen l2, l4, h1, e1, s1, h2, s2, r2.trans r1, rfl, s3,
    r3.trans (r2.trans r1), h4, e4, s4, r4.trans (r3.trans (r2.trans r1))⟩

/-- Witness of C39: the example link after ActiveOpen, with the retry counter at the
maximum 4, is in OPN_SNT with its retry timer pending; after this attempt has ended
in HOLDING no call has reset the counter. -/
theorem retry_counter_never_reset_witness :
    ({ exampleOpnSnt with m_retryCounter := 4 } : PeerLink).m_state = OPN_SNT ∧
    ({ exampleOpnSnt with m_retryCounter := 4 } : PeerLink).m_dot11MeshMaxRetries = 4 ∧
    (∀ (e : PeerEvent) (r : PmpReasonCode) (x : PeerLink), e ≠ TOR1 →
      (StateMachine e r x).m_retryCounter = x.m_retryCounter) :=
  ⟨rfl, rfl,
    (retry_counter_never_reset { exampleOpnSnt with m_retryCounter := 4 } (Or.inl rfl)
      (by decide) (by decide)).2.1⟩

/-! ### The lifetime of a recorded probe -/

/-- Counting with two tests that differ at one element of a list without
duplicates. -/
theorem countP_split_at (L : List Nat) (hnd : L.Nodup) (c : Nat) (hc : c ∈ L)
    (p q : Nat → Bool) (hpq : ∀ j, j ∈ L → j ≠ c → p j = q j) (hq : q c = false) :
    L.countP p = L.countP q + (if p c = true then 1 else 0) := by
  induction L with
  | nil => exact absurd hc (List.not_mem_nil _)
  | cons x L ih =>
    rw [List.nodup_cons] at hnd
    rw [List.countP_cons, List.countP_cons]
    by_cases hx : x = c
    · subst hx
      have hcongr : L.countP p = L.countP q := by
        apply List.countP_congr
        intro j hj
        have hne : j ≠ x := fun h => hnd.1 (h ▸ hj)
        rw [hpq j (List.mem_cons_of_mem _ hj) hne]
      rw [hcongr, hq]
      simp
    · have hcL : c ∈ L := by
        rcases List.mem_cons.mp hc with h | h
        · exact absurd h.symm hx
        · exact h
      rw [ih hnd.2 hcL (fun j hj hne => hpq j (List.mem_cons_of_mem _ hj) hne),
        hpq x (List.mem_cons_self _ _) hx]
      omega

/-- The forward count of a map is the forward count of the map without the bit of
slot `c`, plus one when that bit is set and the slot is counted. -/
theorem Lpp10bMapToCnt_bit (x c : Nat) (e : NeighborEtx) (ht : e.m_lppTimeStamp ≤ 11)
    (hc : c < 12) :
    Lpp10bMapToCnt x e = Lpp10bMapToCnt (x &&& clearMask c) e
      + (if (countedSlot e.m_lppTimeStamp c && x.testBit c) = true then 1 else 0) := by
  rw [Lpp10bMapToCnt_counted x e ht, Lpp10bMapToCnt_counted _ e ht]
  apply countP_split_at (List.range 12) (List.nodup_range 12) c (List.mem_range.mpr hc)
  · intro j hj hne
    rw [Nat.testBit_and, clearMask_testBit, decide_eq_true ⟨List.mem_range.mp hj, hne⟩,
      Bool.and_true]
  · rw [Nat.testBit_and, clearMask_testBit]
    simp

/-- After UpdateNeighborEtx for one of the slots 0..11 the neighbour is tracked with
the bit of that slot set; the time stamp is as before. -/
theorem UpdateNeighborEtx_bit (addr : Mac48Address) (slot rev : Nat) (e : NeighborEtx)
    (hs : slot ≤ 11) :
    ∃ etx, (UpdateNeighborEtx addr slot rev e).2.m_neighborEtx addr = some etx ∧
      etx.m_lppMyCnt10bMap.testBit slot = true ∧
      (UpdateNeighborEtx addr slot rev e).2.m_lppTimeStamp = e.m_lppTimeStamp := by
  have h16 : (65536 : Nat) = 2 ^ 16 := by norm_num
  have hlt : slot < 16 := by omega
  unfold UpdateNeighborEtx
  cases h : e.m_neighborEtx addr with
  | none =>
    refine ⟨_, if_pos rfl, ?_, rfl⟩
    show ((0x0001 <<< slot) % 65536).testBit slot = true
    rw [h16, Nat.testBit_mod_two_pow, Nat.one_shiftLeft, Nat.testBit_two_pow_self]
    simp [hlt]
  | some i =>
    refine ⟨_, if_pos rfl, ?_, rfl⟩
    show ((i.m_lppMyCnt10bMap ||| (0x0001 <<< slot)) % 65536).testBit slot = true
    rw [h16, Nat.testBit_mod_two_pow, Nat.testBit_or, Nat.one_shiftLeft, Nat.testBit_two_pow_self]
    simp [hlt]

/-- From one of the twelve slots, none of the first ten calls clears that slot and
the eleventh does; the slot is counted after each of the first ten calls and not
before them. -/
theorem slot_lifetime :
    ∀ c, c < 12 →
      (∀ k, k < 11 → (List.range k).all
        (fun j => decide (c < 12 ∧ c ≠ CalculateNextLppTimeStamp^[j + 2] c)) = true) ∧
      (List.range 11).all
        (fun j => decide (c < 12 ∧ c ≠ CalculateNextLppTimeStamp^[j + 2] c)) = false ∧
      countedSlot c c = false ∧
      (∀ k, k < 11 → 1 ≤ k → countedSlot (CalculateNextLppTimeStamp^[k] c) c = true) ∧
      (∀ k, k < 12 → CalculateNextLppTimeStamp^[k] c ≤ 11) := by
  decide

/-- C36. Let UpdateNeighborEtx record, for a neighbour, a probe in the slot c that
is the current time stamp of the tracker, c among 0..11, and let k calls of
GotoNextTimeStampAndClearOldest follow, with no other call in between.  For k = 0
the bit of slot c is set but not counted: the forward count is the same as without
the bit.  For k = 1, ..., 10 the bit is set and counted: the forward count is one
more than without it.  For k = 11 the bit is clear.  So the probe contributes to
the forward count during exactly 10 consecutive cycles. -/
theorem probe_lifetime (addr : Mac48Address) (rev k : Nat) (e : NeighborEtx)
    (ht : e.m_lppTimeStamp ≤ 11) (hk : k ≤ 11) :
    ∃ etx,
      (GotoNextTimeStampAndClearOldest^[k]
        (UpdateNeighborEtx addr e.m_lppTimeStamp rev e).2).m_neighborEtx addr = some etx ∧
      (k = 0 → etx.m_lppMyCnt10bMap.testBit e.m_lppTimeStamp = true ∧
        Lpp10bMapToCnt etx.m_lppMyCnt10bMap
            (GotoNextTimeStampAndClearOldest^[k] (UpdateNeighborEtx addr e.m_lppTimeStamp rev e).2)
          = Lpp10bMapToCnt (etx.m_lppMyCnt10bMap &&& clearMask e.m_lppTimeStamp)
            (GotoNextTimeStampAndClearOldest^[k]
              (UpdateNeighborEtx addr e.m_lppTimeStamp rev e).2)) ∧
      (1 ≤ k → k ≤ 10 → etx.m_lppMyCnt10bMap.testBit e.m_lppTimeStamp = true ∧
        Lpp10bMapToCnt etx.m_lppMyCnt10bMap
            (GotoNextTimeStampAndClearOldest^[k] (UpdateNeighborEtx addr e.m_lppTimeStamp rev e).2)
          = Lpp10bMapToCnt (etx.m_lppMyCnt10bMap &&& clearMask e.m_lppTimeStamp)
            (GotoNextTimeStampAndClearOldest^[k]
              (UpdateNeighborEtx addr e.m_lppTimeStamp rev e).2) + 1) ∧
      (k = 11 → etx.m_lppMyCnt10bMap.testBit e.m_lppTimeStamp = false) := by
  obtain ⟨etx0, h0, hb0, hts⟩ := UpdateNeighborEtx_bit addr e.m_lppTimeStamp rev e ht
  have hc12 : e.m_lppTimeStamp < 12 := Nat.lt_succ_of_le ht
  obtain ⟨f1, f2, f3, f4, f5⟩ := slot_lifetime e.m_lppTimeStamp hc12
  have hit := GotoNextTimeStampAndClearOldest_iterate k
    (UpdateNeighborEtx addr e.m_lppTimeStamp rev e).2
  rw [hts] at hit
  have hek : (GotoNextTimeStampAndClearOldest^[k]
      (UpdateNeighborEtx addr e.m_lppTimeStamp rev e).2).m_lppTimeStamp
      = CalculateNextLppTimeStamp^[k] e.m_lppTimeStamp := by
    rw [hit]
  have hm : (GotoNextTimeStampAndClearOldest^[k]
      (UpdateNeighborEtx addr e.m_lppTimeStamp rev e).2).m_neighborEtx addr
      = some { m_lppMyCnt10bMap := (List.range k).foldl
                (fun m j => m &&& clearMask (CalculateNextLppTimeStamp^[j + 2] e.m_lppTimeStamp))
                etx0.m_lppMyCnt10bMap
               m_lppReverse := etx0.m_lppReverse } := by
    rw [hit]
    simp only [h0]
    rfl
  have hbit : ((List.range k).foldl
      (fun m j => m &&& clearMask (CalculateNextLppTimeStamp^[j + 2] e.m_lppTimeStamp))
      etx0.m_lppMyCnt10bMap).testBit e.m_lppTimeStamp
      = (List.range k).all (fun j => decide (e.m_lppTimeStamp < 12 ∧
          e.m_lppTimeStamp ≠ CalculateNextLppTimeStamp^[j + 2] e.m_lppTimeStamp)) := by
    rw [foldl_and_testBit
      (fun j => clearMask (CalculateNextLppTimeStamp^[j + 2] e.m_lppTimeStamp)), hb0,
      Bool.true_and]
    congr 1
    funext j
    exact clearMask_testBit _ _
  have htk : (GotoNextTimeStampAndClearOldest^[k]
      (UpdateNeighborEtx addr e.m_lppTimeStamp rev e).2).m_lppTimeStamp ≤ 11 := by
    rw [hek]
    exact f5 k (by omega)
  refine ⟨_, hm, ?_, ?_, ?_⟩
  · intro hk0
    have hset := hbit.trans (f1 k (by omega))
    refine ⟨hset, ?_⟩
    have f3k : countedSlot (CalculateNextLppTimeStamp^[k] e.m_lppTimeStamp) e.m_lppTimeStamp
        = false := by
      subst hk0
      exact f3
    rw [Lpp10bMapToCnt_bit _ e.m_lppTimeStamp _ htk hc12, hek, hset, Bool.and_true, f3k]
    rfl
  · intro h1 h10
    have hset := hbit.trans (f1 k (by omega))
    refine ⟨hset, ?_⟩
    rw [Lpp10bMapToCnt_bit _ e.m_lppTimeStamp _ htk hc12, hek, hset, Bool.and_true,
      f4 k (by omega) h1]
    rfl
  · intro h11
    subst h11
    exact hbit.trans f2

/-- Witness of C36: on a fresh tracker, at time stamp 0, a probe of the neighbour 5
is recorded in slot 0.  The map is 1 and the forward count 0 right afterwards; after
three calls the map is still 1 and the forward count is 1; after eleven calls the
map is 0. -/
theorem probe_lifetime_witness :
    NeighborEtx.NeighborEtx.m_lppTimeStamp = 0 ∧
    Lpp10bMapToCnt 1 (UpdateNeighborEtx 5 0 7 NeighborEtx.NeighborEtx).2 = 0 ∧
    (GotoNextTimeStampAndClearOldest^[3]
      (UpdateNeighborEtx 5 0 7 NeighborEtx.NeighborEtx).2).m_neighborEtx 5
      = some { m_lppMyCnt10bMap := 1, m_lppReverse := 7 } ∧
    Lpp10bMapToCnt 1 (GotoNextTimeStampAndClearOldest^[3]
      (UpdateNeighborEtx 5 0 7 NeighborEtx.NeighborEtx).2) = 1 ∧
    (GotoNextTimeStampAndClearOldest^[11]
      (UpdateNeighborEtx 5 0 7 NeighborEtx.NeighborEtx).2).m_neighborEtx 5
      = some { m_lppMyCnt10bMap := 0, m_lppReverse := 7 } ∧
    (∃ etx,
      (GotoNextTimeStampAndClearOldest^[11]
        (UpdateNeighborEtx 5 0 7 NeighborEtx.NeighborEtx).2).m_neighborEtx 5 = some etx ∧
      etx.m_lppMyCnt10bMap.testBit 0 = false) := by
  refine ⟨rfl, by decide, by decide, by decide, by decide, ?_⟩
  obtain ⟨etx, h, -, -, h11⟩ :=
    probe_lifetime 5 7 11 NeighborEtx.NeighborEtx (by decide) (by decide)
  exact ⟨etx, h, h11 rfl⟩

/-! ### The size of the link-probe element -/

/-- The loop of SerializeInformationField writes seven bytes for each entry. -/
theorem SerializeInformationField_loop (L : List (Mac48Address × Nat)) (i : List Nat) :
    (L.foldl (fun i j => i ++ WriteTo j.1 ++ WriteU8 j.2) i).length = i.length + 7 * L.length := by
  induction L generalizing i with
  | nil => rfl
  | cons j L ih =>
    rw [List.foldl_cons, ih, List.length_append, List.length_append, List.length_cons]
    unfold WriteTo WriteU8
    simp only [List.length_cons, List.length_nil]
    omega

/-- SerializeInformationField writes 12 bytes and 7 more for each entry of the
map. -/
theorem SerializeInformationField_length (ie : IeLpp) :
    (SerializeInformationField ie).length = 12 + 7 * ie.m_neighborsLppCnt.length := by
  unfold SerializeInformationField
  simp only
  rw [SerializeInformationField_loop]
  rfl

/-- GetInformationFieldSize is 12 + 7 n modulo 256 for a map of n entries, n up to
255; it is 12 + 7 n, the number of bytes written, as long as n is at most 34. -/
theorem GetInformationFieldSize_eq (ie : IeLpp) (h : ie.m_neighborsLppCnt.length ≤ 255) :
    GetInformationFieldSize ie = (12 + 7 * ie.m_neighborsLppCnt.length) % 256 ∧
    (ie.m_neighborsLppCnt.length ≤ 34 →
      GetInformationFieldSize ie = (SerializeInformationField ie).length) ∧
    (35 ≤ ie.m_neighborsLppCnt.length →
      GetInformationFieldSize ie ≠ (SerializeInformationField ie).length) := by
  rw [SerializeInformationField_length]
  unfold GetInformationFieldSize GetNumberNeighbors
  simp only
  refine ⟨by omega, fun h34 => by omega, fun h35 => by omega⟩

set_option maxRecDepth 20000

/-- C40, the code evaluated at the failing input.  The element exampleLpp 35 holds
35 neighbour entries, added by AddToNeighborsList without any assertion violated.
SerializeInformationField writes 257 = 12 + 7 * 35 bytes for it, and
GetInformationFieldSize returns 1, which is 257 modulo 256.  With 34 entries both
are 250. -/
theorem information_field_size_wraps :
    (exampleLpp 35).m_neighborsLppCnt.length = 35 ∧
    GetNumberNeighbors (exampleLpp 35) = 35 ∧
    (exampleLpp 35).m_failedAsserts = [] ∧
    (SerializeInformationField (exampleLpp 35)).length = 257 ∧
    GetInformationFieldSize (exampleLpp 35) = 1 ∧
    12 + 7 * 35 = 257 ∧
    GetInformationFieldSize (exampleLpp 34) = 250 ∧
    (SerializeInformationField (exampleLpp 34)).length = 250 :=
  ⟨rfl, rfl, rfl, rfl, rfl, rfl, rfl, rfl⟩

end Dot11s
